import Mathlib

/-!
# MRPT navigation supervisor (CAbstractNavigator): a verification development

A shallow embedding of `libs/nav/src/reactive/CAbstractNavigator.cpp`, and of the angle
wrapping functions of `python/src/math_bindings.cpp`.

* C++ `double` values (coordinates, distances, seconds) are idealised as elements of a linearly
  ordered field `R`; the C math library (`sqrt`, `cos`, `sin`) is a parameter `Libm R`.
* The robot interface `m_robot` and the virtual `performNavigationStep()` are external: every
  operation receives the answers of the outside world in an `Env` and returns, next to the new
  supervisor state, the list of outgoing calls it made, in program order.
* `std::numeric_limits<double>::max()` is idealised as the top element of `WithTop R`.
* Logging (`MRPT_LOG_*`, `cerr`) and the critical-section locker are not modelled.
-/

namespace MRPT

/-! ## Data model -/

/-- The enum `CAbstractNavigator::TState`. -/
inductive TState where
  | IDLE
  | NAVIGATING
  | SUSPENDED
  | NAV_ERROR
  deriving DecidableEq, Repr

/-- The type `mrpt::math::TPoint2D`. -/
structure TPoint2D (R : Type) where
  x : R
  y : R

/-- The type `mrpt::math::TPose2D`: position and heading (radians). -/
structure TPose2D (R : Type) where
  x : R
  y : R
  phi : R

/-- The type `mrpt::math::TTwist2D`: planar velocity. -/
structure TTwist2D (R : Type) where
  vx : R
  vy : R
  omega : R

/-- The type `mrpt::math::TSegment2D`. -/
structure TSegment2D (R : Type) where
  point1 : TPoint2D R
  point2 : TPoint2D R

/-- The struct `CAbstractNavigator::TNavigationParams` (source lines 22-28 give the defaults). -/
structure TNavigationParams (R : Type) where
  target : TPose2D R
  targetAllowedDistance : R
  targetIsRelative : Bool
  targetIsIntermediaryWaypoint : Bool

/-- The C math library functions used (indirectly) by the navigator. -/
structure Libm (R : Type) where
  sqrt : R → R
  cos : R → R
  sin : R → R

/-- Outgoing calls of the supervisor: the methods of `m_robot` (`CRobot2NavInterface`) and the
virtual path-following hook `performNavigationStep`. -/
inductive Call where
  | getCurrentPoseAndSpeeds
  | stop
  | startWatchdog (period_ms : Nat)
  | stopWatchdog
  | sendNavigationStartEvent
  | sendNavigationEndEvent
  | sendNavigationEndDueToErrorEvent
  | sendWaySeemsBlockedEvent
  | performNavigationStep
  deriving DecidableEq, Repr

/-- What the outside world answers during one public operation.
`poseOk`, `pose`, `vel`: return value and out-parameters of `m_robot.getCurrentPoseAndSpeeds`;
`now`: the value of `mrpt::system::getCurrentTime()` (read at most once per operation), in seconds;
`strategyThrows`: whether `performNavigationStep()` raises an exception. -/
structure Env (R : Type) where
  poseOk : Bool
  pose : TPose2D R
  vel : TTwist2D R
  now : R
  strategyThrows : Bool

/-- The data members of `CAbstractNavigator` (the mutex, the logger and the robot reference
are left out). `m_navigationParams = none` is the `NULL` pointer. -/
structure CAbstractNavigator (R : Type) where
  m_lastNavigationState : TState
  m_navigationEndEventSent : Bool
  m_navigationState : TState
  m_navigationParams : Option (TNavigationParams R)
  m_curPose : TPose2D R
  m_curVel : TTwist2D R
  m_curVelLocal : TTwist2D R
  m_lastPose : TPose2D R
  m_badNavAlarm_minDistTarget : WithTop R
  m_badNavAlarm_lastMinDistTime : R
  m_badNavAlarm_AlarmTimeout : R
  DIST_TO_TARGET_FOR_SENDING_EVENT : R

/-- How control leaves the `try` block of the `NAVIGATING` case of `navigationStep`. -/
inductive TryExit where
  | completed
  | brk
  | threw
  deriving DecidableEq, Repr

section Model

variable {R : Type} [LinearOrderedField R]

/-! ## Library code of the repository that is not part of the sources at hand -/

/-- Modelled from the spec: the conversion `TPoint2D(const TPose2D&)` (declared in
`lightweight_geom_data.h`, not in src) keeps the position and drops the heading. -/
def TPoint2D.ofPose (p : TPose2D R) : TPoint2D R :=
  { x := p.x, y := p.y }

/-- Modelled from the spec: `TSegment2D::distance` (defined in the geometry library, not in
src) is "the minimum distance from the target point to the line segment": the point is
projected on the supporting line, the projection parameter is clamped to the segment, and the
Euclidean distance to the resulting closest point is returned. -/
def TSegment2D.distance (M : Libm R) (s : TSegment2D R) (p : TPoint2D R) : R :=
  let dx := s.point2.x - s.point1.x
  let dy := s.point2.y - s.point1.y
  let len2 := dx * dx + dy * dy
  let t := if len2 = 0 then 0
    else max 0 (min 1 (((p.x - s.point1.x) * dx + (p.y - s.point1.y) * dy) / len2))
  let cx := s.point1.x + t * dx
  let cy := s.point1.y + t * dy
  M.sqrt ((p.x - cx) * (p.x - cx) + (p.y - cy) * (p.y - cy))

/-- The squared Euclidean distance from `p` to the point of the segment `s` with parameter `u`
(`u = 0` is `point1`, `u = 1` is `point2`); the spec's "minimum distance from the target point
to the line segment" is the least square root of these values over `0 ≤ u ≤ 1`. -/
def sqDistToPointAt (s : TSegment2D R) (p : TPoint2D R)
    (u : R) : R :=
  (p.x - (s.point1.x + u * (s.point2.x - s.point1.x)))
      * (p.x - (s.point1.x + u * (s.point2.x - s.point1.x)))
    + (p.y - (s.point1.y + u * (s.point2.y - s.point1.y)))
      * (p.y - (s.point1.y + u * (s.point2.y - s.point1.y)))

/-- Modelled from the spec: `CPose2D::composeFrom` (defined in the poses library, not in src)
is the "standard 2D rigid transform composition: rotate the relative offset by current heading,
then translate by current position, add headings". -/
def composeFrom (M : Libm R) (A B : TPose2D R) : TPose2D R :=
  { x := A.x + B.x * M.cos A.phi - B.y * M.sin A.phi
    y := A.y + B.x * M.sin A.phi + B.y * M.cos A.phi
    phi := A.phi + B.phi }

/-- Modelled from the spec: `TTwist2D::rotate` (not in src); "local velocity is the world
velocity rotated by -heading". -/
def TTwist2D.rotate (M : Libm R) (v : TTwist2D R) (ang : R) : TTwist2D R :=
  { vx := M.cos ang * v.vx - M.sin ang * v.vy
    vy := M.sin ang * v.vx + M.cos ang * v.vy
    omega := v.omega }

/-- Modelled from the spec: `mrpt::system::timeDifference(t1, t2)` (not in src) is the elapsed
time `t2 - t1` in seconds ("now - bestDistanceTimestamp"). -/
def timeDifference (t1 t2 : R) : R :=
  t2 - t1

/-! ## The supervisor -/

/-- The constructor (source lines 46-60). The members it does not initialise
(`m_lastPose`, `m_badNavAlarm_minDistTarget`, `m_badNavAlarm_lastMinDistTime`) hold
indeterminate values, which are parameters here. -/
def CAbstractNavigator.new (lastPose : TPose2D R) (minDist : WithTop R) (lastMinDistTime : R) :
    CAbstractNavigator R :=
  { m_lastNavigationState := TState.IDLE
    m_navigationEndEventSent := false
    m_navigationState := TState.IDLE
    m_navigationParams := none
    m_curPose := { x := 0, y := 0, phi := 0 }
    m_curVel := { vx := 0, vy := 0, omega := 0 }
    m_curVelLocal := { vx := 0, vy := 0, omega := 0 }
    m_lastPose := lastPose
    m_badNavAlarm_minDistTarget := minDist
    m_badNavAlarm_lastMinDistTime := lastMinDistTime
    m_badNavAlarm_AlarmTimeout := 30
    DIST_TO_TARGET_FOR_SENDING_EVENT := 0 }

/-- The default `TNavigationParams` (source lines 22-28). -/
def TNavigationParams.default : TNavigationParams R :=
  { target := { x := 0, y := 0, phi := 0 }
    targetAllowedDistance := 1 / 2
    targetIsRelative := false
    targetIsIntermediaryWaypoint := false }

/-- `CAbstractNavigator::cancel` (source lines 71-77). -/
def cancel (s : CAbstractNavigator R) : CAbstractNavigator R × List Call :=
  ({ s with m_navigationState := TState.IDLE }, [Call.stop])

/-- `CAbstractNavigator::resume` (source lines 83-90). -/
def resume (s : CAbstractNavigator R) : CAbstractNavigator R × List Call :=
  if s.m_navigationState = TState.SUSPENDED then
    ({ s with m_navigationState := TState.NAVIGATING }, [])
  else (s, [])

/-- `CAbstractNavigator::suspend` (source lines 96-103). -/
def suspend (s : CAbstractNavigator R) : CAbstractNavigator R × List Call :=
  if s.m_navigationState = TState.NAVIGATING then
    ({ s with m_navigationState := TState.SUSPENDED }, [])
  else (s, [])

/-- `CAbstractNavigator::resetNavError` (source lines 105-112). -/
def resetNavError (s : CAbstractNavigator R) : CAbstractNavigator R × List Call :=
  if s.m_navigationState = TState.NAV_ERROR then
    ({ s with m_navigationState := TState.IDLE }, [])
  else (s, [])

/-- `CAbstractNavigator::doEmergencyStop` (source lines 255-260). -/
def doEmergencyStop (s : CAbstractNavigator R) : CAbstractNavigator R × List Call :=
  ({ s with m_navigationState := TState.NAV_ERROR }, [Call.stop])

/-- `CAbstractNavigator::navigate` (source lines 263-299). `params->clone()` is a plain copy. -/
def navigate (M : Libm R) (s : CAbstractNavigator R) (params : TNavigationParams R)
    (env : Env R) : CAbstractNavigator R × List Call :=
  -- lines 267-271
  let s1 := { s with m_navigationEndEventSent := false, m_navigationParams := some params }
  if params.targetIsRelative then
    -- lines 276-282
    if !env.poseOk then
      let r := doEmergencyStop s1
      (r.1, Call.getCurrentPoseAndSpeeds :: r.2)
    else
      -- lines 284-290
      let absTarget := composeFrom M env.pose params.target
      let p2 := { params with target := absTarget, targetIsRelative := false }
      -- lines 294-298
      ({ s1 with
          m_navigationParams := some p2
          m_navigationState := TState.NAVIGATING
          m_badNavAlarm_minDistTarget := ⊤
          m_badNavAlarm_lastMinDistTime := env.now },
        [Call.getCurrentPoseAndSpeeds])
  else
    -- lines 294-298
    ({ s1 with
        m_navigationState := TState.NAVIGATING
        m_badNavAlarm_minDistTarget := ⊤
        m_badNavAlarm_lastMinDistTime := env.now },
      [])

/-- The call of `performNavigationStep()` at source line 239 and the end of the `try` block.
The strategy is external and, following the spec, stateless: it does not touch the members of
the supervisor. -/
def callStrategy (s : CAbstractNavigator R) (tr : List Call) (env : Env R) :
    CAbstractNavigator R × List Call × TryExit :=
  (s, tr ++ [Call.performNavigationStep],
    if env.strategyThrows then TryExit.threw else TryExit.completed)

/-- The `try` block of the `NAVIGATING` case of `navigationStep` (source lines 158-239).
The result is `none` when the block dereferences the `NULL` parameters pointer (lines 193 ff.),
which is undefined behaviour in the source. -/
def navigatingTry (M : Libm R) (s : CAbstractNavigator R) (env : Env R) :
    Option (CAbstractNavigator R × List Call × TryExit) :=
  -- lines 158-167
  let is_first_nav_step : Bool := decide (s.m_lastNavigationState ≠ TState.NAVIGATING)
  let tr0 : List Call := if is_first_nav_step then [Call.startWatchdog 1000] else []
  -- lines 170-171
  let tr1 : List Call :=
    if s.m_lastNavigationState = TState.IDLE then tr0 ++ [Call.sendNavigationStartEvent] else tr0
  -- line 176: the callee writes its out-parameters m_curPose and m_curVel
  let s1 := { s with m_curPose := env.pose, m_curVel := env.vel }
  let tr2 := tr1 ++ [Call.getCurrentPoseAndSpeeds]
  if !env.poseOk then
    -- lines 178-180
    some ({ s1 with m_navigationState := TState.NAV_ERROR }, tr2 ++ [Call.stop], TryExit.threw)
  else
    -- lines 182-183
    let s2 := { s1 with m_curVelLocal := TTwist2D.rotate M s1.m_curVel (-s1.m_curPose.phi) }
    -- line 185
    let s3 := if is_first_nav_step then { s2 with m_lastPose := s2.m_curPose } else s2
    match s3.m_navigationParams with
    | none => none
    | some p =>
      -- lines 191-193
      let seg_robot_mov : TSegment2D R :=
        { point1 := TPoint2D.ofPose s3.m_curPose, point2 := TPoint2D.ofPose s3.m_lastPose }
      let targetDist := seg_robot_mov.distance M (TPoint2D.ofPose p.target)
      -- lines 196-200
      let fire : Bool := !p.targetIsIntermediaryWaypoint && !s3.m_navigationEndEventSent
        && decide (targetDist < s3.DIST_TO_TARGET_FOR_SENDING_EVENT)
      let s4 := if fire then { s3 with m_navigationEndEventSent := true } else s3
      let tr4 := if fire then tr2 ++ [Call.sendNavigationEndEvent] else tr2
      -- lines 203-217
      if targetDist < p.targetAllowedDistance then
        let tr5 := if !p.targetIsIntermediaryWaypoint then tr4 ++ [Call.stop] else tr4
        let s5 := { s4 with m_navigationState := TState.IDLE }
        let fire2 : Bool := !p.targetIsIntermediaryWaypoint && !s5.m_navigationEndEventSent
        let s6 := if fire2 then { s5 with m_navigationEndEventSent := true } else s5
        let tr6 := if fire2 then tr5 ++ [Call.sendNavigationEndEvent] else tr5
        some (s6, tr6, TryExit.brk)
      -- lines 221-225
      else if (targetDist : WithTop R) < s4.m_badNavAlarm_minDistTarget then
        let s5 := { s4 with
          m_badNavAlarm_minDistTarget := (targetDist : WithTop R)
          m_badNavAlarm_lastMinDistTime := env.now }
        some (callStrategy s5 tr4 env)
      -- lines 229-235
      else if timeDifference s4.m_badNavAlarm_lastMinDistTime env.now
          > s4.m_badNavAlarm_AlarmTimeout then
        some ({ s4 with m_navigationState := TState.NAV_ERROR },
          tr4 ++ [Call.sendWaySeemsBlockedEvent], TryExit.brk)
      else
        some (callStrategy s4 tr4 env)

/-- `CAbstractNavigator::navigationStep` (source lines 117-253). Every way of leaving the
`try` block (normal completion, `break`, an exception caught by one of the two handlers at
lines 242-249) continues at line 252. The result is `none` only for the undefined behaviour
described at `navigatingTry`. -/
def navigationStep (M : Libm R) (s : CAbstractNavigator R) (env : Env R) :
    Option (CAbstractNavigator R × List Call) :=
  let prevState := s.m_navigationState
  match s.m_navigationState with
  | TState.IDLE | TState.SUSPENDED =>
    -- lines 129-134
    let tr : List Call :=
      if s.m_lastNavigationState = TState.NAVIGATING then [Call.stopWatchdog] else []
    some ({ s with m_lastNavigationState := prevState }, tr)
  | TState.NAV_ERROR =>
    -- lines 142-143
    let tr1 : List Call :=
      if s.m_lastNavigationState = TState.NAVIGATING ∧ s.m_navigationState = TState.NAV_ERROR
      then [Call.sendNavigationEndDueToErrorEvent] else []
    -- lines 146-151
    let tr2 : List Call :=
      if s.m_lastNavigationState = TState.NAVIGATING
      then tr1 ++ [Call.stop, Call.stopWatchdog] else tr1
    some ({ s with m_lastNavigationState := prevState }, tr2)
  | TState.NAVIGATING =>
    match navigatingTry M s env with
    | none => none
    | some (s2, tr, _) => some ({ s2 with m_lastNavigationState := prevState }, tr)

/-- A run of consecutive `navigationStep` calls with no command in between, one per element
of `envs`; the calls of all steps are concatenated. -/
def runSteps (M : Libm R) :
    CAbstractNavigator R → List (Env R) → Option (CAbstractNavigator R × List Call)
  | s, [] => some (s, [])
  | s, env :: envs =>
    match navigationStep M s env with
    | none => none
    | some (s1, tr1) =>
      match runSteps M s1 envs with
      | none => none
      | some (s2, tr2) => some (s2, tr1 ++ tr2)

/-! ## Vocabulary of the statements -/

/-- The calls a `NAVIGATING` step makes before it queries the pose (source lines 158-171). -/
def entryCalls (s : CAbstractNavigator R) : List Call :=
  (if s.m_lastNavigationState ≠ TState.NAVIGATING then [Call.startWatchdog 1000] else [])
    ++ (if s.m_lastNavigationState = TState.IDLE then [Call.sendNavigationStartEvent] else [])

/-- The value of `m_lastPose` when `seg_robot_mov` is built at line 191 of a `NAVIGATING` step
with a successful pose query: the pose just read on the first step after entering the state,
the stored `m_lastPose` otherwise. -/
def lastPoseAtCheck (s : CAbstractNavigator R) (env : Env R) : TPose2D R :=
  if s.m_lastNavigationState ≠ TState.NAVIGATING then env.pose else s.m_lastPose

/-- The value of `targetDist` (line 193) in a `NAVIGATING` step with a successful pose query
and stored parameters `p`. -/
def targetDistAt (M : Libm R) (s : CAbstractNavigator R) (p : TNavigationParams R)
    (env : Env R) : R :=
  TSegment2D.distance M
    { point1 := TPoint2D.ofPose env.pose, point2 := TPoint2D.ofPose (lastPoseAtCheck s env) }
    (TPoint2D.ofPose p.target)

/-- The supervisor members after the pose has been read successfully in a `NAVIGATING` step
(lines 176-185). -/
def afterPoseRead (M : Libm R) (s : CAbstractNavigator R)
    (env : Env R) : CAbstractNavigator R :=
  { s with m_curPose := env.pose, m_curVel := env.vel,
           m_curVelLocal := TTwist2D.rotate M env.vel (-env.pose.phi),
           m_lastPose := lastPoseAtCheck s env }

/-- The early end-of-navigation event of lines 196-200 is sent. -/
def earlyEndEvent (M : Libm R) (s : CAbstractNavigator R)
    (p : TNavigationParams R) (env : Env R) : Bool :=
  !p.targetIsIntermediaryWaypoint && !s.m_navigationEndEventSent
    && decide (targetDistAt M s p env < s.DIST_TO_TARGET_FOR_SENDING_EVENT)

/-- The calls of a `NAVIGATING` step with a successful pose query up to the goal-reached
test of line 203. -/
def callsBeforeGoalTest (M : Libm R) (s : CAbstractNavigator R) (p : TNavigationParams R)
    (env : Env R) : List Call :=
  entryCalls s ++ [Call.getCurrentPoseAndSpeeds]
    ++ (if earlyEndEvent M s p env then [Call.sendNavigationEndEvent] else [])

/-- The supervisor members after a `NAVIGATING` step that found the goal reached. -/
def afterReached (M : Libm R) (s : CAbstractNavigator R) (p : TNavigationParams R)
    (env : Env R) : CAbstractNavigator R :=
  { afterPoseRead M s env with
      m_navigationEndEventSent := s.m_navigationEndEventSent || !p.targetIsIntermediaryWaypoint
      m_navigationState := TState.IDLE
      m_lastNavigationState := TState.NAVIGATING }

/-- The supervisor members after a `NAVIGATING` step in which the distance improved. -/
def afterImproved (M : Libm R) (s : CAbstractNavigator R) (p : TNavigationParams R)
    (env : Env R) : CAbstractNavigator R :=
  { afterPoseRead M s env with
      m_navigationEndEventSent := s.m_navigationEndEventSent || earlyEndEvent M s p env
      m_badNavAlarm_minDistTarget := ((targetDistAt M s p env : R) : WithTop R)
      m_badNavAlarm_lastMinDistTime := env.now
      m_lastNavigationState := TState.NAVIGATING }

/-- The supervisor members after a `NAVIGATING` step that declared a stall. -/
def afterStalled (M : Libm R) (s : CAbstractNavigator R) (p : TNavigationParams R)
    (env : Env R) : CAbstractNavigator R :=
  { afterPoseRead M s env with
      m_navigationEndEventSent := s.m_navigationEndEventSent || earlyEndEvent M s p env
      m_navigationState := TState.NAV_ERROR
      m_lastNavigationState := TState.NAVIGATING }

/-- The supervisor members after a `NAVIGATING` step with neither improvement nor stall. -/
def afterSteady (M : Libm R) (s : CAbstractNavigator R) (p : TNavigationParams R)
    (env : Env R) : CAbstractNavigator R :=
  { afterPoseRead M s env with
      m_navigationEndEventSent := s.m_navigationEndEventSent || earlyEndEvent M s p env
      m_lastNavigationState := TState.NAVIGATING }

/-- The stall condition of lines 221-229: the distance does not improve on the best one and the
alarm timeout has been exceeded. -/
def stallDeclared (M : Libm R) (s : CAbstractNavigator R) (p : TNavigationParams R)
    (env : Env R) : Prop :=
  ¬ (((targetDistAt M s p env : R) : WithTop R) < s.m_badNavAlarm_minDistTarget)
    ∧ timeDifference s.m_badNavAlarm_lastMinDistTime env.now > s.m_badNavAlarm_AlarmTimeout

instance (M : Libm R) (s : CAbstractNavigator R) (p : TNavigationParams R) (env : Env R) :
    Decidable (stallDeclared M s p env) := by
  unfold stallDeclared
  exact inferInstance

/-- The condition under which the spec has the strategy invoked: the step is taken in
`NAVIGATING`, the pose query succeeds, the goal is not reached and no stall is declared. -/
def strategyDue (M : Libm R) (s : CAbstractNavigator R) (env : Env R) : Prop :=
  s.m_navigationState = TState.NAVIGATING ∧ env.poseOk = true
    ∧ ∃ p, s.m_navigationParams = some p
        ∧ ¬ targetDistAt M s p env < p.targetAllowedDistance
        ∧ ¬ stallDeclared M s p env

/-- The supervisor is in the middle of an episode without progress: it is navigating towards
`p`, the previous step was a navigating one too, the robot was last seen at `P`, and the best
distance `d` was recorded at time `t1`. -/
def SteadyAt (p : TNavigationParams R) (P : TPose2D R) (d t1 : R) (T : R)
    (s : CAbstractNavigator R) : Prop :=
  s.m_navigationState = TState.NAVIGATING
    ∧ s.m_lastNavigationState = TState.NAVIGATING
    ∧ s.m_navigationParams = some p
    ∧ s.m_badNavAlarm_minDistTarget = ((d : R) : WithTop R)
    ∧ s.m_badNavAlarm_lastMinDistTime = t1
    ∧ s.m_lastPose = P
    ∧ s.m_badNavAlarm_AlarmTimeout = T

/-- Example input: the robot reports the position `(x, y)` with heading 0 and zero velocity at
time `t`, and the strategy does not throw. -/
def envAt (x y t : R) : Env R :=
  { poseOk := true
    pose := { x := x, y := y, phi := 0 }
    vel := { vx := 0, vy := 0, omega := 0 }
    now := t
    strategyThrows := false }

/-- Example input: the goal `(x, y)` with heading 0 and the default acceptance policy. -/
def goalAt (x y : R) : TNavigationParams R :=
  { target := { x := x, y := y, phi := 0 }
    targetAllowedDistance := 1 / 2
    targetIsRelative := false
    targetIsIntermediaryWaypoint := false }

/-- Example input: a freshly constructed supervisor (its uninitialised members set to zero
and to the top distance). -/
def freshNavigator : CAbstractNavigator R :=
  CAbstractNavigator.new { x := 0, y := 0, phi := 0 } ⊤ 0

/-! ## Sequences of public operations -/

/-- The public operations of the supervisor (the command surface and the periodic step). -/
inductive Command (R : Type) where
  | navigate (params : TNavigationParams R)
  | cancel
  | suspend
  | resume
  | resetNavError
  | navigationStep

/-- One public operation, with the answers of the outside world during it. The result is
`none` only when a step runs into the undefined behaviour described at `navigatingTry`. -/
def applyCommand (M : Libm R) (s : CAbstractNavigator R) (c : Command R) (env : Env R) :
    Option (CAbstractNavigator R × List Call) :=
  match c with
  | Command.navigate params => some (navigate M s params env)
  | Command.cancel => some (cancel s)
  | Command.suspend => some (suspend s)
  | Command.resume => some (resume s)
  | Command.resetNavError => some (resetNavError s)
  | Command.navigationStep => navigationStep M s env

/-- A sequence of public operations, executed one after the other (the lock of the source
serialises them); the calls of all operations are concatenated. -/
def runCommands (M : Libm R) :
    CAbstractNavigator R → List (Command R × Env R) →
      Option (CAbstractNavigator R × List Call)
  | s, [] => some (s, [])
  | s, (c, env) :: rest =>
    match applyCommand M s c env with
    | none => none
    | some (s1, tr1) =>
      match runCommands M s1 rest with
      | none => none
      | some (s2, tr2) => some (s2, tr1 ++ tr2)

/-- Whether the command is `navigate`. -/
def Command.isNavigate : Command R → Bool
  | Command.navigate _ => true
  | _ => false

/-- The invariant of the stored target: while the supervisor is navigating or suspended,
parameters are stored and their target is absolute. -/
def TargetResolved (s : CAbstractNavigator R) : Prop :=
  (s.m_navigationState = TState.NAVIGATING ∨ s.m_navigationState = TState.SUSPENDED) →
    ∃ p, s.m_navigationParams = some p ∧ p.targetIsRelative = false

/-- The calls of a step taken outside `NAVIGATING` (source lines 124-153). -/
def outsideCalls (s : CAbstractNavigator R) : List Call :=
  if s.m_navigationState = TState.NAV_ERROR then
    (if s.m_lastNavigationState = TState.NAVIGATING
      then [Call.sendNavigationEndDueToErrorEvent, Call.stop, Call.stopWatchdog] else [])
  else
    (if s.m_lastNavigationState = TState.NAVIGATING then [Call.stopWatchdog] else [])

/-- `TNavigationParams::getAsText` (source lines 31-40). `format03f` is the conversion that
`mrpt::format` applies to a `double` for the directive `%.03f`. -/
def TNavigationParams.getAsText (format03f : R → String)
    (p : TNavigationParams R) : String :=
  let s := ""
  -- line 34
  let s := s ++ ("navparams.target = (" ++ format03f p.target.x ++ "," ++ format03f p.target.y
    ++ "," ++ format03f p.target.phi ++ " deg)\n")
  -- line 35
  let s := s ++ ("navparams.targetAllowedDistance = " ++ format03f p.targetAllowedDistance
    ++ "\n")
  -- line 36
  let s := s ++ ("navparams.targetIsRelative = "
    ++ (if p.targetIsRelative then "YES" else "NO") ++ "\n")
  -- line 37
  let s := s ++ ("navparams.targetIsIntermediaryWaypoint = "
    ++ (if p.targetIsIntermediaryWaypoint then "YES" else "NO") ++ "\n")
  s

/-- The three decimals of `k < 1000`, with leading zeros. -/
def threeDigits (k : Nat) : String :=
  String.mk [Nat.digitChar (k / 100), Nat.digitChar (k / 10 % 10), Nat.digitChar (k % 10)]

/-- The number of thousandths nearest to `|q|`, ties going to the even one (the rounding of the
C library on the exact value). -/
def roundedThousandths (q : ℚ) : Nat :=
  let m : ℚ := |q| * 1000
  let f : Nat := ⌊m⌋₊
  let r : ℚ := m - f
  if r < 1 / 2 then f else if 1 / 2 < r then f + 1 else if f % 2 = 0 then f else f + 1

/-- Modelled from the spec: `mrpt::format` with the directive `%.03f` (not in src) renders a
number "to 3 decimal places": an optional minus sign, the integer part in decimal, a point and
exactly three decimals, the value being rounded to the nearest thousandth. -/
def formatFixed3 (q : ℚ) : String :=
  (if q < 0 then "-" else "") ++ toString (roundedThousandths q / 1000) ++ "."
    ++ threeDigits (roundedThousandths q % 1000)

/-- Modelled from the spec: the C library function `fmod` as "the exact truncated
remainder": `x - y * n`, where `n` is the quotient `x / y` rounded towards zero. -/
def fmod [FloorRing R] (x y : R) : R :=
  x - y * (if 0 ≤ x / y then ((⌊x / y⌋ : ℤ) : R) else ((⌈x / y⌉ : ℤ) : R))

/-- `mrpt::math::wrapTo2PiInPlace` (math_bindings.cpp lines 106-112), returning the new value
of its in-out argument. `twoPi` is the constant `static_cast<T>(2.0*M_PI)`. -/
def wrapTo2PiInPlace [FloorRing R] (twoPi : R) (a : R) : R :=
  let was_neg : Bool := decide (a < 0)
  let a := fmod a twoPi
  if was_neg then a + twoPi else a

/-- `mrpt::math::wrapTo2Pi` (math_bindings.cpp lines 114-118). -/
def wrapTo2Pi [FloorRing R] (twoPi : R) (a : R) : R :=
  wrapTo2PiInPlace twoPi a

end Model

/-! ## Theorems -/

/-! ### The modelled segment distance -/

/-- Clamping the projection parameter to the segment minimises the squared distance. -/
theorem clamp_minimises (L D u : ℝ) (hL : 0 < L) (hu0 : 0 ≤ u) (hu1 : u ≤ 1) :
    0 ≤ L * (u - max 0 (min 1 (D / L))) * (u + max 0 (min 1 (D / L)) - 2 * (D / L)) := by
  rcases le_total (D / L) 0 with h | h
  · have : max 0 (min 1 (D / L)) = 0 := by
      rw [max_eq_left]
      exact le_trans (min_le_right _ _) h
    rw [this]
    have : 0 ≤ u * (u - 2 * (D / L)) := mul_nonneg hu0 (by linarith)
    nlinarith
  · rcases le_total (D / L) 1 with h1 | h1
    · have : max 0 (min 1 (D / L)) = D / L := by
        rw [min_eq_right h1, max_eq_right h]
      rw [this]
      nlinarith [sq_nonneg (u - D / L)]
    · have : max 0 (min 1 (D / L)) = 1 := by
        rw [min_eq_left h1, max_eq_right (by norm_num)]
      rw [this]
      have : 0 ≤ (1 - u) * (2 * (D / L) - u - 1) := mul_nonneg (by linarith) (by linarith)
      nlinarith

/-- Over the reals the modelled `TSegment2D.distance` is the minimum of the Euclidean distances
from the point to the points of the segment: it is a lower bound and it is attained. -/
theorem distance_is_minimum (s : TSegment2D ℝ) (p : TPoint2D ℝ) :
    (∀ u : ℝ, 0 ≤ u → u ≤ 1 →
        TSegment2D.distance (Libm.mk Real.sqrt Real.cos Real.sin) s p
          ≤ Real.sqrt (sqDistToPointAt s p u))
    ∧ ∃ u : ℝ, 0 ≤ u ∧ u ≤ 1 ∧
        TSegment2D.distance (Libm.mk Real.sqrt Real.cos Real.sin) s p
          = Real.sqrt (sqDistToPointAt s p u) := by
  constructor
  · intro u hu0 hu1
    simp only [TSegment2D.distance, sqDistToPointAt]
    apply Real.sqrt_le_sqrt
    split_ifs with hz
    · have hx : s.point2.x - s.point1.x = 0 := by
        nlinarith [sq_nonneg (s.point2.x - s.point1.x), sq_nonneg (s.point2.y - s.point1.y)]
      have hy : s.point2.y - s.point1.y = 0 := by
        nlinarith [sq_nonneg (s.point2.x - s.point1.x), sq_nonneg (s.point2.y - s.point1.y)]
      rw [hx, hy]
      simp
    · have hL : 0 < (s.point2.x - s.point1.x) * (s.point2.x - s.point1.x)
          + (s.point2.y - s.point1.y) * (s.point2.y - s.point1.y) := by
        rcases lt_or_eq_of_le (add_nonneg (mul_self_nonneg (s.point2.x - s.point1.x))
          (mul_self_nonneg (s.point2.y - s.point1.y))) with h | h
        · exact h
        · exact absurd h.symm hz
      have key := clamp_minimises _ ((p.x - s.point1.x) * (s.point2.x - s.point1.x)
        + (p.y - s.point1.y) * (s.point2.y - s.point1.y)) u hL hu0 hu1
      have hDL : ((s.point2.x - s.point1.x) * (s.point2.x - s.point1.x)
          + (s.point2.y - s.point1.y) * (s.point2.y - s.point1.y))
          * (((p.x - s.point1.x) * (s.point2.x - s.point1.x)
            + (p.y - s.point1.y) * (s.point2.y - s.point1.y))
            / ((s.point2.x - s.point1.x) * (s.point2.x - s.point1.x)
              + (s.point2.y - s.point1.y) * (s.point2.y - s.point1.y)))
          = (p.x - s.point1.x) * (s.point2.x - s.point1.x)
            + (p.y - s.point1.y) * (s.point2.y - s.point1.y) := by
        field_simp
      generalize max 0 (min 1 (((p.x - s.point1.x) * (s.point2.x - s.point1.x)
            + (p.y - s.point1.y) * (s.point2.y - s.point1.y))
            / ((s.point2.x - s.point1.x) * (s.point2.x - s.point1.x)
              + (s.point2.y - s.point1.y) * (s.point2.y - s.point1.y)))) = t at key ⊢
      generalize ((p.x - s.point1.x) * (s.point2.x - s.point1.x)
            + (p.y - s.point1.y) * (s.point2.y - s.point1.y))
            / ((s.point2.x - s.point1.x) * (s.point2.x - s.point1.x)
              + (s.point2.y - s.point1.y) * (s.point2.y - s.point1.y)) = q at key hDL
      have e : (p.x - (s.point1.x + u * (s.point2.x - s.point1.x)))
            * (p.x - (s.point1.x + u * (s.point2.x - s.point1.x)))
          + (p.y - (s.point1.y + u * (s.point2.y - s.point1.y)))
            * (p.y - (s.point1.y + u * (s.point2.y - s.point1.y)))
          - ((p.x - (s.point1.x + t * (s.point2.x - s.point1.x)))
            * (p.x - (s.point1.x + t * (s.point2.x - s.point1.x)))
          + (p.y - (s.point1.y + t * (s.point2.y - s.point1.y)))
            * (p.y - (s.point1.y + t * (s.point2.y - s.point1.y))))
          = ((s.point2.x - s.point1.x) * (s.point2.x - s.point1.x)
              + (s.point2.y - s.point1.y) * (s.point2.y - s.point1.y)) * (u - t)
            * (u + t - 2 * q) := by
        linear_combination (2 * (u - t)) * hDL
      linarith
  · simp only [TSegment2D.distance, sqDistToPointAt]
    split_ifs with hz
    · exact ⟨0, le_refl _, by norm_num, rfl⟩
    · exact ⟨_, le_max_left _ _, max_le (by norm_num) (min_le_left _ _), rfl⟩

/-! ### What one `NAVIGATING` step does, case by case -/

/-- A `NAVIGATING` step whose pose query fails (lines 176-181, then 242-252). -/
theorem navigationStep_pose_failure {R : Type} [LinearOrderedField R] (M : Libm R)
    (s : CAbstractNavigator R) (env : Env R)
    (hs : s.m_navigationState = TState.NAVIGATING) (hfail : env.poseOk = false) :
    navigatingTry M s env
      = some ({ s with m_curPose := env.pose, m_curVel := env.vel,
                       m_navigationState := TState.NAV_ERROR },
              entryCalls s ++ [Call.getCurrentPoseAndSpeeds, Call.stop], TryExit.threw)
    ∧ navigationStep M s env
      = some ({ s with m_curPose := env.pose, m_curVel := env.vel,
                       m_navigationState := TState.NAV_ERROR,
                       m_lastNavigationState := TState.NAVIGATING },
              entryCalls s ++ [Call.getCurrentPoseAndSpeeds, Call.stop]) := by
  cases hl : s.m_lastNavigationState <;>
    simp [navigationStep, navigatingTry, entryCalls, hs, hfail, hl]

/-- A `NAVIGATING` step that finds the goal reached (lines 203-217). -/
theorem navigationStep_reached {R : Type} [LinearOrderedField R] (M : Libm R)
    (s : CAbstractNavigator R) (p : TNavigationParams R) (env : Env R)
    (hs : s.m_navigationState = TState.NAVIGATING)
    (hp : s.m_navigationParams = some p)
    (hok : env.poseOk = true)
    (hd : targetDistAt M s p env < p.targetAllowedDistance) :
    navigationStep M s env
      = some (afterReached M s p env,
              entryCalls s ++ [Call.getCurrentPoseAndSpeeds]
                ++ (if earlyEndEvent M s p env then [Call.sendNavigationEndEvent] else [])
                ++ (if p.targetIsIntermediaryWaypoint then [] else [Call.stop])
                ++ (if !p.targetIsIntermediaryWaypoint && !s.m_navigationEndEventSent
                        && !earlyEndEvent M s p env
                    then [Call.sendNavigationEndEvent] else [])) := by
  by_cases hf : targetDistAt M s p env < s.DIST_TO_TARGET_FOR_SENDING_EVENT <;>
    cases hl : s.m_lastNavigationState <;> cases hw : p.targetIsIntermediaryWaypoint <;>
    cases he : s.m_navigationEndEventSent <;>
    simp [targetDistAt, lastPoseAtCheck, hl] at hd hf <;>
    (try rw [← not_lt] at hf) <;>
    simp [navigationStep, navigatingTry, entryCalls, afterReached, afterPoseRead, earlyEndEvent,
      targetDistAt, lastPoseAtCheck, hs, hp, hok, hl, hw, he, hd, hf]


/-- A `NAVIGATING` step, goal not reached, in which the distance improves (lines 221-225, 239). -/
theorem navigationStep_improved {R : Type} [LinearOrderedField R] (M : Libm R)
    (s : CAbstractNavigator R) (p : TNavigationParams R) (env : Env R)
    (hs : s.m_navigationState = TState.NAVIGATING)
    (hp : s.m_navigationParams = some p)
    (hok : env.poseOk = true)
    (hnr : ¬ targetDistAt M s p env < p.targetAllowedDistance)
    (himp : ((targetDistAt M s p env : R) : WithTop R) < s.m_badNavAlarm_minDistTarget) :
    navigationStep M s env
      = some (afterImproved M s p env,
              callsBeforeGoalTest M s p env ++ [Call.performNavigationStep]) := by
  by_cases hf : targetDistAt M s p env < s.DIST_TO_TARGET_FOR_SENDING_EVENT <;>
    cases hl : s.m_lastNavigationState <;> cases hw : p.targetIsIntermediaryWaypoint <;>
    cases he : s.m_navigationEndEventSent <;>
    simp only [targetDistAt, lastPoseAtCheck, hl, ne_eq, not_true_eq_false, not_false_eq_true,
      if_true, if_false, reduceCtorEq] at hnr himp hf <;>
    simp [navigationStep, navigatingTry, callStrategy, callsBeforeGoalTest, entryCalls,
      afterImproved, afterStalled, afterSteady, afterPoseRead, earlyEndEvent, targetDistAt, lastPoseAtCheck, hs, hp, hok, hl, hw, he,
      hnr, himp, hf]

/-- A `NAVIGATING` step, goal not reached, in which a stall is declared (lines 226-235). -/
theorem navigationStep_stalled {R : Type} [LinearOrderedField R] (M : Libm R)
    (s : CAbstractNavigator R) (p : TNavigationParams R) (env : Env R)
    (hs : s.m_navigationState = TState.NAVIGATING)
    (hp : s.m_navigationParams = some p)
    (hok : env.poseOk = true)
    (hnr : ¬ targetDistAt M s p env < p.targetAllowedDistance)
    (hst : stallDeclared M s p env) :
    navigationStep M s env
      = some (afterStalled M s p env,
              callsBeforeGoalTest M s p env ++ [Call.sendWaySeemsBlockedEvent]) := by
  obtain ⟨hni, hto⟩ := hst
  by_cases hf : targetDistAt M s p env < s.DIST_TO_TARGET_FOR_SENDING_EVENT <;>
    cases hl : s.m_lastNavigationState <;> cases hw : p.targetIsIntermediaryWaypoint <;>
    cases he : s.m_navigationEndEventSent <;>
    simp only [targetDistAt, lastPoseAtCheck, hl, ne_eq, not_true_eq_false, not_false_eq_true,
      if_true, if_false, reduceCtorEq, gt_iff_lt] at hnr hni hto hf <;>
    simp [navigationStep, navigatingTry, callStrategy, callsBeforeGoalTest, entryCalls,
      afterImproved, afterStalled, afterSteady, afterPoseRead, earlyEndEvent, targetDistAt, lastPoseAtCheck, hs, hp, hok, hl, hw, he,
      hnr, hni, hto, hf]

/-- A `NAVIGATING` step, goal not reached, with neither an improvement nor a stall
(lines 226-239). -/
theorem navigationStep_steady {R : Type} [LinearOrderedField R] (M : Libm R)
    (s : CAbstractNavigator R) (p : TNavigationParams R) (env : Env R)
    (hs : s.m_navigationState = TState.NAVIGATING)
    (hp : s.m_navigationParams = some p)
    (hok : env.poseOk = true)
    (hnr : ¬ targetDistAt M s p env < p.targetAllowedDistance)
    (hni : ¬ ((targetDistAt M s p env : R) : WithTop R) < s.m_badNavAlarm_minDistTarget)
    (hto : ¬ timeDifference s.m_badNavAlarm_lastMinDistTime env.now
              > s.m_badNavAlarm_AlarmTimeout) :
    navigationStep M s env
      = some (afterSteady M s p env,
              callsBeforeGoalTest M s p env ++ [Call.performNavigationStep]) := by
  by_cases hf : targetDistAt M s p env < s.DIST_TO_TARGET_FOR_SENDING_EVENT <;>
    cases hl : s.m_lastNavigationState <;> cases hw : p.targetIsIntermediaryWaypoint <;>
    cases he : s.m_navigationEndEventSent <;>
    simp only [targetDistAt, lastPoseAtCheck, hl, ne_eq, not_true_eq_false, not_false_eq_true,
      if_true, if_false, reduceCtorEq, gt_iff_lt] at hnr hni hto hf <;>
    simp [navigationStep, navigatingTry, callStrategy, callsBeforeGoalTest, entryCalls,
      afterImproved, afterStalled, afterSteady, afterPoseRead, earlyEndEvent, targetDistAt, lastPoseAtCheck, hs, hp, hok, hl, hw, he,
      hnr, hni, hto, hf]

/-- Only the watchdog start and the start event can occur among the entry calls. -/
theorem mem_entryCalls {R : Type} (s : CAbstractNavigator R) (c : Call)
    (hc : c ∈ entryCalls s) :
    c = Call.startWatchdog 1000 ∨ c = Call.sendNavigationStartEvent := by
  unfold entryCalls at hc
  split_ifs at hc <;> simp at hc <;> simp [hc]

/-- The calls made before the goal test are the entry calls, the pose query and possibly the
early end event. -/
theorem mem_callsBeforeGoalTest {R : Type} [LinearOrderedField R] (M : Libm R)
    (s : CAbstractNavigator R) (p : TNavigationParams R) (env : Env R) (c : Call)
    (hc : c ∈ callsBeforeGoalTest M s p env) :
    c = Call.startWatchdog 1000 ∨ c = Call.sendNavigationStartEvent
      ∨ c = Call.getCurrentPoseAndSpeeds ∨ c = Call.sendNavigationEndEvent := by
  unfold callsBeforeGoalTest at hc
  rcases List.mem_append.1 hc with h | h
  · rcases List.mem_append.1 h with h2 | h2
    · rcases mem_entryCalls s c h2 with h3 | h3 <;> simp [h3]
    · simp at h2
      simp [h2]
  · split_ifs at h <;> simp at h
    simp [h]

/-- No strategy call, stop or blocked event happens before the goal test. -/
theorem callsBeforeGoalTest_free {R : Type} [LinearOrderedField R] (M : Libm R)
    (s : CAbstractNavigator R) (p : TNavigationParams R) (env : Env R) :
    Call.performNavigationStep ∉ callsBeforeGoalTest M s p env
    ∧ Call.stop ∉ callsBeforeGoalTest M s p env
    ∧ Call.sendWaySeemsBlockedEvent ∉ callsBeforeGoalTest M s p env := by
  refine ⟨?_, ?_, ?_⟩ <;> intro h <;>
    rcases mem_callsBeforeGoalTest M s p env _ h with h1 | h1 | h1 | h1 <;> cases h1

/-- No strategy call or blocked event happens among the entry calls. -/
theorem entryCalls_free {R : Type} (s : CAbstractNavigator R) :
    Call.performNavigationStep ∉ entryCalls s
    ∧ Call.stop ∉ entryCalls s
    ∧ Call.sendWaySeemsBlockedEvent ∉ entryCalls s := by
  refine ⟨?_, ?_, ?_⟩ <;> intro h <;>
    rcases mem_entryCalls s _ h with h1 | h1 <;> cases h1

/-- A step taken outside `NAVIGATING` always returns, keeps the current state and makes no
call other than the error event, `stop` and `stopWatchdog`. -/
theorem navigationStep_not_navigating {R : Type} [LinearOrderedField R] (M : Libm R)
    (s : CAbstractNavigator R) (env : Env R)
    (hs : s.m_navigationState ≠ TState.NAVIGATING) :
    ∃ tr, navigationStep M s env
        = some ({ s with m_lastNavigationState := s.m_navigationState }, tr)
      ∧ Call.performNavigationStep ∉ tr
      ∧ Call.sendWaySeemsBlockedEvent ∉ tr := by
  cases hst : s.m_navigationState <;> cases hl : s.m_lastNavigationState <;>
    simp [navigationStep, hst, hl] at hs ⊢

/-- Running steps over a concatenation of inputs. -/
theorem runSteps_append {R : Type} [LinearOrderedField R] (M : Libm R) (a b : List (Env R)) :
    ∀ (s s1 s2 : CAbstractNavigator R) (tr1 tr2 : List Call),
      runSteps M s a = some (s1, tr1) → runSteps M s1 b = some (s2, tr2) →
      runSteps M s (a ++ b) = some (s2, tr1 ++ tr2) := by
  induction a with
  | nil =>
    intro s s1 s2 tr1 tr2 h1 h2
    simp [runSteps] at h1
    obtain ⟨rfl, rfl⟩ := h1
    simpa using h2
  | cons e es ih =>
    intro s s1 s2 tr1 tr2 h1 h2
    simp only [runSteps, List.cons_append] at h1 ⊢
    cases hstep : navigationStep M s e with
    | none => simp [hstep] at h1
    | some r =>
      obtain ⟨sa, tra⟩ := r
      simp only [hstep] at h1 ⊢
      cases hrest : runSteps M sa es with
      | none => simp [hrest] at h1
      | some r2 =>
        obtain ⟨sb, trb⟩ := r2
        simp only [hrest, Option.some.injEq, Prod.mk.injEq] at h1
        obtain ⟨rfl, rfl⟩ := h1
        have h3 := ih sa sb s2 trb tr2 hrest h2
        simp only [List.append_eq] at h3 ⊢
        rw [h3]
        simp

/-- Outside `NAVIGATING` a run of steps always returns, never changes the current state and
neither invokes the strategy nor emits the blocked event. -/
theorem runSteps_not_navigating {R : Type} [LinearOrderedField R] (M : Libm R)
    (envs : List (Env R)) :
    ∀ s : CAbstractNavigator R, s.m_navigationState ≠ TState.NAVIGATING →
      ∃ s2 tr, runSteps M s envs = some (s2, tr)
        ∧ s2.m_navigationState = s.m_navigationState
        ∧ Call.performNavigationStep ∉ tr
        ∧ Call.sendWaySeemsBlockedEvent ∉ tr := by
  induction envs with
  | nil =>
    intro s _
    exact ⟨s, [], rfl, rfl, by simp, by simp⟩
  | cons e es ih =>
    intro s hs
    obtain ⟨tr1, h1, h2, h3⟩ := navigationStep_not_navigating M s e hs
    obtain ⟨s2, tr2, h4, h5, h6, h7⟩ :=
      ih { s with m_lastNavigationState := s.m_navigationState } hs
    refine ⟨s2, tr1 ++ tr2, ?_, h5, ?_, ?_⟩
    · simp [runSteps, h1, h4]
    · simp [h2, h6]
    · simp [h3, h7]

/-- One step emits the blocked event at most once, and when it does it ends in `NAV_ERROR`. -/
theorem navigationStep_blocked {R : Type} [LinearOrderedField R] (M : Libm R)
    (s s1 : CAbstractNavigator R) (env : Env R) (tr1 : List Call)
    (h : navigationStep M s env = some (s1, tr1)) :
    Call.sendWaySeemsBlockedEvent ∉ tr1
      ∨ (tr1.count Call.sendWaySeemsBlockedEvent = 1
          ∧ s1.m_navigationState = TState.NAV_ERROR) := by
  by_cases hs : s.m_navigationState = TState.NAVIGATING
  · cases hok : env.poseOk
    · rw [(navigationStep_pose_failure M s env hs hok).2] at h
      simp only [Option.some.injEq, Prod.mk.injEq] at h
      obtain ⟨_, rfl⟩ := h
      left
      simp [(entryCalls_free s).2.2]
    · cases hp : s.m_navigationParams with
      | none =>
        cases hl : s.m_lastNavigationState <;>
          simp [navigationStep, navigatingTry, hs, hok, hp, hl] at h
      | some p =>
        by_cases hd : targetDistAt M s p env < p.targetAllowedDistance
        · rw [navigationStep_reached M s p env hs hp hok hd] at h
          simp only [Option.some.injEq, Prod.mk.injEq] at h
          obtain ⟨_, rfl⟩ := h
          left
          have h1 := (entryCalls_free s).2.2
          split_ifs <;> simp [h1]
        · by_cases himp : ((targetDistAt M s p env : R) : WithTop R)
              < s.m_badNavAlarm_minDistTarget
          · rw [navigationStep_improved M s p env hs hp hok hd himp] at h
            simp only [Option.some.injEq, Prod.mk.injEq] at h
            obtain ⟨_, rfl⟩ := h
            left
            simp [(callsBeforeGoalTest_free M s p env).2.2]
          · by_cases hto : timeDifference s.m_badNavAlarm_lastMinDistTime env.now
                > s.m_badNavAlarm_AlarmTimeout
            · rw [navigationStep_stalled M s p env hs hp hok hd ⟨himp, hto⟩] at h
              simp only [Option.some.injEq, Prod.mk.injEq] at h
              obtain ⟨rfl, rfl⟩ := h
              right
              refine ⟨?_, rfl⟩
              rw [List.count_append,
                List.count_eq_zero_of_not_mem (callsBeforeGoalTest_free M s p env).2.2]
              simp
            · rw [navigationStep_steady M s p env hs hp hok hd himp hto] at h
              simp only [Option.some.injEq, Prod.mk.injEq] at h
              obtain ⟨_, rfl⟩ := h
              left
              simp [(callsBeforeGoalTest_free M s p env).2.2]
  · obtain ⟨tr, h1, _, h3⟩ := navigationStep_not_navigating M s env hs
    rw [h1] at h
    simp only [Option.some.injEq, Prod.mk.injEq] at h
    obtain ⟨_, rfl⟩ := h
    exact Or.inl h3

/-- Over a run of steps the blocked event is emitted at most once, and if it was emitted the
run ends in `NAV_ERROR`. -/
theorem runSteps_blocked_le_one {R : Type} [LinearOrderedField R] (M : Libm R)
    (envs : List (Env R)) :
    ∀ (s s2 : CAbstractNavigator R) (tr : List Call), runSteps M s envs = some (s2, tr) →
      tr.count Call.sendWaySeemsBlockedEvent ≤ 1
        ∧ (Call.sendWaySeemsBlockedEvent ∈ tr → s2.m_navigationState = TState.NAV_ERROR) := by
  induction envs with
  | nil =>
    intro s s2 tr h
    simp [runSteps] at h
    obtain ⟨_, rfl⟩ := h
    simp
  | cons e es ih =>
    intro s s2 tr h
    simp only [runSteps] at h
    cases hstep : navigationStep M s e with
    | none => simp [hstep] at h
    | some r =>
      obtain ⟨sa, tra⟩ := r
      simp only [hstep] at h
      cases hrest : runSteps M sa es with
      | none => simp [hrest] at h
      | some r2 =>
        obtain ⟨sb, trb⟩ := r2
        simp only [hrest, Option.some.injEq, Prod.mk.injEq] at h
        obtain ⟨rfl, rfl⟩ := h
        rcases navigationStep_blocked M s sa e tra hstep with hno | ⟨hone, herr⟩
        · obtain ⟨h1, h2⟩ := ih sa sb trb hrest
          refine ⟨?_, ?_⟩
          · rw [List.count_append, List.count_eq_zero_of_not_mem hno]
            simpa using h1
          · intro hmem
            rcases List.mem_append.1 hmem with h3 | h3
            · exact absurd h3 hno
            · exact h2 h3
        · have hne : sa.m_navigationState ≠ TState.NAVIGATING := by
            rw [herr]
            decide
          obtain ⟨s3, tr3, h4, h5, _, h7⟩ := runSteps_not_navigating M es sa hne
          rw [h4] at hrest
          simp only [Option.some.injEq, Prod.mk.injEq] at hrest
          obtain ⟨rfl, rfl⟩ := hrest
          refine ⟨?_, ?_⟩
          · rw [List.count_append, hone, List.count_eq_zero_of_not_mem h7]
          · intro _
            rw [h5, herr]

/-- While the robot stays at `P` and the alarm timeout has not expired, a run of steps keeps
the supervisor in the middle of its episode and emits no blocked event. -/
theorem runSteps_steady {R : Type} [LinearOrderedField R] (M : Libm R)
    (p : TNavigationParams R) (P : TPose2D R) (d t1 T : R)
    (hdist : TSegment2D.distance M
        { point1 := TPoint2D.ofPose P, point2 := TPoint2D.ofPose P }
        (TPoint2D.ofPose p.target) = d)
    (hfar : ¬ d < p.targetAllowedDistance)
    (pre : List (Env R)) :
    ∀ s : CAbstractNavigator R, SteadyAt p P d t1 T s →
      (∀ x ∈ pre, x.poseOk = true ∧ x.pose = P ∧ ¬ timeDifference t1 x.now > T) →
      ∃ s1 tr1, runSteps M s pre = some (s1, tr1) ∧ SteadyAt p P d t1 T s1
        ∧ Call.sendWaySeemsBlockedEvent ∉ tr1 := by
  induction pre with
  | nil =>
    intro s hs _
    exact ⟨s, [], rfl, hs, by simp⟩
  | cons e es ih =>
    intro s hs hall
    obtain ⟨h1, h2, h3, h4, h5, h6, h7⟩ := hs
    obtain ⟨hok, hpose, hto⟩ := hall e (by simp)
    have hd : targetDistAt M s p e = d := by
      simp [targetDistAt, lastPoseAtCheck, h2, h6, hpose, hdist]
    have hnr : ¬ targetDistAt M s p e < p.targetAllowedDistance := by
      rw [hd]
      exact hfar
    have hni : ¬ ((targetDistAt M s p e : R) : WithTop R) < s.m_badNavAlarm_minDistTarget := by
      rw [hd, h4]
      exact lt_irrefl _
    have hto2 : ¬ timeDifference s.m_badNavAlarm_lastMinDistTime e.now
        > s.m_badNavAlarm_AlarmTimeout := by
      rw [h5, h7]
      exact hto
    have hstep := navigationStep_steady M s p e h1 h3 hok hnr hni hto2
    obtain ⟨s1, tr1, h8, h9, h10⟩ := ih (afterSteady M s p e)
      ⟨h1, rfl, h3, h4, h5, by simp [afterSteady, afterPoseRead, lastPoseAtCheck, h2, h6], h7⟩
      (fun x hx => hall x (by simp [hx]))
    refine ⟨s1, (callsBeforeGoalTest M s p e ++ [Call.performNavigationStep]) ++ tr1,
      ?_, h9, ?_⟩
    · simp only [runSteps, hstep, h8]
    · simp [(callsBeforeGoalTest_free M s p e).2.2, h10]

/-- The stall scenario: an episode starts with the robot at a fixed position whose distance
to the goal is not below the allowed distance; the robot does not move; the step inputs in
`pre` arrive before the alarm timeout (counted from the first step) has expired and the
input `e` after; whatever steps follow, the run ends in `NAV_ERROR` and the blocked event has
been emitted exactly once. -/
theorem runSteps_stall_scenario {R : Type} [LinearOrderedField R] (M : Libm R)
    (s : CAbstractNavigator R) (p : TNavigationParams R) (env : Env R)
    (hs : s.m_navigationState = TState.NAVIGATING)
    (hp : s.m_navigationParams = some p)
    (hok : env.poseOk = true)
    (hnr : ¬ targetDistAt M s p env < p.targetAllowedDistance)
    (hentry : s.m_lastNavigationState ≠ TState.NAVIGATING)
    (hfresh : s.m_badNavAlarm_minDistTarget = ⊤)
    (pre : List (Env R)) (e : Env R) (post : List (Env R))
    (hpre : ∀ x ∈ pre, x.poseOk = true ∧ x.pose = env.pose
      ∧ ¬ timeDifference env.now x.now > s.m_badNavAlarm_AlarmTimeout)
    (heok : e.poseOk = true) (hepose : e.pose = env.pose)
    (hlate : timeDifference env.now e.now > s.m_badNavAlarm_AlarmTimeout) :
    ∃ s2 tr, runSteps M s (env :: (pre ++ e :: post)) = some (s2, tr)
      ∧ s2.m_navigationState = TState.NAV_ERROR
      ∧ tr.count Call.sendWaySeemsBlockedEvent = 1 := by
  have hdist : TSegment2D.distance M
      { point1 := TPoint2D.ofPose env.pose, point2 := TPoint2D.ofPose env.pose }
      (TPoint2D.ofPose p.target) = targetDistAt M s p env := by
    simp [targetDistAt, lastPoseAtCheck, hentry]
  -- first step: the distance improves on the top value
  have himp : ((targetDistAt M s p env : R) : WithTop R) < s.m_badNavAlarm_minDistTarget := by
    rw [hfresh]
    exact WithTop.coe_lt_top _
  have hstep1 := navigationStep_improved M s p env hs hp hok hnr himp
  -- the steps before the timeout
  obtain ⟨s1, tr1, hrun1, hsteady, hno1⟩ :=
    runSteps_steady M p env.pose (targetDistAt M s p env) env.now s.m_badNavAlarm_AlarmTimeout
      hdist hnr pre (afterImproved M s p env)
      ⟨hs, rfl, hp, rfl, rfl, by simp [afterImproved, afterPoseRead, lastPoseAtCheck, hentry],
        rfl⟩
      hpre
  -- the step after the timeout
  obtain ⟨g1, g2, g3, g4, g5, g6, g7⟩ := hsteady
  have hd : targetDistAt M s1 p e = targetDistAt M s p env := by
    rw [← hdist]
    simp [targetDistAt, lastPoseAtCheck, g2, g6, hepose]
  have hnr2 : ¬ targetDistAt M s1 p e < p.targetAllowedDistance := by
    rw [hd]
    exact hnr
  have hstall : stallDeclared M s1 p e := by
    refine ⟨?_, ?_⟩
    · rw [hd, g4]
      exact lt_irrefl _
    · rw [g5, g7]
      exact hlate
  have hstep2 := navigationStep_stalled M s1 p e g1 g3 heok hnr2 hstall
  -- the steps after the stall
  obtain ⟨s3, tr3, hrun3, hst3, _, hno3⟩ :=
    runSteps_not_navigating M post (afterStalled M s1 p e) (by simp [afterStalled])
  have hrun2 : runSteps M s1 (e :: post)
      = some (s3, (callsBeforeGoalTest M s1 p e ++ [Call.sendWaySeemsBlockedEvent]) ++ tr3) := by
    simp only [runSteps, hstep2, hrun3]
  have hrun12 := runSteps_append M pre (e :: post) (afterImproved M s p env) s1 s3 tr1 _
    hrun1 hrun2
  refine ⟨s3, (callsBeforeGoalTest M s p env ++ [Call.performNavigationStep])
    ++ (tr1 ++ ((callsBeforeGoalTest M s1 p e ++ [Call.sendWaySeemsBlockedEvent]) ++ tr3)),
    ?_, ?_, ?_⟩
  · simp only [runSteps, hstep1, hrun12]
  · rw [hst3]
    rfl
  · simp only [List.count_append]
    rw [List.count_eq_zero_of_not_mem (callsBeforeGoalTest_free M s p env).2.2,
      List.count_eq_zero_of_not_mem hno1,
      List.count_eq_zero_of_not_mem (callsBeforeGoalTest_free M s1 p e).2.2,
      List.count_eq_zero_of_not_mem hno3]
    simp

/-- Example evaluation: seen from (3, 4), the goal (0, 0) is at distance 5 on the first step
of an episode. -/
theorem targetDistAt_example :
    targetDistAt (Libm.mk Real.sqrt Real.cos Real.sin)
      (navigate (Libm.mk Real.sqrt Real.cos Real.sin) freshNavigator (goalAt 0 0)
        (envAt 3 4 0)).1 (goalAt 0 0) (envAt 3 4 0) = 5 := by
  simp [targetDistAt, lastPoseAtCheck, navigate, goalAt, envAt, freshNavigator,
    CAbstractNavigator.new, TSegment2D.distance, TPoint2D.ofPose]
  norm_num
  rw [show (25 : ℝ) = 5 * 5 by norm_num]
  exact Real.sqrt_mul_self (by norm_num)

/-- Within an episode (the previous step was a navigating one too) a step with a successful
pose query never writes `m_lastPose`: the member keeps the pose of the first step. -/
theorem navigationStep_keeps_lastPose {R : Type} [LinearOrderedField R] (M : Libm R)
    (s s2 : CAbstractNavigator R) (env : Env R) (tr : List Call)
    (hs : s.m_navigationState = TState.NAVIGATING)
    (hl : s.m_lastNavigationState = TState.NAVIGATING)
    (h : navigationStep M s env = some (s2, tr)) :
    s2.m_lastPose = s.m_lastPose := by
  cases hok : env.poseOk
  · rw [(navigationStep_pose_failure M s env hs hok).2] at h
    simp only [Option.some.injEq, Prod.mk.injEq] at h
    obtain ⟨rfl, _⟩ := h
    rfl
  · cases hp : s.m_navigationParams with
    | none => simp [navigationStep, navigatingTry, hs, hok, hp, hl] at h
    | some p =>
      by_cases hd : targetDistAt M s p env < p.targetAllowedDistance
      · rw [navigationStep_reached M s p env hs hp hok hd] at h
        simp only [Option.some.injEq, Prod.mk.injEq] at h
        obtain ⟨rfl, _⟩ := h
        simp [afterReached, afterPoseRead, lastPoseAtCheck, hl]
      · by_cases himp : ((targetDistAt M s p env : R) : WithTop R)
            < s.m_badNavAlarm_minDistTarget
        · rw [navigationStep_improved M s p env hs hp hok hd himp] at h
          simp only [Option.some.injEq, Prod.mk.injEq] at h
          obtain ⟨rfl, _⟩ := h
          simp [afterImproved, afterPoseRead, lastPoseAtCheck, hl]
        · by_cases hto : timeDifference s.m_badNavAlarm_lastMinDistTime env.now
              > s.m_badNavAlarm_AlarmTimeout
          · rw [navigationStep_stalled M s p env hs hp hok hd ⟨himp, hto⟩] at h
            simp only [Option.some.injEq, Prod.mk.injEq] at h
            obtain ⟨rfl, _⟩ := h
            simp [afterStalled, afterPoseRead, lastPoseAtCheck, hl]
          · rw [navigationStep_steady M s p env hs hp hok hd himp hto] at h
            simp only [Option.some.injEq, Prod.mk.injEq] at h
            obtain ⟨rfl, _⟩ := h
            simp [afterSteady, afterPoseRead, lastPoseAtCheck, hl]

/-- The end-event flag after a step in which the distance improved. -/
theorem afterImproved_sent {R : Type} [LinearOrderedField R] (M : Libm R)
    (s : CAbstractNavigator R) (p : TNavigationParams R) (env : Env R) :
    (afterImproved M s p env).m_navigationEndEventSent
      = (s.m_navigationEndEventSent || earlyEndEvent M s p env) :=
  rfl

/-- Example evaluations of the segment distance over the reals, for the goal (4, 3):
from the degenerate segment at (0, 0) it is 5; from the segment (8, 0)-(0, 0) it is 3; from
the segment (8, 6)-(0, 0), which passes through the goal, it is 0; from the segment
(8, 6)-(8, 0) it is 4. -/
theorem distance_examples :
    TSegment2D.distance (Libm.mk Real.sqrt Real.cos Real.sin)
        (TSegment2D.mk (TPoint2D.mk 0 0) (TPoint2D.mk 0 0)) (TPoint2D.mk 4 3) = 5
    ∧ TSegment2D.distance (Libm.mk Real.sqrt Real.cos Real.sin)
        (TSegment2D.mk (TPoint2D.mk 8 0) (TPoint2D.mk 0 0)) (TPoint2D.mk 4 3) = 3
    ∧ TSegment2D.distance (Libm.mk Real.sqrt Real.cos Real.sin)
        (TSegment2D.mk (TPoint2D.mk 8 6) (TPoint2D.mk 0 0)) (TPoint2D.mk 4 3) = 0
    ∧ TSegment2D.distance (Libm.mk Real.sqrt Real.cos Real.sin)
        (TSegment2D.mk (TPoint2D.mk 8 6) (TPoint2D.mk 8 0)) (TPoint2D.mk 4 3) = 4 := by
  refine ⟨?_, ?_, ?_, ?_⟩
  · simp [TSegment2D.distance]
    norm_num
    rw [show (25 : ℝ) = 5 * 5 by norm_num]
    exact Real.sqrt_mul_self (by norm_num)
  · simp [TSegment2D.distance]
    norm_num
    rw [show (9 : ℝ) = 3 * 3 by norm_num]
    exact Real.sqrt_mul_self (by norm_num)
  · simp [TSegment2D.distance]
    norm_num
  · simp [TSegment2D.distance]
    norm_num
    rw [show (16 : ℝ) = 4 * 4 by norm_num]
    exact Real.sqrt_mul_self (by norm_num)

/-- Example evaluation: a fresh supervisor accepts the goal (0, 0) at time 0, the robot stands
at (3, 4); the step at time 0 records the distance 5, the step at time 31 declares the stall
and its only calls are the pose query and the blocked event. -/
theorem stall_example_evaluation :
    ∃ s1 s2 : CAbstractNavigator ℝ,
      navigationStep (Libm.mk Real.sqrt Real.cos Real.sin)
          (navigate (Libm.mk Real.sqrt Real.cos Real.sin) freshNavigator (goalAt 0 0)
            (envAt 3 4 0)).1 (envAt 3 4 0)
        = some (s1, [Call.startWatchdog 1000, Call.sendNavigationStartEvent,
            Call.getCurrentPoseAndSpeeds, Call.performNavigationStep])
      ∧ s1.m_navigationState = TState.NAVIGATING
      ∧ s1.m_navigationParams = some (goalAt 0 0)
      ∧ (envAt (3 : ℝ) 4 31).poseOk = true
      ∧ ¬ targetDistAt (Libm.mk Real.sqrt Real.cos Real.sin) s1 (goalAt 0 0) (envAt 3 4 31)
          < (goalAt (0 : ℝ) 0).targetAllowedDistance
      ∧ stallDeclared (Libm.mk Real.sqrt Real.cos Real.sin) s1 (goalAt 0 0) (envAt 3 4 31)
      ∧ navigationStep (Libm.mk Real.sqrt Real.cos Real.sin) s1 (envAt 3 4 31)
        = some (s2, [Call.getCurrentPoseAndSpeeds, Call.sendWaySeemsBlockedEvent])
      ∧ s2.m_navigationState = TState.NAV_ERROR
      ∧ Call.stop ∉ [Call.getCurrentPoseAndSpeeds, Call.sendWaySeemsBlockedEvent] := by
  have d1 := targetDistAt_example
  have hstep1 := navigationStep_improved (Libm.mk Real.sqrt Real.cos Real.sin)
    (navigate (Libm.mk Real.sqrt Real.cos Real.sin) freshNavigator (goalAt 0 0)
      (envAt 3 4 0)).1 (goalAt 0 0) (envAt 3 4 0)
    (by simp [navigate, goalAt]) (by simp [navigate, goalAt]) rfl
    (by rw [d1]; norm_num [goalAt])
    (by
      have htop : (navigate (Libm.mk Real.sqrt Real.cos Real.sin) freshNavigator (goalAt 0 0)
          (envAt 3 4 0)).1.m_badNavAlarm_minDistTarget = ⊤ := by
        simp [navigate, goalAt]
      rw [htop]
      exact WithTop.coe_lt_top _)
  have d2 : targetDistAt (Libm.mk Real.sqrt Real.cos Real.sin)
      (afterImproved (Libm.mk Real.sqrt Real.cos Real.sin)
        (navigate (Libm.mk Real.sqrt Real.cos Real.sin) freshNavigator (goalAt 0 0)
          (envAt 3 4 0)).1 (goalAt 0 0) (envAt 3 4 0))
      (goalAt 0 0) (envAt 3 4 31) = 5 := by
    rw [← d1]
    simp [targetDistAt, lastPoseAtCheck, afterImproved, afterPoseRead, navigate, goalAt, envAt,
      freshNavigator, CAbstractNavigator.new]
  have hnr : ¬ targetDistAt (Libm.mk Real.sqrt Real.cos Real.sin)
      (afterImproved (Libm.mk Real.sqrt Real.cos Real.sin)
        (navigate (Libm.mk Real.sqrt Real.cos Real.sin) freshNavigator (goalAt 0 0)
          (envAt 3 4 0)).1 (goalAt 0 0) (envAt 3 4 0))
      (goalAt 0 0) (envAt 3 4 31) < (goalAt (0 : ℝ) 0).targetAllowedDistance := by
    rw [d2]
    norm_num [goalAt]
  have hstall : stallDeclared (Libm.mk Real.sqrt Real.cos Real.sin)
      (afterImproved (Libm.mk Real.sqrt Real.cos Real.sin)
        (navigate (Libm.mk Real.sqrt Real.cos Real.sin) freshNavigator (goalAt 0 0)
          (envAt 3 4 0)).1 (goalAt 0 0) (envAt 3 4 0))
      (goalAt 0 0) (envAt 3 4 31) := by
    refine ⟨?_, ?_⟩
    · rw [d2]
      have hbest : (afterImproved (Libm.mk Real.sqrt Real.cos Real.sin)
          (navigate (Libm.mk Real.sqrt Real.cos Real.sin) freshNavigator (goalAt 0 0)
            (envAt 3 4 0)).1 (goalAt 0 0) (envAt 3 4 0)).m_badNavAlarm_minDistTarget
          = ((5 : ℝ) : WithTop ℝ) := by
        simp only [afterImproved, d1]
      rw [hbest]
      exact lt_irrefl _
    · simp [timeDifference, afterImproved, afterPoseRead, navigate, goalAt, envAt,
        freshNavigator, CAbstractNavigator.new]
      norm_num
  have hstep2 := navigationStep_stalled (Libm.mk Real.sqrt Real.cos Real.sin)
    (afterImproved (Libm.mk Real.sqrt Real.cos Real.sin)
      (navigate (Libm.mk Real.sqrt Real.cos Real.sin) freshNavigator (goalAt 0 0)
        (envAt 3 4 0)).1 (goalAt 0 0) (envAt 3 4 0))
    (goalAt 0 0) (envAt 3 4 31)
    (by simp [afterImproved, afterPoseRead, navigate, goalAt])
    (by simp [afterImproved, afterPoseRead, navigate, goalAt]) rfl hnr hstall
  refine ⟨afterImproved (Libm.mk Real.sqrt Real.cos Real.sin)
      (navigate (Libm.mk Real.sqrt Real.cos Real.sin) freshNavigator (goalAt 0 0)
        (envAt 3 4 0)).1 (goalAt 0 0) (envAt 3 4 0),
    afterStalled (Libm.mk Real.sqrt Real.cos Real.sin)
      (afterImproved (Libm.mk Real.sqrt Real.cos Real.sin)
        (navigate (Libm.mk Real.sqrt Real.cos Real.sin) freshNavigator (goalAt 0 0)
          (envAt 3 4 0)).1 (goalAt 0 0) (envAt 3 4 0))
      (goalAt 0 0) (envAt 3 4 31),
    ?_, ?_, ?_, rfl, hnr, hstall, ?_, rfl, by decide⟩
  · rw [hstep1]
    simp only [callsBeforeGoalTest, earlyEndEvent, d1]
    simp [entryCalls, navigate, goalAt, freshNavigator, CAbstractNavigator.new]
  · simp [afterImproved, afterPoseRead, navigate, goalAt]
  · simp [afterImproved, afterPoseRead, navigate, goalAt]
  · rw [hstep2]
    simp only [callsBeforeGoalTest, earlyEndEvent, d2]
    simp [entryCalls, afterImproved, afterPoseRead, navigate, goalAt, freshNavigator,
      CAbstractNavigator.new]

/-- How the `try` block is left when the strategy is reached (line 239): normally, or by the
exception of the strategy. -/
theorem navigatingTry_strategy_exit {R : Type} [LinearOrderedField R] (M : Libm R)
    (s : CAbstractNavigator R) (p : TNavigationParams R) (env : Env R)
    (hs : s.m_navigationState = TState.NAVIGATING)
    (hp : s.m_navigationParams = some p)
    (hok : env.poseOk = true)
    (hnr : ¬ targetDistAt M s p env < p.targetAllowedDistance)
    (hns : ¬ stallDeclared M s p env) :
    ∃ s1, navigatingTry M s env
      = some (s1, callsBeforeGoalTest M s p env ++ [Call.performNavigationStep],
          if env.strategyThrows then TryExit.threw else TryExit.completed) := by
  by_cases himp : ((targetDistAt M s p env : R) : WithTop R) < s.m_badNavAlarm_minDistTarget
  · by_cases hf : targetDistAt M s p env < s.DIST_TO_TARGET_FOR_SENDING_EVENT <;>
      cases hl : s.m_lastNavigationState <;> cases hw : p.targetIsIntermediaryWaypoint <;>
      cases he : s.m_navigationEndEventSent <;>
      simp only [targetDistAt, lastPoseAtCheck, hl, ne_eq, not_true_eq_false, not_false_eq_true,
        if_true, if_false, reduceCtorEq] at hnr himp hf <;>
      simp [navigatingTry, callStrategy, callsBeforeGoalTest, entryCalls,
        earlyEndEvent, targetDistAt, lastPoseAtCheck, hs, hp, hok, hl, hw, he, hnr, himp, hf]
  · have hto : ¬ timeDifference s.m_badNavAlarm_lastMinDistTime env.now
        > s.m_badNavAlarm_AlarmTimeout := fun h => hns ⟨himp, h⟩
    by_cases hf : targetDistAt M s p env < s.DIST_TO_TARGET_FOR_SENDING_EVENT <;>
      cases hl : s.m_lastNavigationState <;> cases hw : p.targetIsIntermediaryWaypoint <;>
      cases he : s.m_navigationEndEventSent <;>
      simp only [targetDistAt, lastPoseAtCheck, hl, ne_eq, not_true_eq_false, not_false_eq_true,
        if_true, if_false, reduceCtorEq, gt_iff_lt] at hnr himp hto hf <;>
      simp [navigatingTry, callStrategy, callsBeforeGoalTest, entryCalls,
        earlyEndEvent, targetDistAt, lastPoseAtCheck, hs, hp, hok, hl, hw, he, hnr, himp, hto, hf]

/-- The result of a `NAVIGATING` step in which the strategy is reached: the state is still
`NAVIGATING`, the parameters are kept, and the strategy has been called once. -/
theorem navigationStep_strategy {R : Type} [LinearOrderedField R] (M : Libm R)
    (s : CAbstractNavigator R) (p : TNavigationParams R) (env : Env R)
    (hs : s.m_navigationState = TState.NAVIGATING)
    (hp : s.m_navigationParams = some p)
    (hok : env.poseOk = true)
    (hnr : ¬ targetDistAt M s p env < p.targetAllowedDistance)
    (hns : ¬ stallDeclared M s p env) :
    ∃ s2, navigationStep M s env
        = some (s2, callsBeforeGoalTest M s p env ++ [Call.performNavigationStep])
      ∧ (s2 = afterImproved M s p env ∨ s2 = afterSteady M s p env)
      ∧ s2.m_navigationState = TState.NAVIGATING
      ∧ s2.m_lastNavigationState = TState.NAVIGATING
      ∧ s2.m_navigationParams = some p := by
  by_cases himp : ((targetDistAt M s p env : R) : WithTop R) < s.m_badNavAlarm_minDistTarget
  · exact ⟨_, navigationStep_improved M s p env hs hp hok hnr himp, Or.inl rfl, hs, rfl, hp⟩
  · have hto : ¬ timeDifference s.m_badNavAlarm_lastMinDistTime env.now
        > s.m_badNavAlarm_AlarmTimeout := fun h => hns ⟨himp, h⟩
    exact ⟨_, navigationStep_steady M s p env hs hp hok hnr himp hto, Or.inr rfl, hs, rfl, hp⟩

/-- A step taken outside `NAVIGATING`: only the previous-state field changes. -/
theorem navigationStep_outside {R : Type} [LinearOrderedField R] (M : Libm R)
    (s : CAbstractNavigator R) (env : Env R)
    (hs : s.m_navigationState ≠ TState.NAVIGATING) :
    navigationStep M s env
      = some ({ s with m_lastNavigationState := s.m_navigationState }, outsideCalls s) := by
  cases hst : s.m_navigationState <;> cases hl : s.m_lastNavigationState <;>
    simp [navigationStep, outsideCalls, hst, hl] at hs ⊢

/-- Every step that returns is one of six kinds: outside `NAVIGATING`, pose failure, goal
reached, improvement, stall, or neither improvement nor stall. -/
theorem navigationStep_cases {R : Type} [LinearOrderedField R] (M : Libm R)
    (s s2 : CAbstractNavigator R) (env : Env R) (tr : List Call)
    (h : navigationStep M s env = some (s2, tr)) :
    (s.m_navigationState ≠ TState.NAVIGATING
        ∧ s2 = { s with m_lastNavigationState := s.m_navigationState }
        ∧ tr = outsideCalls s)
    ∨ (s.m_navigationState = TState.NAVIGATING ∧ env.poseOk = false
        ∧ s2 = { s with m_curPose := env.pose, m_curVel := env.vel,
                        m_navigationState := TState.NAV_ERROR,
                        m_lastNavigationState := TState.NAVIGATING }
        ∧ tr = entryCalls s ++ [Call.getCurrentPoseAndSpeeds, Call.stop])
    ∨ (∃ p, s.m_navigationState = TState.NAVIGATING ∧ env.poseOk = true
        ∧ s.m_navigationParams = some p
        ∧ ((targetDistAt M s p env < p.targetAllowedDistance
            ∧ s2 = afterReached M s p env
            ∧ tr = entryCalls s ++ [Call.getCurrentPoseAndSpeeds]
                ++ (if earlyEndEvent M s p env then [Call.sendNavigationEndEvent] else [])
                ++ (if p.targetIsIntermediaryWaypoint then [] else [Call.stop])
                ++ (if !p.targetIsIntermediaryWaypoint && !s.m_navigationEndEventSent
                        && !earlyEndEvent M s p env
                    then [Call.sendNavigationEndEvent] else []))
          ∨ (¬ targetDistAt M s p env < p.targetAllowedDistance
            ∧ ((targetDistAt M s p env : R) : WithTop R) < s.m_badNavAlarm_minDistTarget
            ∧ s2 = afterImproved M s p env
            ∧ tr = callsBeforeGoalTest M s p env ++ [Call.performNavigationStep])
          ∨ (¬ targetDistAt M s p env < p.targetAllowedDistance
            ∧ stallDeclared M s p env
            ∧ s2 = afterStalled M s p env
            ∧ tr = callsBeforeGoalTest M s p env ++ [Call.sendWaySeemsBlockedEvent])
          ∨ (¬ targetDistAt M s p env < p.targetAllowedDistance
            ∧ ¬ ((targetDistAt M s p env : R) : WithTop R) < s.m_badNavAlarm_minDistTarget
            ∧ ¬ stallDeclared M s p env
            ∧ s2 = afterSteady M s p env
            ∧ tr = callsBeforeGoalTest M s p env ++ [Call.performNavigationStep]))) := by
  by_cases hs : s.m_navigationState = TState.NAVIGATING
  · cases hok : env.poseOk
    · rw [(navigationStep_pose_failure M s env hs hok).2] at h
      simp only [Option.some.injEq, Prod.mk.injEq] at h
      exact Or.inr (Or.inl ⟨hs, rfl, h.1.symm, h.2.symm⟩)
    · cases hp : s.m_navigationParams with
      | none =>
        cases hl : s.m_lastNavigationState <;>
          simp [navigationStep, navigatingTry, hs, hok, hp, hl] at h
      | some p =>
        refine Or.inr (Or.inr ⟨p, hs, rfl, rfl, ?_⟩)
        by_cases hd : targetDistAt M s p env < p.targetAllowedDistance
        · rw [navigationStep_reached M s p env hs hp hok hd] at h
          simp only [Option.some.injEq, Prod.mk.injEq] at h
          exact Or.inl ⟨hd, h.1.symm, h.2.symm⟩
        · by_cases himp : ((targetDistAt M s p env : R) : WithTop R)
              < s.m_badNavAlarm_minDistTarget
          · rw [navigationStep_improved M s p env hs hp hok hd himp] at h
            simp only [Option.some.injEq, Prod.mk.injEq] at h
            exact Or.inr (Or.inl ⟨hd, himp, h.1.symm, h.2.symm⟩)
          · by_cases hto : timeDifference s.m_badNavAlarm_lastMinDistTime env.now
                > s.m_badNavAlarm_AlarmTimeout
            · rw [navigationStep_stalled M s p env hs hp hok hd ⟨himp, hto⟩] at h
              simp only [Option.some.injEq, Prod.mk.injEq] at h
              exact Or.inr (Or.inr (Or.inl ⟨hd, ⟨himp, hto⟩, h.1.symm, h.2.symm⟩))
            · rw [navigationStep_steady M s p env hs hp hok hd himp hto] at h
              simp only [Option.some.injEq, Prod.mk.injEq] at h
              exact Or.inr (Or.inr (Or.inr ⟨hd, himp, fun hh => hto hh.2, h.1.symm,
                h.2.symm⟩))
  · rw [navigationStep_outside M s env hs] at h
    simp only [Option.some.injEq, Prod.mk.injEq] at h
    exact Or.inl ⟨hs, h.1.symm, h.2.symm⟩

/-- After every step that returns, the previous-state field holds the state at entry, and the
stored parameters, the alarm timeout and the event distance are those at entry. -/
theorem navigationStep_frame {R : Type} [LinearOrderedField R] (M : Libm R)
    (s s2 : CAbstractNavigator R) (env : Env R) (tr : List Call)
    (h : navigationStep M s env = some (s2, tr)) :
    s2.m_lastNavigationState = s.m_navigationState
    ∧ s2.m_navigationParams = s.m_navigationParams
    ∧ s2.m_badNavAlarm_AlarmTimeout = s.m_badNavAlarm_AlarmTimeout
    ∧ s2.DIST_TO_TARGET_FOR_SENDING_EVENT = s.DIST_TO_TARGET_FOR_SENDING_EVENT := by
  rcases navigationStep_cases M s s2 env tr h with ⟨hs, rfl, _⟩ | ⟨hs, _, rfl, _⟩ |
    ⟨p, hs, _, _, ⟨_, rfl, _⟩ | ⟨_, _, rfl, _⟩ | ⟨_, _, rfl, _⟩ | ⟨_, _, _, rfl, _⟩⟩ <;>
    simp [hs, afterReached, afterImproved, afterStalled, afterSteady, afterPoseRead]

/-- A step returns unless it is taken in `NAVIGATING` with a successful pose query and no
stored parameters. -/
theorem navigationStep_returns {R : Type} [LinearOrderedField R] (M : Libm R)
    (s : CAbstractNavigator R) (env : Env R)
    (hdef : s.m_navigationState = TState.NAVIGATING → env.poseOk = true →
      s.m_navigationParams ≠ none) :
    ∃ s2 tr, navigationStep M s env = some (s2, tr) := by
  by_cases hs : s.m_navigationState = TState.NAVIGATING
  · cases hok : env.poseOk
    · exact ⟨_, _, (navigationStep_pose_failure M s env hs hok).2⟩
    · obtain ⟨p, hp⟩ := Option.ne_none_iff_exists'.1 (hdef hs hok)
      by_cases hd : targetDistAt M s p env < p.targetAllowedDistance
      · exact ⟨_, _, navigationStep_reached M s p env hs hp hok hd⟩
      · by_cases hst : stallDeclared M s p env
        · exact ⟨_, _, navigationStep_stalled M s p env hs hp hok hd hst⟩
        · obtain ⟨s2, h2, _⟩ := navigationStep_strategy M s p env hs hp hok hd hst
          exact ⟨_, _, h2⟩
  · exact ⟨_, _, navigationStep_outside M s env hs⟩

/-- Example evaluation: a fresh supervisor accepts the goal (0, 0) with the robot at (3, 4),
takes one navigating step and is suspended; the next step, taken in SUSPENDED right after a
navigating step, only releases the watchdog. -/
theorem suspend_example_evaluation :
    ∃ s1 s2 : CAbstractNavigator ℝ,
      navigationStep (Libm.mk Real.sqrt Real.cos Real.sin)
          (navigate (Libm.mk Real.sqrt Real.cos Real.sin) freshNavigator (goalAt 0 0)
            (envAt 3 4 0)).1 (envAt 3 4 0)
        = some (s1, [Call.startWatchdog 1000, Call.sendNavigationStartEvent,
            Call.getCurrentPoseAndSpeeds, Call.performNavigationStep])
      ∧ s1.m_navigationState = TState.NAVIGATING
      ∧ suspend s1 = (s2, [])
      ∧ s2.m_navigationState = TState.SUSPENDED
      ∧ s2.m_lastNavigationState = TState.NAVIGATING
      ∧ navigationStep (Libm.mk Real.sqrt Real.cos Real.sin) s2 (envAt 3 4 1)
        = some ({ s2 with m_lastNavigationState := TState.SUSPENDED }, [Call.stopWatchdog])
      ∧ Call.stop ∉ [Call.stopWatchdog] := by
  obtain ⟨s1, _, h1, h2, _⟩ := stall_example_evaluation
  have hl := (navigationStep_frame _ _ _ _ _ h1).1
  refine ⟨s1, { s1 with m_navigationState := TState.SUSPENDED }, h1, h2, ?_, rfl, ?_, ?_,
    by decide⟩
  · simp [suspend, h2]
  · rw [hl]
    simp [navigate, goalAt]
  · rw [navigationStep_outside _ _ _ (by simp)]
    have hl2 : s1.m_lastNavigationState = TState.NAVIGATING := by
      rw [hl]
      simp [navigate, goalAt]
    simp [outsideCalls, hl2]

/-- The commands `suspend`, `resume` and `resetNavError` make no call and change no member
other than the current state. -/
theorem state_only_commands {R : Type} (s : CAbstractNavigator R) :
    ((suspend s).2 = []
      ∧ (suspend s).1 = { s with m_navigationState := (suspend s).1.m_navigationState })
    ∧ ((resume s).2 = []
      ∧ (resume s).1 = { s with m_navigationState := (resume s).1.m_navigationState })
    ∧ ((resetNavError s).2 = []
      ∧ (resetNavError s).1
        = { s with m_navigationState := (resetNavError s).1.m_navigationState }) := by
  cases hst : s.m_navigationState <;> simp [suspend, resume, resetNavError, hst] <;>
    (try rw [← hst])

/-- A command other than `navigate` is either a step or changes at most the current state
and makes no call except the `stop` of `cancel`. -/
theorem applyCommand_cases {R : Type} [LinearOrderedField R] (M : Libm R)
    (s s2 : CAbstractNavigator R) (c : Command R) (env : Env R) (tr : List Call)
    (hc : c.isNavigate = false)
    (h : applyCommand M s c env = some (s2, tr)) :
    (c = Command.navigationStep ∧ navigationStep M s env = some (s2, tr))
    ∨ (s2 = { s with m_navigationState := s2.m_navigationState }
        ∧ (tr = [] ∨ tr = [Call.stop])) := by
  cases c with
  | navigate p => simp [Command.isNavigate] at hc
  | cancel =>
    simp only [applyCommand, cancel, Option.some.injEq, Prod.mk.injEq] at h
    obtain ⟨rfl, rfl⟩ := h
    exact Or.inr ⟨rfl, Or.inr rfl⟩
  | suspend =>
    simp only [applyCommand, Option.some.injEq] at h
    have h1 := (state_only_commands s).1
    rw [h] at h1
    exact Or.inr ⟨h1.2, Or.inl h1.1⟩
  | resume =>
    simp only [applyCommand, Option.some.injEq] at h
    have h1 := (state_only_commands s).2.1
    rw [h] at h1
    exact Or.inr ⟨h1.2, Or.inl h1.1⟩
  | resetNavError =>
    simp only [applyCommand, Option.some.injEq] at h
    have h1 := (state_only_commands s).2.2
    rw [h] at h1
    exact Or.inr ⟨h1.2, Or.inl h1.1⟩
  | navigationStep => exact Or.inl ⟨rfl, h⟩

/-- What one command other than `navigate` does to the stored parameters, to the best
distance and to the end-event flag, and how often it emits the end event. -/
theorem applyCommand_effects {R : Type} [LinearOrderedField R] (M : Libm R)
    (s s2 : CAbstractNavigator R) (c : Command R) (env : Env R) (tr : List Call)
    (hc : c.isNavigate = false)
    (h : applyCommand M s c env = some (s2, tr)) :
    s2.m_navigationParams = s.m_navigationParams
    ∧ s2.m_badNavAlarm_minDistTarget ≤ s.m_badNavAlarm_minDistTarget
    ∧ (s2.m_badNavAlarm_minDistTarget ≠ s.m_badNavAlarm_minDistTarget →
        c = Command.navigationStep ∧ s.m_navigationState = TState.NAVIGATING
          ∧ env.poseOk = true
          ∧ ∃ p, s.m_navigationParams = some p
            ∧ ¬ targetDistAt M s p env < p.targetAllowedDistance
            ∧ ((targetDistAt M s p env : R) : WithTop R) < s.m_badNavAlarm_minDistTarget
            ∧ s2.m_badNavAlarm_minDistTarget = ((targetDistAt M s p env : R) : WithTop R))
    ∧ tr.count Call.sendNavigationEndEvent ≤ 1
    ∧ (s.m_navigationEndEventSent = true →
        tr.count Call.sendNavigationEndEvent = 0 ∧ s2.m_navigationEndEventSent = true)
    ∧ (tr.count Call.sendNavigationEndEvent = 1 → s2.m_navigationEndEventSent = true)
    ∧ (∀ p, s.m_navigationParams = some p → p.targetIsIntermediaryWaypoint = true →
        tr.count Call.sendNavigationEndEvent = 0) := by
  rcases applyCommand_cases M s s2 c env tr hc h with ⟨hstep, h1⟩ | ⟨h1, h2⟩
  · rcases navigationStep_cases M s s2 env tr h1 with ⟨hs, rfl, rfl⟩ | ⟨hs, _, rfl, rfl⟩ |
      ⟨p, hs, hok, hp, ⟨hd, rfl, rfl⟩ | ⟨hd, himp, rfl, rfl⟩ | ⟨hd, hst, rfl, rfl⟩ |
        ⟨hd, hni, hns, rfl, rfl⟩⟩
    · -- outside NAVIGATING
      refine ⟨rfl, le_refl _, fun hne => absurd rfl hne, ?_, ?_, ?_, ?_⟩ <;>
        cases hst : s.m_navigationState <;> cases hl : s.m_lastNavigationState <;>
        simp [outsideCalls, hst, hl]
    · -- pose failure
      refine ⟨rfl, le_refl _, fun hne => absurd rfl hne, ?_, ?_, ?_, ?_⟩ <;>
        cases hl : s.m_lastNavigationState <;> simp [entryCalls, hl]
    · -- goal reached
      refine ⟨rfl, le_refl _, fun hne => absurd rfl hne, ?_, ?_, ?_, ?_⟩
      · cases hl : s.m_lastNavigationState <;> cases hw : p.targetIsIntermediaryWaypoint <;>
          cases he : s.m_navigationEndEventSent <;> cases hf : earlyEndEvent M s p env <;>
          simp [entryCalls, hl, hw, he, hf]
      · intro he
        cases hl : s.m_lastNavigationState <;> cases hw : p.targetIsIntermediaryWaypoint <;>
          cases hf : earlyEndEvent M s p env <;>
          simp [entryCalls, afterReached, hl, hw, he, hf] <;>
          simp [earlyEndEvent, hw, he] at hf
      · intro _
        cases hl : s.m_lastNavigationState <;> cases hw : p.targetIsIntermediaryWaypoint <;>
          cases he : s.m_navigationEndEventSent <;> cases hf : earlyEndEvent M s p env <;>
          simp_all [entryCalls, afterReached, earlyEndEvent]
      · intro q hq hw
        rw [hp] at hq
        cases hq
        cases hl : s.m_lastNavigationState <;>
          cases he : s.m_navigationEndEventSent <;>
          simp [entryCalls, earlyEndEvent, hl, hw, he]
    · -- improvement
      refine ⟨rfl, ?_, ?_, ?_, ?_, ?_, ?_⟩
      · exact le_of_lt himp
      · intro _
        exact ⟨hstep, hs, hok, p, hp, hd, himp, rfl⟩
      · cases hl : s.m_lastNavigationState <;> cases hf : earlyEndEvent M s p env <;>
          simp [callsBeforeGoalTest, entryCalls, hl, hf]
      · intro he
        cases hl : s.m_lastNavigationState <;> cases hf : earlyEndEvent M s p env <;>
          simp [callsBeforeGoalTest, entryCalls, afterImproved, hl, he, hf] <;>
          simp [earlyEndEvent, he] at hf
      · intro _
        cases hl : s.m_lastNavigationState <;> cases he : s.m_navigationEndEventSent <;>
          cases hf : earlyEndEvent M s p env <;>
          simp_all [callsBeforeGoalTest, entryCalls, afterImproved]
      · intro q hq hw
        rw [hp] at hq
        cases hq
        cases hl : s.m_lastNavigationState <;>
          simp [callsBeforeGoalTest, entryCalls, earlyEndEvent, hl, hw]
    · -- stall
      refine ⟨rfl, le_refl _, fun hne => absurd rfl hne, ?_, ?_, ?_, ?_⟩
      · cases hl : s.m_lastNavigationState <;> cases hf : earlyEndEvent M s p env <;>
          simp [callsBeforeGoalTest, entryCalls, hl, hf]
      · intro he
        cases hl : s.m_lastNavigationState <;> cases hf : earlyEndEvent M s p env <;>
          simp [callsBeforeGoalTest, entryCalls, afterStalled, hl, he, hf] <;>
          simp [earlyEndEvent, he] at hf
      · intro _
        cases hl : s.m_lastNavigationState <;> cases he : s.m_navigationEndEventSent <;>
          cases hf : earlyEndEvent M s p env <;>
          simp_all [callsBeforeGoalTest, entryCalls, afterStalled]
      · intro q hq hw
        rw [hp] at hq
        cases hq
        cases hl : s.m_lastNavigationState <;>
          simp [callsBeforeGoalTest, entryCalls, earlyEndEvent, hl, hw]
    · -- neither
      refine ⟨rfl, le_refl _, fun hne => absurd rfl hne, ?_, ?_, ?_, ?_⟩
      · cases hl : s.m_lastNavigationState <;> cases hf : earlyEndEvent M s p env <;>
          simp [callsBeforeGoalTest, entryCalls, hl, hf]
      · intro he
        cases hl : s.m_lastNavigationState <;> cases hf : earlyEndEvent M s p env <;>
          simp [callsBeforeGoalTest, entryCalls, afterSteady, hl, he, hf] <;>
          simp [earlyEndEvent, he] at hf
      · intro _
        cases hl : s.m_lastNavigationState <;> cases he : s.m_navigationEndEventSent <;>
          cases hf : earlyEndEvent M s p env <;>
          simp_all [callsBeforeGoalTest, entryCalls, afterSteady]
      · intro q hq hw
        rw [hp] at hq
        cases hq
        cases hl : s.m_lastNavigationState <;>
          simp [callsBeforeGoalTest, entryCalls, earlyEndEvent, hl, hw]
  · have hp : s2.m_navigationParams = s.m_navigationParams := by rw [h1]
    have hm : s2.m_badNavAlarm_minDistTarget = s.m_badNavAlarm_minDistTarget := by rw [h1]
    have he : s2.m_navigationEndEventSent = s.m_navigationEndEventSent := by rw [h1]
    refine ⟨hp, le_of_eq hm, fun hne => absurd hm hne, ?_, ?_, ?_, ?_⟩
    · rcases h2 with rfl | rfl <;> simp
    · intro hs
      refine ⟨?_, by rw [he, hs]⟩
      rcases h2 with rfl | rfl <;> simp
    · intro hcount
      rcases h2 with rfl | rfl <;> simp at hcount
    · intro _ _ _
      rcases h2 with rfl | rfl <;> simp

/-- Unfolding a run of commands that returns. -/
theorem runCommands_cons_some {R : Type} [LinearOrderedField R] (M : Libm R)
    (s s2 : CAbstractNavigator R) (c : Command R) (env : Env R)
    (rest : List (Command R × Env R)) (tr : List Call)
    (h : runCommands M s ((c, env) :: rest) = some (s2, tr)) :
    ∃ s1 tr1 tr2, applyCommand M s c env = some (s1, tr1)
      ∧ runCommands M s1 rest = some (s2, tr2) ∧ tr = tr1 ++ tr2 := by
  simp only [runCommands] at h
  cases h1 : applyCommand M s c env with
  | none => simp [h1] at h
  | some r =>
    obtain ⟨s1, tr1⟩ := r
    simp only [h1] at h
    cases h2 : runCommands M s1 rest with
    | none => simp [h2] at h
    | some r2 =>
      obtain ⟨sb, trb⟩ := r2
      simp only [h2, Option.some.injEq, Prod.mk.injEq] at h
      obtain ⟨rfl, rfl⟩ := h
      exact ⟨s1, tr1, trb, rfl, h2, rfl⟩

/-- Over a sequence of commands without `navigate`: the stored parameters are kept, the best
distance does not increase, and the end event is emitted at most once, never if the flag was
already set or if the goal is an intermediary waypoint. -/
theorem runCommands_effects {R : Type} [LinearOrderedField R] (M : Libm R)
    (cmds : List (Command R × Env R)) :
    ∀ (s s2 : CAbstractNavigator R) (tr : List Call),
      (∀ ce ∈ cmds, ce.1.isNavigate = false) →
      runCommands M s cmds = some (s2, tr) →
      s2.m_navigationParams = s.m_navigationParams
      ∧ s2.m_badNavAlarm_minDistTarget ≤ s.m_badNavAlarm_minDistTarget
      ∧ tr.count Call.sendNavigationEndEvent ≤ 1
      ∧ (s.m_navigationEndEventSent = true →
          tr.count Call.sendNavigationEndEvent = 0 ∧ s2.m_navigationEndEventSent = true)
      ∧ (∀ p, s.m_navigationParams = some p → p.targetIsIntermediaryWaypoint = true →
          tr.count Call.sendNavigationEndEvent = 0) := by
  induction cmds with
  | nil =>
    intro s s2 tr _ h
    simp only [runCommands, Option.some.injEq, Prod.mk.injEq] at h
    obtain ⟨rfl, rfl⟩ := h
    simp
  | cons ce rest ih =>
    intro s s2 tr hall h
    obtain ⟨c, env⟩ := ce
    obtain ⟨s1, tr1, tr2, h1, h2, rfl⟩ := runCommands_cons_some M s s2 c env rest tr h
    obtain ⟨a1, a2, _, a4, a5, a6, a7⟩ :=
      applyCommand_effects M s s1 c env tr1 (hall (c, env) (by simp)) h1
    obtain ⟨b1, b2, b3, b4, b5⟩ := ih s1 s2 tr2 (fun x hx => hall x (by simp [hx])) h2
    refine ⟨by rw [b1, a1], le_trans b2 a2, ?_, ?_, ?_⟩
    · rw [List.count_append]
      by_cases hone : tr1.count Call.sendNavigationEndEvent = 1
      · rw [(b4 (a6 hone)).1]
        omega
      · omega
    · intro hs
      rw [List.count_append, (a5 hs).1, (b4 (a5 hs).2).1]
      exact ⟨rfl, (b4 (a5 hs).2).2⟩
    · intro p hp hw
      rw [List.count_append, a7 p hp hw, b5 p (by rw [a1, hp]) hw]

/-- Example evaluation: a fresh supervisor accepts the goal (0, 0) while the robot stands at
(0, 0); the first step finds the goal reached, the second step (in IDLE) releases the
watchdog, and a cancel() follows. -/
theorem reach_example_evaluation :
    ∃ s3 : CAbstractNavigator ℝ,
      runCommands (Libm.mk Real.sqrt Real.cos Real.sin)
        (navigate (Libm.mk Real.sqrt Real.cos Real.sin) freshNavigator (goalAt 0 0)
          (envAt 0 0 0)).1
        [(Command.navigationStep, envAt 0 0 1), (Command.navigationStep, envAt 0 0 2),
          (Command.cancel, envAt 0 0 3)]
      = some (s3, [Call.startWatchdog 1000, Call.sendNavigationStartEvent,
          Call.getCurrentPoseAndSpeeds, Call.stop, Call.sendNavigationEndEvent,
          Call.stopWatchdog, Call.stop]) := by
  have d1 : targetDistAt (Libm.mk Real.sqrt Real.cos Real.sin)
      (navigate (Libm.mk Real.sqrt Real.cos Real.sin) freshNavigator (goalAt 0 0)
        (envAt 0 0 0)).1 (goalAt 0 0) (envAt 0 0 1) = 0 := by
    simp [targetDistAt, lastPoseAtCheck, navigate, goalAt, envAt, freshNavigator,
      CAbstractNavigator.new, TSegment2D.distance, TPoint2D.ofPose]
  have hstep1 := navigationStep_reached (Libm.mk Real.sqrt Real.cos Real.sin)
    (navigate (Libm.mk Real.sqrt Real.cos Real.sin) freshNavigator (goalAt 0 0)
      (envAt 0 0 0)).1 (goalAt 0 0) (envAt 0 0 1)
    (by simp [navigate, goalAt]) (by simp [navigate, goalAt]) rfl
    (by rw [d1]; norm_num [goalAt])
  have hstep2 := navigationStep_outside (Libm.mk Real.sqrt Real.cos Real.sin)
    (afterReached (Libm.mk Real.sqrt Real.cos Real.sin)
      (navigate (Libm.mk Real.sqrt Real.cos Real.sin) freshNavigator (goalAt 0 0)
        (envAt 0 0 0)).1 (goalAt 0 0) (envAt 0 0 1))
    (envAt 0 0 2) (by simp [afterReached])
  refine ⟨(cancel { afterReached (Libm.mk Real.sqrt Real.cos Real.sin)
      (navigate (Libm.mk Real.sqrt Real.cos Real.sin) freshNavigator (goalAt 0 0)
        (envAt 0 0 0)).1 (goalAt 0 0) (envAt 0 0 1) with
      m_lastNavigationState := (afterReached (Libm.mk Real.sqrt Real.cos Real.sin)
        (navigate (Libm.mk Real.sqrt Real.cos Real.sin) freshNavigator (goalAt 0 0)
          (envAt 0 0 0)).1 (goalAt 0 0) (envAt 0 0 1)).m_navigationState }).1, ?_⟩
  simp only [runCommands, applyCommand, hstep1, hstep2, cancel, earlyEndEvent, d1]
  simp [entryCalls, outsideCalls, afterReached, afterPoseRead, navigate, goalAt, freshNavigator,
    CAbstractNavigator.new]

/-- Every command keeps the invariant of the stored target, and under the invariant every
command returns. -/
theorem applyCommand_targetResolved {R : Type} [LinearOrderedField R] (M : Libm R)
    (s : CAbstractNavigator R) (c : Command R) (env : Env R)
    (hinv : TargetResolved s) :
    ∃ s2 tr, applyCommand M s c env = some (s2, tr) ∧ TargetResolved s2 := by
  cases c with
  | navigate p =>
    refine ⟨(navigate M s p env).1, (navigate M s p env).2, rfl, ?_⟩
    unfold TargetResolved
    cases hrel : p.targetIsRelative <;> cases hok : env.poseOk <;>
      simp [navigate, doEmergencyStop, hrel, hok]
  | cancel =>
    refine ⟨(cancel s).1, (cancel s).2, rfl, ?_⟩
    intro h
    simp [cancel] at h
  | suspend =>
    refine ⟨(suspend s).1, (suspend s).2, rfl, ?_⟩
    intro h
    by_cases hs : s.m_navigationState = TState.NAVIGATING
    · simpa [suspend, hs] using hinv (Or.inl hs)
    · have e : suspend s = (s, []) := by simp [suspend, hs]
      rw [e] at h ⊢
      exact hinv h
  | resume =>
    refine ⟨(resume s).1, (resume s).2, rfl, ?_⟩
    intro h
    by_cases hs : s.m_navigationState = TState.SUSPENDED
    · simpa [resume, hs] using hinv (Or.inr hs)
    · have e : resume s = (s, []) := by simp [resume, hs]
      rw [e] at h ⊢
      exact hinv h
  | resetNavError =>
    refine ⟨(resetNavError s).1, (resetNavError s).2, rfl, ?_⟩
    intro h
    by_cases hs : s.m_navigationState = TState.NAV_ERROR
    · simp [resetNavError, hs] at h
    · have e : resetNavError s = (s, []) := by simp [resetNavError, hs]
      rw [e] at h ⊢
      exact hinv h
  | navigationStep =>
    obtain ⟨s2, tr, h⟩ := navigationStep_returns M s env (by
      intro hs _ hnone
      obtain ⟨p, hp, _⟩ := hinv (Or.inl hs)
      rw [hp] at hnone
      cases hnone)
    refine ⟨s2, tr, h, ?_⟩
    intro hst
    have hpar := (navigationStep_frame M s s2 env tr h).2.1
    rw [hpar]
    apply hinv
    rcases navigationStep_cases M s s2 env tr h with ⟨_, rfl, _⟩ | ⟨_, _, rfl, _⟩ |
      ⟨p, hs, _, _, ⟨_, rfl, _⟩ | ⟨_, _, rfl, _⟩ | ⟨_, _, rfl, _⟩ | ⟨_, _, _, rfl, _⟩⟩
    · simpa using hst
    · simp at hst
    · simp [afterReached] at hst
    · exact Or.inl hs
    · simp [afterStalled] at hst
    · exact Or.inl hs

/-- Under the invariant of the stored target every sequence of commands returns and keeps
the invariant. -/
theorem runCommands_targetResolved {R : Type} [LinearOrderedField R] (M : Libm R)
    (cmds : List (Command R × Env R)) :
    ∀ s : CAbstractNavigator R, TargetResolved s →
      ∃ s2 tr, runCommands M s cmds = some (s2, tr) ∧ TargetResolved s2 := by
  induction cmds with
  | nil =>
    intro s hinv
    exact ⟨s, [], rfl, hinv⟩
  | cons ce rest ih =>
    intro s hinv
    obtain ⟨c, env⟩ := ce
    obtain ⟨s1, tr1, h1, hinv1⟩ := applyCommand_targetResolved M s c env hinv
    obtain ⟨s2, tr2, h2, hinv2⟩ := ih s1 hinv1
    exact ⟨s2, tr1 ++ tr2, by simp only [runCommands, h1, h2], hinv2⟩

/-- The character of a decimal digit is one of the ten digit characters. -/
theorem digitChar_isDigit (d : Nat) (h : d < 10) : (Nat.digitChar d).isDigit = true := by
  interval_cases d <;> decide

/-- The digits produced by the core loop of the decimal rendering are digit characters. -/
theorem toDigitsCore_isDigit (fuel : Nat) :
    ∀ (n : Nat) (ds : List Char), (∀ c ∈ ds, c.isDigit = true) →
      ∀ c ∈ Nat.toDigitsCore 10 fuel n ds, c.isDigit = true := by
  induction fuel with
  | zero =>
    intro n ds h c hc
    simpa [Nat.toDigitsCore] using h c hc
  | succ f ih =>
    intro n ds h c hc
    have hd : ∀ c ∈ Nat.digitChar (n % 10) :: ds, c.isDigit = true := by
      intro c hc
      rcases List.mem_cons.1 hc with rfl | hc
      · exact digitChar_isDigit _ (Nat.mod_lt _ (by norm_num))
      · exact h c hc
    simp only [Nat.toDigitsCore] at hc
    split_ifs at hc
    · exact hd c hc
    · exact ih _ _ hd c hc

/-- The decimal rendering of a natural number consists of digit characters. -/
theorem natToString_isDigit (n : Nat) : ∀ c ∈ (toString n).data, c.isDigit = true := by
  intro c hc
  have : (toString n).data = Nat.toDigits 10 n := rfl
  rw [this] at hc
  exact toDigitsCore_isDigit _ _ _ (by simp) c hc

/-- The rendering of a number has no line break. -/
theorem formatFixed3_no_newline (q : ℚ) : '\n' ∉ (formatFixed3 q).data := by
  intro h
  simp only [formatFixed3, threeDigits, String.data_append, List.mem_append] at h
  rcases h with ((h | h) | h) | h
  · split_ifs at h <;> simp at h
  · have := natToString_isDigit _ _ h
    simp at this
  · simp at h
  · simp only [List.mem_cons, List.mem_singleton, List.not_mem_nil, or_false] at h
    have h1 := digitChar_isDigit (roundedThousandths q % 1000 / 100)
      (Nat.div_lt_of_lt_mul (Nat.mod_lt _ (by norm_num)))
    have h2 := digitChar_isDigit (roundedThousandths q % 1000 / 10 % 10)
      (Nat.mod_lt _ (by norm_num))
    have h3 := digitChar_isDigit (roundedThousandths q % 1000 % 10) (Nat.mod_lt _ (by norm_num))
    rcases h with h | h | h
    · rw [← h] at h1
      simp at h1
    · rw [← h] at h2
      simp at h2
    · rw [← h] at h3
      simp at h3

/-- The value of `wrapTo2Pi` at a negative exact multiple of the period is the period
itself. -/
theorem wrapTo2Pi_neg_period {R : Type} [LinearOrderedField R] [FloorRing R] (twoPi : R)
    (hpos : 0 < twoPi) : wrapTo2Pi twoPi (-twoPi) = twoPi := by
  have hne : twoPi ≠ 0 := ne_of_gt hpos
  have hq : -twoPi / twoPi = -1 := by
    rw [neg_div, div_self hne]
  have hneg : -twoPi < 0 := by linarith
  have hx : ¬ (0 : R) ≤ -twoPi / twoPi := by
    rw [hq]
    norm_num
  have hc : ⌈(-1 : R)⌉ = -1 := by
    have h : ⌈(((-1 : ℤ)) : R)⌉ = -1 := Int.ceil_intCast _
    simpa using h
  have hw : wrapTo2Pi twoPi (-twoPi)
      = -twoPi - twoPi * ((⌈-twoPi / twoPi⌉ : ℤ) : R) + twoPi := by
    simp only [wrapTo2Pi, wrapTo2PiInPlace, fmod, hneg, decide_True, if_true, if_neg hx]
  rw [hw, hq, hc]
  push_cast
  ring

/-- The range of `wrapTo2Pi`: the result lies in the closed interval from 0 to the period,
differs from the argument by an integer multiple of the period, and equals the period exactly
when the argument is a negative integer multiple of it; for all other arguments it lies in the
half-open interval. -/
theorem wrapTo2Pi_range {R : Type} [LinearOrderedField R] [FloorRing R] (twoPi : R)
    (hpos : 0 < twoPi) (a : R) :
    0 ≤ wrapTo2Pi twoPi a ∧ wrapTo2Pi twoPi a ≤ twoPi
    ∧ (∃ k : ℤ, wrapTo2Pi twoPi a - a = (k : R) * twoPi)
    ∧ (wrapTo2Pi twoPi a = twoPi ↔ a < 0 ∧ ∃ k : ℤ, a = (k : R) * twoPi) := by
  have hne : twoPi ≠ 0 := ne_of_gt hpos
  have hmul : a / twoPi * twoPi = a := div_mul_cancel₀ a hne
  by_cases ha : a < 0
  · have hx : ¬ 0 ≤ a / twoPi := not_le.2 (div_neg_of_neg_of_pos ha hpos)
    have h1 : a / twoPi ≤ (⌈a / twoPi⌉ : ℤ) := Int.le_ceil _
    have h2 : ((⌈a / twoPi⌉ : ℤ) : R) < a / twoPi + 1 := Int.ceil_lt_add_one _
    have h3 : a ≤ twoPi * (⌈a / twoPi⌉ : ℤ) := by
      have := mul_le_mul_of_nonneg_right h1 (le_of_lt hpos)
      rw [hmul] at this
      linarith
    have h4 : twoPi * (⌈a / twoPi⌉ : ℤ) < a + twoPi := by
      have := mul_lt_mul_of_pos_right h2 hpos
      rw [add_mul, hmul] at this
      linarith
    have hw : wrapTo2Pi twoPi a = a - twoPi * (⌈a / twoPi⌉ : ℤ) + twoPi := by
      simp [wrapTo2Pi, wrapTo2PiInPlace, fmod, ha, hx]
    rw [hw]
    refine ⟨by linarith, by linarith, ⟨1 - ⌈a / twoPi⌉, by push_cast; ring⟩, ?_⟩
    constructor
    · intro h
      exact ⟨ha, ⌈a / twoPi⌉, by linarith⟩
    · rintro ⟨_, k, hk⟩
      have hq : a / twoPi = (k : R) := by
        rw [hk, mul_div_assoc, div_self hne, mul_one]
      rw [hq, Int.ceil_intCast, hk]
      ring
  · have ha0 : 0 ≤ a := not_lt.1 ha
    have hx : 0 ≤ a / twoPi := div_nonneg ha0 (le_of_lt hpos)
    have h1 : ((⌊a / twoPi⌋ : ℤ) : R) ≤ a / twoPi := Int.floor_le _
    have h2 : a / twoPi < (⌊a / twoPi⌋ : ℤ) + 1 := Int.lt_floor_add_one _
    have h3 : twoPi * (⌊a / twoPi⌋ : ℤ) ≤ a := by
      have := mul_le_mul_of_nonneg_right h1 (le_of_lt hpos)
      rw [hmul] at this
      linarith
    have h4 : a < twoPi * (⌊a / twoPi⌋ : ℤ) + twoPi := by
      have := mul_lt_mul_of_pos_right h2 hpos
      rw [add_mul, hmul] at this
      linarith
    have hw : wrapTo2Pi twoPi a = a - twoPi * (⌊a / twoPi⌋ : ℤ) := by
      simp [wrapTo2Pi, wrapTo2PiInPlace, fmod, ha, hx]
    rw [hw]
    refine ⟨by linarith, by linarith, ⟨-⌊a / twoPi⌋, by push_cast; ring⟩, ?_⟩
    constructor
    · intro h
      linarith
    · rintro ⟨h, _⟩
      exact absurd h ha

/-- A `NAVIGATING` step whose behaviour is defined makes its entry calls, then the pose query,
and afterwards neither starts the watchdog nor emits the start event. -/
theorem navigationStep_entry_then_query {R : Type} [LinearOrderedField R] (M : Libm R)
    (s : CAbstractNavigator R) (env : Env R)
    (hs : s.m_navigationState = TState.NAVIGATING)
    (hdef : env.poseOk = true → s.m_navigationParams ≠ none) :
    ∃ s2 rest, navigationStep M s env
        = some (s2, entryCalls s ++ Call.getCurrentPoseAndSpeeds :: rest)
      ∧ (∀ n, Call.startWatchdog n ∉ rest)
      ∧ Call.sendNavigationStartEvent ∉ rest := by
  obtain ⟨s2, tr, h⟩ := navigationStep_returns M s env (fun _ => hdef)
  rcases navigationStep_cases M s s2 env tr h with ⟨hne, _⟩ | ⟨_, hfail, _, rfl⟩ |
    ⟨p, _, hok, _, ⟨_, _, rfl⟩ | ⟨_, _, _, rfl⟩ | ⟨_, _, _, rfl⟩ | ⟨_, _, _, _, rfl⟩⟩
  · exact absurd hs hne
  · exact ⟨s2, [Call.stop], by simpa using h, by simp, by simp⟩
  · refine ⟨s2, _, by simpa [List.append_assoc] using h, ?_, ?_⟩
    · intro n
      split_ifs <;> simp
    · split_ifs <;> simp
  · refine ⟨s2, _, by simpa [callsBeforeGoalTest, List.append_assoc] using h, ?_, ?_⟩
    · intro n
      split_ifs <;> simp
    · split_ifs <;> simp
  · refine ⟨s2, _, by simpa [callsBeforeGoalTest, List.append_assoc] using h, ?_, ?_⟩
    · intro n
      split_ifs <;> simp
    · split_ifs <;> simp
  · refine ⟨s2, _, by simpa [callsBeforeGoalTest, List.append_assoc] using h, ?_, ?_⟩
    · intro n
      split_ifs <;> simp
    · split_ifs <;> simp

/-- The scenario of a navigation accepted after an error: a fresh supervisor is given a
relative target while the pose query fails, takes a step, is given an absolute target and
takes a step. The last step starts the watchdog and queries the pose, and the whole run
contains no start event. -/
theorem start_event_skipped_scenario {R : Type} [LinearOrderedField R] (M : Libm R)
    (p1 p2 : TNavigationParams R) (e1 e2 e3 e4 : Env R)
    (hrel : p1.targetIsRelative = true) (hfail : e1.poseOk = false)
    (habs : p2.targetIsRelative = false) :
    ∃ s4 rest,
      runCommands M freshNavigator
        [(Command.navigate p1, e1), (Command.navigationStep, e2),
          (Command.navigate p2, e3), (Command.navigationStep, e4)]
      = some (s4, [Call.getCurrentPoseAndSpeeds, Call.stop, Call.startWatchdog 1000,
          Call.getCurrentPoseAndSpeeds] ++ rest)
      ∧ Call.sendNavigationStartEvent ∉ rest := by
  have hstep2 := navigationStep_outside M (navigate M freshNavigator p1 e1).1 e2
    (by simp [navigate, hrel, hfail, doEmergencyStop])
  obtain ⟨s4, rest, hstep4, _, hrest⟩ := navigationStep_entry_then_query M
    (navigate M { (navigate M freshNavigator p1 e1).1 with
      m_lastNavigationState := (navigate M freshNavigator p1 e1).1.m_navigationState } p2 e3).1
    e4 (by simp [navigate, habs]) (by simp [navigate, habs])
  refine ⟨s4, rest, ?_, hrest⟩
  simp only [runCommands, applyCommand, hstep2, hstep4]
  simp [navigate, hrel, hfail, habs, doEmergencyStop, outsideCalls, entryCalls, freshNavigator,
    CAbstractNavigator.new]

/-- Example evaluation: a fresh supervisor accepts the goal (4, 3) while the robot is at
(0, 0); the first step records the best distance 5; the robot is then seen at (8, 0), at
distance 3 from the goal, and that step lowers the best distance to 3; a suspend() and a
further step leave it at 3. -/
theorem improve_example_evaluation :
    ∃ s1 s3 : CAbstractNavigator ℝ,
      navigationStep (Libm.mk Real.sqrt Real.cos Real.sin)
          (navigate (Libm.mk Real.sqrt Real.cos Real.sin) freshNavigator (goalAt 4 3)
            (envAt 0 0 0)).1 (envAt 0 0 0)
        = some (s1, [Call.startWatchdog 1000, Call.sendNavigationStartEvent,
            Call.getCurrentPoseAndSpeeds, Call.performNavigationStep])
      ∧ s1.m_badNavAlarm_minDistTarget = ((5 : ℝ) : WithTop ℝ)
      ∧ runCommands (Libm.mk Real.sqrt Real.cos Real.sin) s1
          [(Command.navigationStep, envAt 8 0 1), (Command.suspend, envAt 8 0 2),
            (Command.navigationStep, envAt 8 0 2)]
        = some (s3, [Call.getCurrentPoseAndSpeeds, Call.performNavigationStep,
            Call.stopWatchdog])
      ∧ s3.m_badNavAlarm_minDistTarget = ((3 : ℝ) : WithTop ℝ) := by
  obtain ⟨e1, e2, _, _⟩ := distance_examples
  have d1 : targetDistAt (Libm.mk Real.sqrt Real.cos Real.sin)
      (navigate (Libm.mk Real.sqrt Real.cos Real.sin) freshNavigator (goalAt 4 3)
        (envAt 0 0 0)).1 (goalAt 4 3) (envAt 0 0 0) = 5 := by
    simpa [targetDistAt, lastPoseAtCheck, navigate, goalAt, envAt, freshNavigator,
      CAbstractNavigator.new, TPoint2D.ofPose] using e1
  have hstep1 := navigationStep_improved (Libm.mk Real.sqrt Real.cos Real.sin)
    (navigate (Libm.mk Real.sqrt Real.cos Real.sin) freshNavigator (goalAt 4 3)
      (envAt 0 0 0)).1 (goalAt 4 3) (envAt 0 0 0)
    (by simp [navigate, goalAt]) (by simp [navigate, goalAt]) rfl
    (by rw [d1]; norm_num [goalAt])
    (by
      have htop : (navigate (Libm.mk Real.sqrt Real.cos Real.sin) freshNavigator (goalAt 4 3)
          (envAt 0 0 0)).1.m_badNavAlarm_minDistTarget = ⊤ := by
        simp [navigate, goalAt]
      rw [htop]
      exact WithTop.coe_lt_top _)
  have hbest : (afterImproved (Libm.mk Real.sqrt Real.cos Real.sin)
      (navigate (Libm.mk Real.sqrt Real.cos Real.sin) freshNavigator (goalAt 4 3)
        (envAt 0 0 0)).1 (goalAt 4 3) (envAt 0 0 0)).m_badNavAlarm_minDistTarget
      = ((5 : ℝ) : WithTop ℝ) := by
    simp only [afterImproved, d1]
  have d2 : targetDistAt (Libm.mk Real.sqrt Real.cos Real.sin)
      (afterImproved (Libm.mk Real.sqrt Real.cos Real.sin)
        (navigate (Libm.mk Real.sqrt Real.cos Real.sin) freshNavigator (goalAt 4 3)
          (envAt 0 0 0)).1 (goalAt 4 3) (envAt 0 0 0))
      (goalAt 4 3) (envAt 8 0 1) = 3 := by
    simpa [targetDistAt, lastPoseAtCheck, afterImproved, afterPoseRead, navigate, goalAt, envAt,
      freshNavigator, CAbstractNavigator.new, TPoint2D.ofPose] using e2
  have hstep2 := navigationStep_improved (Libm.mk Real.sqrt Real.cos Real.sin)
    (afterImproved (Libm.mk Real.sqrt Real.cos Real.sin)
      (navigate (Libm.mk Real.sqrt Real.cos Real.sin) freshNavigator (goalAt 4 3)
        (envAt 0 0 0)).1 (goalAt 4 3) (envAt 0 0 0))
    (goalAt 4 3) (envAt 8 0 1)
    (by simp [afterImproved, afterPoseRead, navigate, goalAt])
    (by simp [afterImproved, afterPoseRead, navigate, goalAt]) rfl
    (by rw [d2]; norm_num [goalAt])
    (by
      rw [d2, hbest]
      exact WithTop.coe_lt_coe.2 (by norm_num))
  have hstep3 := navigationStep_outside (Libm.mk Real.sqrt Real.cos Real.sin)
    (suspend (afterImproved (Libm.mk Real.sqrt Real.cos Real.sin)
      (afterImproved (Libm.mk Real.sqrt Real.cos Real.sin)
        (navigate (Libm.mk Real.sqrt Real.cos Real.sin) freshNavigator (goalAt 4 3)
          (envAt 0 0 0)).1 (goalAt 4 3) (envAt 0 0 0))
      (goalAt 4 3) (envAt 8 0 1))).1
    (envAt 8 0 2) (by simp [suspend, afterImproved, afterPoseRead, navigate, goalAt])
  refine ⟨afterImproved (Libm.mk Real.sqrt Real.cos Real.sin)
      (navigate (Libm.mk Real.sqrt Real.cos Real.sin) freshNavigator (goalAt 4 3)
        (envAt 0 0 0)).1 (goalAt 4 3) (envAt 0 0 0),
    { (suspend (afterImproved (Libm.mk Real.sqrt Real.cos Real.sin)
        (afterImproved (Libm.mk Real.sqrt Real.cos Real.sin)
          (navigate (Libm.mk Real.sqrt Real.cos Real.sin) freshNavigator (goalAt 4 3)
            (envAt 0 0 0)).1 (goalAt 4 3) (envAt 0 0 0))
        (goalAt 4 3) (envAt 8 0 1))).1 with
      m_lastNavigationState := TState.SUSPENDED },
    ?_, hbest, ?_, ?_⟩
  · rw [hstep1]
    simp only [callsBeforeGoalTest, earlyEndEvent, d1]
    simp [entryCalls, navigate, goalAt, freshNavigator, CAbstractNavigator.new]
  · simp only [runCommands, applyCommand, hstep2, hstep3]
    simp only [callsBeforeGoalTest, earlyEndEvent, d2]
    simp [entryCalls, outsideCalls, suspend, afterImproved, afterPoseRead, navigate, goalAt,
      freshNavigator, CAbstractNavigator.new]
  · have hbest2 : (afterImproved (Libm.mk Real.sqrt Real.cos Real.sin)
        (afterImproved (Libm.mk Real.sqrt Real.cos Real.sin)
          (navigate (Libm.mk Real.sqrt Real.cos Real.sin) freshNavigator (goalAt 4 3)
            (envAt 0 0 0)).1 (goalAt 4 3) (envAt 0 0 0))
        (goalAt 4 3) (envAt 8 0 1)).m_badNavAlarm_minDistTarget = ((3 : ℝ) : WithTop ℝ) := by
      show ((targetDistAt (Libm.mk Real.sqrt Real.cos Real.sin)
        (afterImproved (Libm.mk Real.sqrt Real.cos Real.sin)
          (navigate (Libm.mk Real.sqrt Real.cos Real.sin) freshNavigator (goalAt 4 3)
            (envAt 0 0 0)).1 (goalAt 4 3) (envAt 0 0 0))
        (goalAt 4 3) (envAt 8 0 1) : ℝ) : WithTop ℝ) = ((3 : ℝ) : WithTop ℝ)
      rw [d2]
    show (suspend (afterImproved (Libm.mk Real.sqrt Real.cos Real.sin)
        (afterImproved (Libm.mk Real.sqrt Real.cos Real.sin)
          (navigate (Libm.mk Real.sqrt Real.cos Real.sin) freshNavigator (goalAt 4 3)
            (envAt 0 0 0)).1 (goalAt 4 3) (envAt 0 0 0))
        (goalAt 4 3) (envAt 8 0 1))).1.m_badNavAlarm_minDistTarget = ((3 : ℝ) : WithTop ℝ)
    rw [(state_only_commands _).1.2]
    exact hbest2

/-- C1: from every state and with any stored parameters, cancel() ends in IDLE and issues
exactly one call, stop(); a second cancel() leaves the supervisor state as the first did. -/
theorem cancel_idle_stop_idempotent {R : Type} (s : CAbstractNavigator R) :
    (cancel s).1.m_navigationState = TState.IDLE
    ∧ (cancel s).2 = [Call.stop]
    ∧ (cancel s).1.m_navigationParams = s.m_navigationParams
    ∧ (cancel (cancel s).1).1 = (cancel s).1
    ∧ (cancel (cancel s).1).2 = [Call.stop] := by
  refine ⟨rfl, rfl, rfl, rfl, rfl⟩

/-- C2: navigate() with an absolute target, from every state: the state becomes NAVIGATING,
the stored parameters are a copy of the argument, the end-event flag is cleared, the alarm
timestamp is the acceptance time, the best distance is reset to the top value (so every
distance compares strictly below it), and no call is issued. -/
theorem navigate_absolute_accepts {R : Type} [LinearOrderedField R] (M : Libm R)
    (s : CAbstractNavigator R) (p : TNavigationParams R) (env : Env R)
    (habs : p.targetIsRelative = false) :
    (navigate M s p env).1.m_navigationState = TState.NAVIGATING
    ∧ (navigate M s p env).1.m_navigationParams = some p
    ∧ (navigate M s p env).1.m_navigationEndEventSent = false
    ∧ (navigate M s p env).1.m_badNavAlarm_lastMinDistTime = env.now
    ∧ (navigate M s p env).1.m_badNavAlarm_minDistTarget = ⊤
    ∧ (∀ d : R, (d : WithTop R) < (navigate M s p env).1.m_badNavAlarm_minDistTarget)
    ∧ (navigate M s p env).2 = [] := by
  simp [navigate, habs]

/-- Witness of C2: the default parameters accepted by a freshly constructed supervisor at
time 7. -/
theorem navigate_absolute_accepts_witness :
    (TNavigationParams.default : TNavigationParams ℝ).targetIsRelative = false
    ∧ (navigate (Libm.mk Real.sqrt Real.cos Real.sin)
        (CAbstractNavigator.new (TPose2D.mk 0 0 0) ⊤ 0) TNavigationParams.default
        (Env.mk false (TPose2D.mk 0 0 0) (TTwist2D.mk 0 0 0) 7 false)).1.m_navigationState
        = TState.NAVIGATING
    ∧ (navigate (Libm.mk Real.sqrt Real.cos Real.sin)
        (CAbstractNavigator.new (TPose2D.mk 0 0 0) ⊤ 0) TNavigationParams.default
        (Env.mk false (TPose2D.mk 0 0 0) (TTwist2D.mk 0 0 0) 7 false)).1.m_badNavAlarm_lastMinDistTime
        = 7 :=
  ⟨rfl,
    (navigate_absolute_accepts (Libm.mk Real.sqrt Real.cos Real.sin)
      (CAbstractNavigator.new (TPose2D.mk 0 0 0) ⊤ 0) TNavigationParams.default
      (Env.mk false (TPose2D.mk 0 0 0) (TTwist2D.mk 0 0 0) 7 false) rfl).1,
    (navigate_absolute_accepts (Libm.mk Real.sqrt Real.cos Real.sin)
      (CAbstractNavigator.new (TPose2D.mk 0 0 0) ⊤ 0) TNavigationParams.default
      (Env.mk false (TPose2D.mk 0 0 0) (TTwist2D.mk 0 0 0) 7 false) rfl).2.2.2.1⟩

/-- C3: navigate() with a relative target and a successful pose query leaves the supervisor
in exactly the state that navigate() leaves with the externally resolved absolute target
(the pose composed with the relative target); the stored target is that composition and the
stored relative flag is false. -/
theorem navigate_relative_resolves {R : Type} [LinearOrderedField R] (M : Libm R)
    (s : CAbstractNavigator R) (p : TNavigationParams R) (env : Env R)
    (hrel : p.targetIsRelative = true) (hok : env.poseOk = true) :
    (navigate M s p env).1
      = (navigate M s
          { p with target := composeFrom M env.pose p.target, targetIsRelative := false } env).1
    ∧ (navigate M s p env).1.m_navigationParams
      = some { target :=
                { x := env.pose.x + p.target.x * M.cos env.pose.phi
                        - p.target.y * M.sin env.pose.phi
                  y := env.pose.y + p.target.x * M.sin env.pose.phi
                        + p.target.y * M.cos env.pose.phi
                  phi := env.pose.phi + p.target.phi }
               targetAllowedDistance := p.targetAllowedDistance
               targetIsRelative := false
               targetIsIntermediaryWaypoint := p.targetIsIntermediaryWaypoint }
    ∧ (navigate M s p env).1.m_navigationState = TState.NAVIGATING := by
  simp [navigate, hrel, hok, composeFrom]

/-- Witness of C3: with the robot at (2, 0, 90 deg), the relative target (1, 0, 0 deg) is
stored as the absolute target (2, 1, 90 deg). -/
theorem navigate_relative_resolves_witness :
    (TNavigationParams.mk (TPose2D.mk (1 : ℝ) 0 0) (1 / 2) true false).targetIsRelative = true
    ∧ (Env.mk true (TPose2D.mk (2 : ℝ) 0 (Real.pi / 2)) (TTwist2D.mk 0 0 0) 0 false).poseOk = true
    ∧ (navigate (Libm.mk Real.sqrt Real.cos Real.sin)
        (CAbstractNavigator.new (TPose2D.mk 0 0 0) ⊤ 0)
        (TNavigationParams.mk (TPose2D.mk (1 : ℝ) 0 0) (1 / 2) true false)
        (Env.mk true (TPose2D.mk (2 : ℝ) 0 (Real.pi / 2)) (TTwist2D.mk 0 0 0) 0
          false)).1.m_navigationParams
      = some (TNavigationParams.mk (TPose2D.mk (2 : ℝ) 1 (Real.pi / 2)) (1 / 2) false false) := by
  refine ⟨rfl, rfl, ?_⟩
  rw [(navigate_relative_resolves (Libm.mk Real.sqrt Real.cos Real.sin)
        (CAbstractNavigator.new (TPose2D.mk 0 0 0) ⊤ 0)
        (TNavigationParams.mk (TPose2D.mk (1 : ℝ) 0 0) (1 / 2) true false)
        (Env.mk true (TPose2D.mk (2 : ℝ) 0 (Real.pi / 2)) (TTwist2D.mk 0 0 0) 0 false)
        rfl rfl).2.1]
  simp

/-- C4: navigate() with a relative target whose pose query fails performs the emergency
stop: the calls are the pose query followed by stop(), and the state it returns in is
NAV_ERROR, hence different from NAVIGATING. -/
theorem navigate_relative_pose_failure {R : Type} [LinearOrderedField R] (M : Libm R)
    (s : CAbstractNavigator R) (p : TNavigationParams R) (env : Env R)
    (hrel : p.targetIsRelative = true) (hfail : env.poseOk = false) :
    (navigate M s p env).2 = [Call.getCurrentPoseAndSpeeds, Call.stop]
    ∧ Call.stop ∈ (navigate M s p env).2
    ∧ (navigate M s p env).1.m_navigationState = TState.NAV_ERROR
    ∧ (navigate M s p env).1.m_navigationState ≠ TState.NAVIGATING := by
  simp [navigate, hrel, hfail, doEmergencyStop]

/-- Witness of C4: a relative target given to a freshly constructed supervisor whose robot
cannot report its pose. -/
theorem navigate_relative_pose_failure_witness :
    (TNavigationParams.mk (TPose2D.mk (1 : ℝ) 0 0) (1 / 2) true false).targetIsRelative = true
    ∧ (Env.mk false (TPose2D.mk (0 : ℝ) 0 0) (TTwist2D.mk 0 0 0) 0 false).poseOk = false
    ∧ (navigate (Libm.mk Real.sqrt Real.cos Real.sin)
        (CAbstractNavigator.new (TPose2D.mk 0 0 0) ⊤ 0)
        (TNavigationParams.mk (TPose2D.mk (1 : ℝ) 0 0) (1 / 2) true false)
        (Env.mk false (TPose2D.mk (0 : ℝ) 0 0) (TTwist2D.mk 0 0 0) 0 false)).2
      = [Call.getCurrentPoseAndSpeeds, Call.stop] :=
  ⟨rfl, rfl,
    (navigate_relative_pose_failure (Libm.mk Real.sqrt Real.cos Real.sin)
      (CAbstractNavigator.new (TPose2D.mk 0 0 0) ⊤ 0)
      (TNavigationParams.mk (TPose2D.mk (1 : ℝ) 0 0) (1 / 2) true false)
      (Env.mk false (TPose2D.mk (0 : ℝ) 0 0) (TTwist2D.mk 0 0 0) 0 false) rfl rfl).1⟩

/-- C5: a NAVIGATING step whose pose query succeeds and whose target distance is below the
allowed distance ends in IDLE whatever the alarm state and the time; it does not invoke the
strategy, calls stop() exactly when the goal is not an intermediary waypoint, and emits the
navigation-end event (once) exactly when the goal is not an intermediary waypoint and the
end-event flag was clear at entry. -/
theorem goal_reached_step {R : Type} [LinearOrderedField R] (M : Libm R)
    (s : CAbstractNavigator R) (p : TNavigationParams R) (env : Env R)
    (hs : s.m_navigationState = TState.NAVIGATING)
    (hp : s.m_navigationParams = some p)
    (hok : env.poseOk = true)
    (hd : targetDistAt M s p env < p.targetAllowedDistance) :
    ∃ s2 tr, navigationStep M s env = some (s2, tr)
      ∧ s2.m_navigationState = TState.IDLE
      ∧ Call.performNavigationStep ∉ tr
      ∧ (Call.stop ∈ tr ↔ p.targetIsIntermediaryWaypoint = false)
      ∧ (Call.sendNavigationEndEvent ∈ tr ↔
          (p.targetIsIntermediaryWaypoint = false ∧ s.m_navigationEndEventSent = false))
      ∧ tr.count Call.sendNavigationEndEvent ≤ 1
      ∧ (p.targetIsIntermediaryWaypoint = true →
          Call.stop ∉ tr ∧ Call.sendNavigationEndEvent ∉ tr) := by
  refine ⟨_, _, navigationStep_reached M s p env hs hp hok hd, rfl, ?_⟩
  cases hl : s.m_lastNavigationState <;> cases hw : p.targetIsIntermediaryWaypoint <;>
    cases he : s.m_navigationEndEventSent <;> cases hf : earlyEndEvent M s p env <;>
    simp [entryCalls, hl, hw, he, hf] <;>
    simp [earlyEndEvent, hw, he] at hf

/-- Witness of C5: a fresh supervisor accepts the default goal (0, 0) while the robot stands
at (0, 0); the first step finds the goal reached. -/
theorem goal_reached_step_witness :
    ∃ s2 tr,
      navigationStep (Libm.mk Real.sqrt Real.cos Real.sin)
        (navigate (Libm.mk Real.sqrt Real.cos Real.sin)
          (CAbstractNavigator.new (TPose2D.mk 0 0 0) ⊤ 0) TNavigationParams.default
          (Env.mk true (TPose2D.mk 0 0 0) (TTwist2D.mk 0 0 0) 0 false)).1
        (Env.mk true (TPose2D.mk 0 0 0) (TTwist2D.mk 0 0 0) 1 false) = some (s2, tr)
      ∧ s2.m_navigationState = TState.IDLE
      ∧ Call.performNavigationStep ∉ tr
      ∧ Call.stop ∈ tr
      ∧ Call.sendNavigationEndEvent ∈ tr := by
  obtain ⟨s2, tr, h1, h2, h3, h4, h5, _, _⟩ :=
    goal_reached_step (Libm.mk Real.sqrt Real.cos Real.sin)
      (navigate (Libm.mk Real.sqrt Real.cos Real.sin)
        (CAbstractNavigator.new (TPose2D.mk 0 0 0) ⊤ 0) TNavigationParams.default
        (Env.mk true (TPose2D.mk 0 0 0) (TTwist2D.mk 0 0 0) 0 false)).1
      TNavigationParams.default
      (Env.mk true (TPose2D.mk 0 0 0) (TTwist2D.mk 0 0 0) 1 false)
      (by simp [navigate, TNavigationParams.default])
      (by simp [navigate, TNavigationParams.default])
      rfl
      (by simp [targetDistAt, lastPoseAtCheck, TSegment2D.distance, TPoint2D.ofPose,
            TNavigationParams.default, navigate, CAbstractNavigator.new])
  exact ⟨s2, tr, h1, h2, h3, h4.2 rfl,
    h5.2 ⟨rfl, by simp [navigate, TNavigationParams.default]⟩⟩

/-- C9: a NAVIGATING step whose pose query fails returns normally (the exception raised in
the try block is caught inside the step), ends in NAV_ERROR, calls stop(), does not invoke
the strategy, and changes neither the alarm state nor the end-event flag. -/
theorem pose_failure_step {R : Type} [LinearOrderedField R] (M : Libm R)
    (s : CAbstractNavigator R) (env : Env R)
    (hs : s.m_navigationState = TState.NAVIGATING) (hfail : env.poseOk = false) :
    ∃ s2 tr, navigationStep M s env = some (s2, tr)
      ∧ (∃ s1, navigatingTry M s env = some (s1, tr, TryExit.threw))
      ∧ s2.m_navigationState = TState.NAV_ERROR
      ∧ Call.stop ∈ tr
      ∧ Call.performNavigationStep ∉ tr
      ∧ s2.m_badNavAlarm_minDistTarget = s.m_badNavAlarm_minDistTarget
      ∧ s2.m_badNavAlarm_lastMinDistTime = s.m_badNavAlarm_lastMinDistTime
      ∧ s2.m_badNavAlarm_AlarmTimeout = s.m_badNavAlarm_AlarmTimeout
      ∧ s2.m_navigationEndEventSent = s.m_navigationEndEventSent := by
  obtain ⟨h1, h2⟩ := navigationStep_pose_failure M s env hs hfail
  refine ⟨_, _, h2, ⟨_, h1⟩, rfl, by simp, ?_, rfl, rfl, rfl, rfl⟩
  simp [(entryCalls_free s).1]

/-- Witness of C9: the first step after a fresh supervisor accepted the default goal, with a
robot that cannot report its pose. -/
theorem pose_failure_step_witness :
    ∃ s2 tr,
      navigationStep (Libm.mk Real.sqrt Real.cos Real.sin)
        (navigate (Libm.mk Real.sqrt Real.cos Real.sin)
          (CAbstractNavigator.new (TPose2D.mk 0 0 0) ⊤ 0) TNavigationParams.default
          (Env.mk true (TPose2D.mk 0 0 0) (TTwist2D.mk 0 0 0) 0 false)).1
        (Env.mk false (TPose2D.mk 0 0 0) (TTwist2D.mk 0 0 0) 1 false) = some (s2, tr)
      ∧ s2.m_navigationState = TState.NAV_ERROR
      ∧ Call.stop ∈ tr := by
  obtain ⟨s2, tr, h1, _, h2, h3, _⟩ :=
    pose_failure_step (Libm.mk Real.sqrt Real.cos Real.sin)
      (navigate (Libm.mk Real.sqrt Real.cos Real.sin)
        (CAbstractNavigator.new (TPose2D.mk 0 0 0) ⊤ 0) TNavigationParams.default
        (Env.mk true (TPose2D.mk 0 0 0) (TTwist2D.mk 0 0 0) 0 false)).1
      (Env.mk false (TPose2D.mk 0 0 0) (TTwist2D.mk 0 0 0) 1 false)
      (by simp [navigate, TNavigationParams.default])
      rfl
  exact ⟨s2, tr, h1, h2, h3⟩

/-- C10: every step whose behaviour is defined (the parameters pointer is not NULL when it
is dereferenced) returns, and it invokes the path-following strategy exactly once if it is
taken in NAVIGATING with a successful pose query, the goal not reached and no stall declared,
and zero times in every other case. -/
theorem strategy_invoked_once_or_never {R : Type} [LinearOrderedField R] (M : Libm R)
    (s : CAbstractNavigator R) (env : Env R)
    (hdef : s.m_navigationState = TState.NAVIGATING → env.poseOk = true →
      s.m_navigationParams ≠ none) :
    ∃ s2 tr, navigationStep M s env = some (s2, tr)
      ∧ (strategyDue M s env → tr.count Call.performNavigationStep = 1)
      ∧ (¬ strategyDue M s env → tr.count Call.performNavigationStep = 0) := by
  by_cases hs : s.m_navigationState = TState.NAVIGATING
  · cases hok : env.poseOk
    · -- pose failure
      refine ⟨_, _, (navigationStep_pose_failure M s env hs hok).2, ?_, ?_⟩
      · intro hdue
        rw [hdue.2.1] at hok
        cases hok
      · intro _
        apply List.count_eq_zero_of_not_mem
        simp [(entryCalls_free s).1]
    · obtain ⟨p, hp⟩ := Option.ne_none_iff_exists'.1 (hdef hs hok)
      by_cases hd : targetDistAt M s p env < p.targetAllowedDistance
      · -- goal reached
        refine ⟨_, _, navigationStep_reached M s p env hs hp hok hd, ?_, ?_⟩
        · rintro ⟨_, _, q, hq, hnr, _⟩
          rw [hp] at hq
          cases hq
          exact absurd hd hnr
        · intro _
          apply List.count_eq_zero_of_not_mem
          have h1 := (entryCalls_free s).1
          split_ifs <;> simp [h1]
      · by_cases himp : ((targetDistAt M s p env : R) : WithTop R)
            < s.m_badNavAlarm_minDistTarget
        · -- improvement
          refine ⟨_, _, navigationStep_improved M s p env hs hp hok hd himp, ?_, ?_⟩
          · intro _
            rw [List.count_append,
              List.count_eq_zero_of_not_mem (callsBeforeGoalTest_free M s p env).1]
            simp
          · intro hn
            exact absurd ⟨hs, hok, p, hp, hd, fun h => h.1 himp⟩ hn
        · by_cases hto : timeDifference s.m_badNavAlarm_lastMinDistTime env.now
              > s.m_badNavAlarm_AlarmTimeout
          · -- stall
            refine ⟨_, _, navigationStep_stalled M s p env hs hp hok hd ⟨himp, hto⟩, ?_, ?_⟩
            · rintro ⟨_, _, q, hq, _, hns⟩
              rw [hp] at hq
              cases hq
              exact absurd ⟨himp, hto⟩ hns
            · intro _
              apply List.count_eq_zero_of_not_mem
              simp [(callsBeforeGoalTest_free M s p env).1]
          · -- neither
            refine ⟨_, _, navigationStep_steady M s p env hs hp hok hd himp hto, ?_, ?_⟩
            · intro _
              rw [List.count_append,
                List.count_eq_zero_of_not_mem (callsBeforeGoalTest_free M s p env).1]
              simp
            · intro hn
              exact absurd ⟨hs, hok, p, hp, hd, fun h => hto h.2⟩ hn
  · obtain ⟨tr, h1, h2, _⟩ := navigationStep_not_navigating M s env hs
    refine ⟨_, _, h1, ?_, ?_⟩
    · intro hdue
      exact absurd hdue.1 hs
    · intro _
      exact List.count_eq_zero_of_not_mem h2

/-- Witness of C10: on the first step after a fresh supervisor accepted the goal (0, 0), with
the robot at (3, 4), the strategy is invoked exactly once. -/
theorem strategy_invoked_once_or_never_witness :
    ∃ s2 tr,
      navigationStep (Libm.mk Real.sqrt Real.cos Real.sin)
        (navigate (Libm.mk Real.sqrt Real.cos Real.sin) freshNavigator (goalAt 0 0)
          (envAt 3 4 0)).1 (envAt 3 4 0) = some (s2, tr)
      ∧ tr.count Call.performNavigationStep = 1 := by
  obtain ⟨s2, tr, h1, h2, _⟩ :=
    strategy_invoked_once_or_never (Libm.mk Real.sqrt Real.cos Real.sin)
      (navigate (Libm.mk Real.sqrt Real.cos Real.sin) freshNavigator (goalAt 0 0)
        (envAt 3 4 0)).1 (envAt 3 4 0)
      (by simp [navigate, goalAt])
  refine ⟨s2, tr, h1, h2 ⟨by simp [navigate, goalAt], rfl, goalAt 0 0,
    by simp [navigate, goalAt], ?_, ?_⟩⟩
  · rw [targetDistAt_example]
    norm_num [goalAt]
  · intro h
    apply h.1
    have htop : (navigate (Libm.mk Real.sqrt Real.cos Real.sin) freshNavigator (goalAt 0 0)
        (envAt 3 4 0)).1.m_badNavAlarm_minDistTarget = ⊤ := by
      simp [navigate, goalAt]
    rw [htop]
    exact WithTop.coe_lt_top _

/-- C7: in a NAVIGATING step with a successful pose query and the goal not reached:
if the distance improves on the best one, the best distance and its timestamp become the
distance and the current time and no stall is declared; otherwise a stall is declared exactly
when the time since the best timestamp exceeds the alarm timeout, and then the step ends in
NAV_ERROR, emits the blocked event once and does not invoke the strategy, while without a
stall the step stays in NAVIGATING, keeps the alarm state and emits no blocked event.
Over any run of steps the blocked event is emitted at most once; in the scenario of an episode
starting at this step with the robot standing still, it is emitted exactly once as soon as a
step arrives after the timeout, and the run ends in NAV_ERROR. -/
theorem stall_alarm {R : Type} [LinearOrderedField R] (M : Libm R)
    (s : CAbstractNavigator R) (p : TNavigationParams R) (env : Env R)
    (hs : s.m_navigationState = TState.NAVIGATING)
    (hp : s.m_navigationParams = some p)
    (hok : env.poseOk = true)
    (hnr : ¬ targetDistAt M s p env < p.targetAllowedDistance) :
    (((targetDistAt M s p env : R) : WithTop R) < s.m_badNavAlarm_minDistTarget →
        ¬ stallDeclared M s p env
        ∧ ∃ s2 tr, navigationStep M s env = some (s2, tr)
          ∧ s2.m_badNavAlarm_minDistTarget = ((targetDistAt M s p env : R) : WithTop R)
          ∧ s2.m_badNavAlarm_lastMinDistTime = env.now
          ∧ s2.m_navigationState = TState.NAVIGATING
          ∧ Call.sendWaySeemsBlockedEvent ∉ tr)
    ∧ (¬ ((targetDistAt M s p env : R) : WithTop R) < s.m_badNavAlarm_minDistTarget →
        (stallDeclared M s p env ↔
          env.now - s.m_badNavAlarm_lastMinDistTime > s.m_badNavAlarm_AlarmTimeout))
    ∧ (stallDeclared M s p env →
        ∃ s2 tr, navigationStep M s env = some (s2, tr)
          ∧ s2.m_navigationState = TState.NAV_ERROR
          ∧ tr.count Call.sendWaySeemsBlockedEvent = 1
          ∧ Call.performNavigationStep ∉ tr)
    ∧ (¬ ((targetDistAt M s p env : R) : WithTop R) < s.m_badNavAlarm_minDistTarget →
        ¬ stallDeclared M s p env →
        ∃ s2 tr, navigationStep M s env = some (s2, tr)
          ∧ s2.m_navigationState = TState.NAVIGATING
          ∧ s2.m_badNavAlarm_minDistTarget = s.m_badNavAlarm_minDistTarget
          ∧ s2.m_badNavAlarm_lastMinDistTime = s.m_badNavAlarm_lastMinDistTime
          ∧ Call.sendWaySeemsBlockedEvent ∉ tr)
    ∧ (∀ (envs : List (Env R)) (s2 : CAbstractNavigator R) (tr : List Call),
        runSteps M s envs = some (s2, tr) → tr.count Call.sendWaySeemsBlockedEvent ≤ 1)
    ∧ (s.m_lastNavigationState ≠ TState.NAVIGATING →
        s.m_badNavAlarm_minDistTarget = ⊤ →
        ∀ (pre : List (Env R)) (e : Env R) (post : List (Env R)),
          (∀ x ∈ pre, x.poseOk = true ∧ x.pose = env.pose
            ∧ ¬ x.now - env.now > s.m_badNavAlarm_AlarmTimeout) →
          e.poseOk = true → e.pose = env.pose →
          e.now - env.now > s.m_badNavAlarm_AlarmTimeout →
          ∃ s2 tr, runSteps M s (env :: (pre ++ e :: post)) = some (s2, tr)
            ∧ s2.m_navigationState = TState.NAV_ERROR
            ∧ tr.count Call.sendWaySeemsBlockedEvent = 1) := by
  refine ⟨?_, ?_, ?_, ?_, ?_, ?_⟩
  · intro himp
    refine ⟨fun h => h.1 himp, _, _, navigationStep_improved M s p env hs hp hok hnr himp,
      rfl, rfl, hs, ?_⟩
    simp [(callsBeforeGoalTest_free M s p env).2.2]
  · intro hni
    exact ⟨fun h => h.2, fun h => ⟨hni, h⟩⟩
  · intro hst
    refine ⟨_, _, navigationStep_stalled M s p env hs hp hok hnr hst, rfl, ?_, ?_⟩
    · rw [List.count_append,
        List.count_eq_zero_of_not_mem (callsBeforeGoalTest_free M s p env).2.2]
      simp
    · simp [(callsBeforeGoalTest_free M s p env).1]
  · intro hni hns
    have hto : ¬ timeDifference s.m_badNavAlarm_lastMinDistTime env.now
        > s.m_badNavAlarm_AlarmTimeout := fun h => hns ⟨hni, h⟩
    refine ⟨_, _, navigationStep_steady M s p env hs hp hok hnr hni hto, hs, rfl, rfl, ?_⟩
    simp [(callsBeforeGoalTest_free M s p env).2.2]
  · intro envs s2 tr h
    exact (runSteps_blocked_le_one M envs s s2 tr h).1
  · intro hentry hfresh pre e post hpre heok hepose hlate
    exact runSteps_stall_scenario M s p env hs hp hok hnr hentry hfresh pre e post hpre heok
      hepose hlate

/-- Witness of C7: a fresh supervisor accepts the goal (0, 0) at time 0 with the default
timeout of 30 s; the robot stands at (3, 4), at distance 5; steps are taken at the times
0, 10, 20, 30, 31 and 32. The run ends in NAV_ERROR and the blocked event was emitted once. -/
theorem stall_alarm_witness :
    ∃ s2 tr,
      runSteps (Libm.mk Real.sqrt Real.cos Real.sin)
        (navigate (Libm.mk Real.sqrt Real.cos Real.sin) freshNavigator (goalAt 0 0)
          (envAt 3 4 0)).1
        [envAt 3 4 0, envAt 3 4 10, envAt 3 4 20, envAt 3 4 30, envAt 3 4 31, envAt 3 4 32]
        = some (s2, tr)
      ∧ s2.m_navigationState = TState.NAV_ERROR
      ∧ tr.count Call.sendWaySeemsBlockedEvent = 1 := by
  have h := (stall_alarm (Libm.mk Real.sqrt Real.cos Real.sin)
      (navigate (Libm.mk Real.sqrt Real.cos Real.sin) freshNavigator (goalAt 0 0)
        (envAt 3 4 0)).1 (goalAt 0 0) (envAt 3 4 0)
      (by simp [navigate, goalAt])
      (by simp [navigate, goalAt])
      rfl
      (by rw [targetDistAt_example]; norm_num [goalAt])).2.2.2.2.2
    (by simp [navigate, goalAt, freshNavigator, CAbstractNavigator.new])
    (by simp [navigate, goalAt])
    [envAt 3 4 10, envAt 3 4 20, envAt 3 4 30] (envAt 3 4 31) [envAt 3 4 32]
    (by
      intro x hx
      simp only [List.mem_cons, List.mem_singleton, List.not_mem_nil, or_false] at hx
      rcases hx with rfl | rfl | rfl <;>
        simp [envAt, navigate, goalAt, freshNavigator, CAbstractNavigator.new] <;> norm_num)
    rfl rfl
    (by simp [envAt, navigate, goalAt, freshNavigator, CAbstractNavigator.new]; norm_num)
  simpa using h

/-- C6 (evaluation of the code at the failing input): the goal is (4, 3) with allowed distance
1/2; the robot is observed at (0, 0), then at (8, 0), then at (8, 6). At the third step the
segment from the previous position (8, 0) to the current position (8, 6) is at distance 4 from
the goal, but the step computes the distance 0, from the segment that joins the current
position to the position of the first step of the episode, and declares the goal reached. -/
theorem third_step_measures_from_episode_start :
    ∃ s1 s2 s3 : CAbstractNavigator ℝ,
      navigationStep (Libm.mk Real.sqrt Real.cos Real.sin)
          (navigate (Libm.mk Real.sqrt Real.cos Real.sin) freshNavigator (goalAt 4 3)
            (envAt 0 0 0)).1 (envAt 0 0 0)
        = some (s1, [Call.startWatchdog 1000, Call.sendNavigationStartEvent,
            Call.getCurrentPoseAndSpeeds, Call.performNavigationStep])
      ∧ navigationStep (Libm.mk Real.sqrt Real.cos Real.sin) s1 (envAt 8 0 1)
        = some (s2, [Call.getCurrentPoseAndSpeeds, Call.performNavigationStep])
      ∧ s2.m_navigationState = TState.NAVIGATING
      ∧ s2.m_curPose = TPose2D.mk 8 0 0
      ∧ s2.m_lastPose = TPose2D.mk 0 0 0
      ∧ TSegment2D.distance (Libm.mk Real.sqrt Real.cos Real.sin)
          (TSegment2D.mk (TPoint2D.ofPose (envAt 8 6 2).pose) (TPoint2D.ofPose s2.m_curPose))
          (TPoint2D.ofPose (goalAt 4 3).target) = 4
      ∧ ¬ (4 : ℝ) < (goalAt 4 3).targetAllowedDistance
      ∧ targetDistAt (Libm.mk Real.sqrt Real.cos Real.sin) s2 (goalAt 4 3) (envAt 8 6 2) = 0
      ∧ navigationStep (Libm.mk Real.sqrt Real.cos Real.sin) s2 (envAt 8 6 2)
        = some (s3, [Call.getCurrentPoseAndSpeeds, Call.stop, Call.sendNavigationEndEvent])
      ∧ s3.m_navigationState = TState.IDLE := by
  obtain ⟨e1, e2, e3, e4⟩ := distance_examples
  have d1 : targetDistAt (Libm.mk Real.sqrt Real.cos Real.sin)
      (navigate (Libm.mk Real.sqrt Real.cos Real.sin) freshNavigator (goalAt 4 3)
        (envAt 0 0 0)).1 (goalAt 4 3) (envAt 0 0 0) = 5 := by
    simpa [targetDistAt, lastPoseAtCheck, navigate, goalAt, envAt, freshNavigator,
      CAbstractNavigator.new, TPoint2D.ofPose] using e1
  have hstep1 := navigationStep_improved (Libm.mk Real.sqrt Real.cos Real.sin)
    (navigate (Libm.mk Real.sqrt Real.cos Real.sin) freshNavigator (goalAt 4 3)
      (envAt 0 0 0)).1 (goalAt 4 3) (envAt 0 0 0)
    (by simp [navigate, goalAt]) (by simp [navigate, goalAt]) rfl
    (by rw [d1]; norm_num [goalAt])
    (by
      have htop : (navigate (Libm.mk Real.sqrt Real.cos Real.sin) freshNavigator (goalAt 4 3)
          (envAt 0 0 0)).1.m_badNavAlarm_minDistTarget = ⊤ := by
        simp [navigate, goalAt]
      rw [htop]
      exact WithTop.coe_lt_top _)
  have d2 : targetDistAt (Libm.mk Real.sqrt Real.cos Real.sin)
      (afterImproved (Libm.mk Real.sqrt Real.cos Real.sin)
        (navigate (Libm.mk Real.sqrt Real.cos Real.sin) freshNavigator (goalAt 4 3)
          (envAt 0 0 0)).1 (goalAt 4 3) (envAt 0 0 0))
      (goalAt 4 3) (envAt 8 0 1) = 3 := by
    simpa [targetDistAt, lastPoseAtCheck, afterImproved, afterPoseRead, navigate, goalAt, envAt,
      freshNavigator, CAbstractNavigator.new, TPoint2D.ofPose] using e2
  have hstep2 := navigationStep_improved (Libm.mk Real.sqrt Real.cos Real.sin)
    (afterImproved (Libm.mk Real.sqrt Real.cos Real.sin)
      (navigate (Libm.mk Real.sqrt Real.cos Real.sin) freshNavigator (goalAt 4 3)
        (envAt 0 0 0)).1 (goalAt 4 3) (envAt 0 0 0))
    (goalAt 4 3) (envAt 8 0 1)
    (by simp [afterImproved, afterPoseRead, navigate, goalAt])
    (by simp [afterImproved, afterPoseRead, navigate, goalAt]) rfl
    (by rw [d2]; norm_num [goalAt])
    (by
      rw [d2]
      have hbest : (afterImproved (Libm.mk Real.sqrt Real.cos Real.sin)
          (navigate (Libm.mk Real.sqrt Real.cos Real.sin) freshNavigator (goalAt 4 3)
            (envAt 0 0 0)).1 (goalAt 4 3) (envAt 0 0 0)).m_badNavAlarm_minDistTarget
          = ((5 : ℝ) : WithTop ℝ) := by
        simp only [afterImproved, d1]
      rw [hbest]
      exact WithTop.coe_lt_coe.2 (by norm_num))
  have d3 : targetDistAt (Libm.mk Real.sqrt Real.cos Real.sin)
      (afterImproved (Libm.mk Real.sqrt Real.cos Real.sin)
        (afterImproved (Libm.mk Real.sqrt Real.cos Real.sin)
          (navigate (Libm.mk Real.sqrt Real.cos Real.sin) freshNavigator (goalAt 4 3)
            (envAt 0 0 0)).1 (goalAt 4 3) (envAt 0 0 0))
        (goalAt 4 3) (envAt 8 0 1))
      (goalAt 4 3) (envAt 8 6 2) = 0 := by
    simpa [targetDistAt, lastPoseAtCheck, afterImproved, afterPoseRead, navigate, goalAt, envAt,
      freshNavigator, CAbstractNavigator.new, TPoint2D.ofPose] using e3
  have hstep3 := navigationStep_reached (Libm.mk Real.sqrt Real.cos Real.sin)
    (afterImproved (Libm.mk Real.sqrt Real.cos Real.sin)
      (afterImproved (Libm.mk Real.sqrt Real.cos Real.sin)
        (navigate (Libm.mk Real.sqrt Real.cos Real.sin) freshNavigator (goalAt 4 3)
          (envAt 0 0 0)).1 (goalAt 4 3) (envAt 0 0 0))
      (goalAt 4 3) (envAt 8 0 1))
    (goalAt 4 3) (envAt 8 6 2)
    (by simp [afterImproved, afterPoseRead, navigate, goalAt])
    (by simp [afterImproved, afterPoseRead, navigate, goalAt]) rfl
    (by rw [d3]; norm_num [goalAt])
  refine ⟨afterImproved (Libm.mk Real.sqrt Real.cos Real.sin)
      (navigate (Libm.mk Real.sqrt Real.cos Real.sin) freshNavigator (goalAt 4 3)
        (envAt 0 0 0)).1 (goalAt 4 3) (envAt 0 0 0),
    afterImproved (Libm.mk Real.sqrt Real.cos Real.sin)
      (afterImproved (Libm.mk Real.sqrt Real.cos Real.sin)
        (navigate (Libm.mk Real.sqrt Real.cos Real.sin) freshNavigator (goalAt 4 3)
          (envAt 0 0 0)).1 (goalAt 4 3) (envAt 0 0 0))
      (goalAt 4 3) (envAt 8 0 1),
    afterReached (Libm.mk Real.sqrt Real.cos Real.sin)
      (afterImproved (Libm.mk Real.sqrt Real.cos Real.sin)
        (afterImproved (Libm.mk Real.sqrt Real.cos Real.sin)
          (navigate (Libm.mk Real.sqrt Real.cos Real.sin) freshNavigator (goalAt 4 3)
            (envAt 0 0 0)).1 (goalAt 4 3) (envAt 0 0 0))
        (goalAt 4 3) (envAt 8 0 1))
      (goalAt 4 3) (envAt 8 6 2),
    ?_, ?_, ?_, ?_, ?_, ?_, ?_, d3, ?_, ?_⟩
  · rw [hstep1]
    simp only [callsBeforeGoalTest, earlyEndEvent, d1]
    simp [entryCalls, navigate, goalAt, freshNavigator, CAbstractNavigator.new]
  · rw [hstep2]
    simp only [callsBeforeGoalTest, earlyEndEvent, d2]
    simp [entryCalls, afterImproved, afterPoseRead, navigate, goalAt, freshNavigator,
      CAbstractNavigator.new]
  · simp [afterImproved, afterPoseRead, navigate, goalAt]
  · simp [afterImproved, afterPoseRead, envAt]
  · simp [afterImproved, afterPoseRead, lastPoseAtCheck, navigate, goalAt, envAt, freshNavigator,
      CAbstractNavigator.new]
  · simpa [afterImproved, afterPoseRead, goalAt, envAt, TPoint2D.ofPose] using e4
  · norm_num [goalAt]
  · have he1 : earlyEndEvent (Libm.mk Real.sqrt Real.cos Real.sin)
        (navigate (Libm.mk Real.sqrt Real.cos Real.sin) freshNavigator (goalAt 4 3)
          (envAt 0 0 0)).1 (goalAt 4 3) (envAt 0 0 0) = false := by
      simp only [earlyEndEvent, d1]
      simp [navigate, goalAt, freshNavigator, CAbstractNavigator.new]
    have he2 : earlyEndEvent (Libm.mk Real.sqrt Real.cos Real.sin)
        (afterImproved (Libm.mk Real.sqrt Real.cos Real.sin)
          (navigate (Libm.mk Real.sqrt Real.cos Real.sin) freshNavigator (goalAt 4 3)
            (envAt 0 0 0)).1 (goalAt 4 3) (envAt 0 0 0))
        (goalAt 4 3) (envAt 8 0 1) = false := by
      simp only [earlyEndEvent, d2]
      simp [afterImproved, afterPoseRead, navigate, goalAt, freshNavigator,
        CAbstractNavigator.new]
    have hsent : (afterImproved (Libm.mk Real.sqrt Real.cos Real.sin)
        (afterImproved (Libm.mk Real.sqrt Real.cos Real.sin)
          (navigate (Libm.mk Real.sqrt Real.cos Real.sin) freshNavigator (goalAt 4 3)
            (envAt 0 0 0)).1 (goalAt 4 3) (envAt 0 0 0))
        (goalAt 4 3) (envAt 8 0 1)).m_navigationEndEventSent = false := by
      rw [afterImproved_sent, afterImproved_sent, he1, he2]
      simp [navigate, goalAt]
    have hlast : (afterImproved (Libm.mk Real.sqrt Real.cos Real.sin)
        (afterImproved (Libm.mk Real.sqrt Real.cos Real.sin)
          (navigate (Libm.mk Real.sqrt Real.cos Real.sin) freshNavigator (goalAt 4 3)
            (envAt 0 0 0)).1 (goalAt 4 3) (envAt 0 0 0))
        (goalAt 4 3) (envAt 8 0 1)).m_lastNavigationState = TState.NAVIGATING := rfl
    have hdist0 : (afterImproved (Libm.mk Real.sqrt Real.cos Real.sin)
        (afterImproved (Libm.mk Real.sqrt Real.cos Real.sin)
          (navigate (Libm.mk Real.sqrt Real.cos Real.sin) freshNavigator (goalAt 4 3)
            (envAt 0 0 0)).1 (goalAt 4 3) (envAt 0 0 0))
        (goalAt 4 3) (envAt 8 0 1)).DIST_TO_TARGET_FOR_SENDING_EVENT = 0 := rfl
    rw [hstep3]
    simp only [earlyEndEvent, d3, hsent, hdist0, entryCalls, hlast]
    simp [goalAt]
  · simp [afterReached]

/-- C8 (evaluation of the code at the failing input): a fresh supervisor accepts the goal
(0, 0) at time 0, the robot stands at (3, 4); the step at time 0 records the distance 5, the
step at time 31 declares the stall: its only calls are the pose query and the blocked event,
it does not call stop(). If resetNavError() is called before the next step, that step, taken
in IDLE, only releases the watchdog: no stop() is issued at all after the stall. -/
theorem stall_step_makes_no_stop_call :
    ∃ s1 s2 s4 : CAbstractNavigator ℝ,
      navigationStep (Libm.mk Real.sqrt Real.cos Real.sin)
          (navigate (Libm.mk Real.sqrt Real.cos Real.sin) freshNavigator (goalAt 0 0)
            (envAt 3 4 0)).1 (envAt 3 4 0)
        = some (s1, [Call.startWatchdog 1000, Call.sendNavigationStartEvent,
            Call.getCurrentPoseAndSpeeds, Call.performNavigationStep])
      ∧ s1.m_navigationState = TState.NAVIGATING
      ∧ s1.m_navigationParams = some (goalAt 0 0)
      ∧ (envAt (3 : ℝ) 4 31).poseOk = true
      ∧ ¬ targetDistAt (Libm.mk Real.sqrt Real.cos Real.sin) s1 (goalAt 0 0) (envAt 3 4 31)
          < (goalAt (0 : ℝ) 0).targetAllowedDistance
      ∧ stallDeclared (Libm.mk Real.sqrt Real.cos Real.sin) s1 (goalAt 0 0) (envAt 3 4 31)
      ∧ navigationStep (Libm.mk Real.sqrt Real.cos Real.sin) s1 (envAt 3 4 31)
        = some (s2, [Call.getCurrentPoseAndSpeeds, Call.sendWaySeemsBlockedEvent])
      ∧ s2.m_navigationState = TState.NAV_ERROR
      ∧ Call.stop ∉ [Call.getCurrentPoseAndSpeeds, Call.sendWaySeemsBlockedEvent]
      ∧ runCommands (Libm.mk Real.sqrt Real.cos Real.sin) s1
          [(Command.navigationStep, envAt 3 4 31), (Command.resetNavError, envAt 3 4 32),
            (Command.navigationStep, envAt 3 4 32)]
        = some (s4, [Call.getCurrentPoseAndSpeeds, Call.sendWaySeemsBlockedEvent,
            Call.stopWatchdog])
      ∧ s4.m_navigationState = TState.IDLE
      ∧ Call.stop ∉ [Call.getCurrentPoseAndSpeeds, Call.sendWaySeemsBlockedEvent,
          Call.stopWatchdog] := by
  obtain ⟨s1, s2, h1, h2, h3, h4, h5, h6, h7, h8, h9⟩ := stall_example_evaluation
  have hl : s2.m_lastNavigationState = TState.NAVIGATING := by
    rw [(navigationStep_frame _ _ _ _ _ h7).1, h2]
  have hstep3 := navigationStep_outside (Libm.mk Real.sqrt Real.cos Real.sin)
    { s2 with m_navigationState := TState.IDLE } (envAt 3 4 32) (by simp)
  refine ⟨s1, s2, { s2 with m_navigationState := TState.IDLE,
                            m_lastNavigationState := TState.IDLE },
    h1, h2, h3, h4, h5, h6, h7, h8, h9, ?_, rfl, by decide⟩
  simp only [runCommands, applyCommand, h7, resetNavError, h8, if_true, hstep3]
  simp [outsideCalls, hl]

/-- A NAVIGATING step that declares a stall ends in NAV_ERROR and emits the blocked event but
does not itself call stop(); a step that follows it directly, with no command in between
(taken in NAV_ERROR right after a navigating step), emits the ended-due-to-error event and
calls stop() and stopWatchdog(). -/
theorem stall_step_defers_stop {R : Type} [LinearOrderedField R] (M : Libm R)
    (s : CAbstractNavigator R) (p : TNavigationParams R) (env : Env R)
    (hs : s.m_navigationState = TState.NAVIGATING)
    (hp : s.m_navigationParams = some p)
    (hok : env.poseOk = true)
    (hnr : ¬ targetDistAt M s p env < p.targetAllowedDistance)
    (hst : stallDeclared M s p env) :
    ∃ s2 tr, navigationStep M s env = some (s2, tr)
      ∧ s2.m_navigationState = TState.NAV_ERROR
      ∧ Call.sendWaySeemsBlockedEvent ∈ tr
      ∧ Call.stop ∉ tr
      ∧ ∀ env2 : Env R, ∃ s3, navigationStep M s2 env2
          = some (s3, [Call.sendNavigationEndDueToErrorEvent, Call.stop, Call.stopWatchdog])
        ∧ s3.m_navigationState = TState.NAV_ERROR := by
  refine ⟨_, _, navigationStep_stalled M s p env hs hp hok hnr hst, rfl, by simp, ?_, ?_⟩
  · simp [(callsBeforeGoalTest_free M s p env).2.1]
  · intro env2
    refine ⟨{ afterStalled M s p env with m_lastNavigationState := TState.NAV_ERROR }, ?_, rfl⟩
    simp [navigationStep, afterStalled]

/-- Example: the stall of the example above; the step at time 31 makes no stop() call and a
directly following step, at time 32, makes it. -/
theorem stall_step_defers_stop_example :
    ∃ s1 s2 tr s3,
      navigationStep (Libm.mk Real.sqrt Real.cos Real.sin)
          (navigate (Libm.mk Real.sqrt Real.cos Real.sin) freshNavigator (goalAt 0 0)
            (envAt 3 4 0)).1 (envAt 3 4 0)
        = some (s1, [Call.startWatchdog 1000, Call.sendNavigationStartEvent,
            Call.getCurrentPoseAndSpeeds, Call.performNavigationStep])
      ∧ navigationStep (Libm.mk Real.sqrt Real.cos Real.sin) s1 (envAt 3 4 31) = some (s2, tr)
      ∧ Call.stop ∉ tr
      ∧ navigationStep (Libm.mk Real.sqrt Real.cos Real.sin) s2 (envAt 3 4 32)
        = some (s3, [Call.sendNavigationEndDueToErrorEvent, Call.stop, Call.stopWatchdog]) := by
  obtain ⟨s1, _, h1, h2, h3, h4, h5, h6, _, _, _⟩ := stall_example_evaluation
  obtain ⟨s2, tr, g1, _, _, g4, g5⟩ :=
    stall_step_defers_stop (Libm.mk Real.sqrt Real.cos Real.sin) s1 (goalAt 0 0) (envAt 3 4 31)
      h2 h3 h4 h5 h6
  obtain ⟨s3, g6, _⟩ := g5 (envAt 3 4 32)
  exact ⟨s1, s2, tr, s3, h1, g1, g4, g6⟩

/-- C11: when the strategy raises an exception in a NAVIGATING step, the step returns normally
(the try block is left by the exception, which the handlers swallow) with exactly the result
of the same step without the exception: the state is still NAVIGATING, the previous-state
field is NAVIGATING and the parameters are kept, so in the next step the strategy is invoked
again whenever its conditions hold. -/
theorem strategy_exception_swallowed {R : Type} [LinearOrderedField R] (M : Libm R)
    (s : CAbstractNavigator R) (p : TNavigationParams R) (env : Env R)
    (hs : s.m_navigationState = TState.NAVIGATING)
    (hp : s.m_navigationParams = some p)
    (hok : env.poseOk = true)
    (hnr : ¬ targetDistAt M s p env < p.targetAllowedDistance)
    (hns : ¬ stallDeclared M s p env)
    (hthrow : env.strategyThrows = true) :
    ∃ s2 tr, navigationStep M s env = some (s2, tr)
      ∧ (∃ s1, navigatingTry M s env = some (s1, tr, TryExit.threw))
      ∧ Call.performNavigationStep ∈ tr
      ∧ navigationStep M s { env with strategyThrows := false } = some (s2, tr)
      ∧ s2.m_navigationState = TState.NAVIGATING
      ∧ s2.m_lastNavigationState = TState.NAVIGATING
      ∧ s2.m_navigationParams = some p
      ∧ ∀ env2 : Env R, strategyDue M s2 env2 →
          ∃ s3 tr3, navigationStep M s2 env2 = some (s3, tr3)
            ∧ tr3.count Call.performNavigationStep = 1 := by
  obtain ⟨s2, h1, _, h3, h4, h5⟩ := navigationStep_strategy M s p env hs hp hok hnr hns
  obtain ⟨s1, h6⟩ := navigatingTry_strategy_exit M s p env hs hp hok hnr hns
  rw [hthrow] at h6
  refine ⟨s2, _, h1, ⟨s1, by simpa using h6⟩, by simp, ?_, h3, h4, h5, ?_⟩
  · have e1 : navigationStep M s { env with strategyThrows := false }
        = navigationStep M s env := by
      by_cases himp : ((targetDistAt M s p env : R) : WithTop R)
          < s.m_badNavAlarm_minDistTarget
      · rw [navigationStep_improved M s p env hs hp hok hnr himp,
          navigationStep_improved M s p { env with strategyThrows := false } hs hp hok hnr himp]
        rfl
      · have hto : ¬ timeDifference s.m_badNavAlarm_lastMinDistTime env.now
            > s.m_badNavAlarm_AlarmTimeout := fun h => hns ⟨himp, h⟩
        rw [navigationStep_steady M s p env hs hp hok hnr himp hto,
          navigationStep_steady M s p { env with strategyThrows := false } hs hp hok hnr himp
            hto]
        rfl
    rw [e1, h1]
  · rintro env2 ⟨g1, g2, q, g3, g4, g5⟩
    obtain ⟨s3, g6, _⟩ := navigationStep_strategy M s2 q env2 g1 g3 g2 g4 g5
    refine ⟨s3, _, g6, ?_⟩
    rw [List.count_append,
      List.count_eq_zero_of_not_mem (callsBeforeGoalTest_free M s2 q env2).1]
    simp

/-- Witness of C11: the first step after a fresh supervisor accepted the goal (0, 0), with the
robot at (3, 4) and a strategy that throws. -/
theorem strategy_exception_swallowed_witness :
    ∃ s2 tr,
      navigationStep (Libm.mk Real.sqrt Real.cos Real.sin)
        (navigate (Libm.mk Real.sqrt Real.cos Real.sin) freshNavigator (goalAt 0 0)
          (envAt 3 4 0)).1
        (Env.mk true (TPose2D.mk 3 4 0) (TTwist2D.mk 0 0 0) 0 true) = some (s2, tr)
      ∧ Call.performNavigationStep ∈ tr
      ∧ s2.m_navigationState = TState.NAVIGATING
      ∧ s2.m_lastNavigationState = TState.NAVIGATING := by
  have hd : targetDistAt (Libm.mk Real.sqrt Real.cos Real.sin)
      (navigate (Libm.mk Real.sqrt Real.cos Real.sin) freshNavigator (goalAt 0 0)
        (envAt 3 4 0)).1 (goalAt 0 0)
      (Env.mk true (TPose2D.mk 3 4 0) (TTwist2D.mk 0 0 0) 0 true) = 5 :=
    targetDistAt_example
  obtain ⟨s2, tr, h1, _, h3, _, h5, h6, _⟩ :=
    strategy_exception_swallowed (Libm.mk Real.sqrt Real.cos Real.sin)
      (navigate (Libm.mk Real.sqrt Real.cos Real.sin) freshNavigator (goalAt 0 0)
        (envAt 3 4 0)).1 (goalAt 0 0)
      (Env.mk true (TPose2D.mk 3 4 0) (TTwist2D.mk 0 0 0) 0 true)
      (by simp [navigate, goalAt])
      (by simp [navigate, goalAt])
      rfl
      (by rw [hd]; norm_num [goalAt])
      (by
        intro h
        apply h.1
        rw [hd]
        have htop : (navigate (Libm.mk Real.sqrt Real.cos Real.sin) freshNavigator
            (goalAt 0 0) (envAt 3 4 0)).1.m_badNavAlarm_minDistTarget = ⊤ := by
          simp [navigate, goalAt]
        rw [htop]
        exact WithTop.coe_lt_top _)
      rfl
  exact ⟨s2, tr, h1, h3, h5, h6⟩

/-- C12 (counterexample): the step taken in SUSPENDED right after a navigating step (a fresh
supervisor accepted a goal, took one navigating step and was suspended) calls stopWatchdog()
only; it does not call stop(). -/
theorem suspended_step_makes_no_stop_call :
    ∃ s1 s2 : CAbstractNavigator ℝ,
      navigationStep (Libm.mk Real.sqrt Real.cos Real.sin)
          (navigate (Libm.mk Real.sqrt Real.cos Real.sin) freshNavigator (goalAt 0 0)
            (envAt 3 4 0)).1 (envAt 3 4 0)
        = some (s1, [Call.startWatchdog 1000, Call.sendNavigationStartEvent,
            Call.getCurrentPoseAndSpeeds, Call.performNavigationStep])
      ∧ s1.m_navigationState = TState.NAVIGATING
      ∧ suspend s1 = (s2, [])
      ∧ s2.m_navigationState = TState.SUSPENDED
      ∧ s2.m_lastNavigationState = TState.NAVIGATING
      ∧ navigationStep (Libm.mk Real.sqrt Real.cos Real.sin) s2 (envAt 3 4 1)
        = some ({ s2 with m_lastNavigationState := TState.SUSPENDED }, [Call.stopWatchdog])
      ∧ Call.stop ∉ [Call.stopWatchdog] :=
  suspend_example_evaluation

/-- C12 (amended): a step taken in IDLE or SUSPENDED changes only the previous-state field;
if the previous-step state was NAVIGATING it releases the motion watchdog (stopWatchdog())
and makes no other call, in particular no stop(); otherwise it makes no call at all. -/
theorem idle_or_suspended_step {R : Type} [LinearOrderedField R] (M : Libm R)
    (s : CAbstractNavigator R) (env : Env R)
    (hs : s.m_navigationState = TState.IDLE ∨ s.m_navigationState = TState.SUSPENDED) :
    ∃ tr, navigationStep M s env
        = some ({ s with m_lastNavigationState := s.m_navigationState }, tr)
      ∧ (s.m_lastNavigationState = TState.NAVIGATING → tr = [Call.stopWatchdog])
      ∧ (s.m_lastNavigationState ≠ TState.NAVIGATING → tr = [])
      ∧ Call.stop ∉ tr := by
  have hne : s.m_navigationState ≠ TState.NAVIGATING := by
    rcases hs with h | h <;> rw [h] <;> decide
  have hne2 : s.m_navigationState ≠ TState.NAV_ERROR := by
    rcases hs with h | h <;> rw [h] <;> decide
  refine ⟨_, navigationStep_outside M s env hne, ?_, ?_, ?_⟩
  · intro hl
    simp [outsideCalls, hne2, hl]
  · intro hl
    simp [outsideCalls, hne2, hl]
  · by_cases hl : s.m_lastNavigationState = TState.NAVIGATING <;>
      simp [outsideCalls, hne2, hl]

/-- Witness of C12 (amended): a fresh supervisor accepts a goal, takes one navigating step and
is suspended; the next step releases the watchdog and makes no stop() call. -/
theorem idle_or_suspended_step_witness :
    ∃ (s1 s2 : CAbstractNavigator ℝ) (tr : List Call),
      navigationStep (Libm.mk Real.sqrt Real.cos Real.sin)
          (navigate (Libm.mk Real.sqrt Real.cos Real.sin) freshNavigator (goalAt 0 0)
            (envAt 3 4 0)).1 (envAt 3 4 0)
        = some (s1, [Call.startWatchdog 1000, Call.sendNavigationStartEvent,
            Call.getCurrentPoseAndSpeeds, Call.performNavigationStep])
      ∧ suspend s1 = (s2, [])
      ∧ navigationStep (Libm.mk Real.sqrt Real.cos Real.sin) s2 (envAt 3 4 1)
        = some ({ s2 with m_lastNavigationState := s2.m_navigationState }, tr)
      ∧ tr = [Call.stopWatchdog]
      ∧ Call.stop ∉ tr := by
  obtain ⟨s1, s2, h1, _, h3, h4, h5, _, _⟩ := suspend_example_evaluation
  obtain ⟨tr, g1, g2, _, g4⟩ :=
    idle_or_suspended_step (Libm.mk Real.sqrt Real.cos Real.sin) s2 (envAt 3 4 1) (Or.inr h4)
  exact ⟨s1, s2, tr, h1, h3, g1, g2 h5, g4⟩

/-- C13: a step taken in NAV_ERROR stays in NAV_ERROR; if the previous-step state was
NAVIGATING it emits the ended-due-to-error event once and calls stop() and stopWatchdog(),
otherwise it makes no call; a second consecutive step makes no call. -/
theorem nav_error_step {R : Type} [LinearOrderedField R] (M : Libm R)
    (s : CAbstractNavigator R) (env : Env R)
    (hs : s.m_navigationState = TState.NAV_ERROR) :
    ∃ s2 tr, navigationStep M s env = some (s2, tr)
      ∧ s2.m_navigationState = TState.NAV_ERROR
      ∧ s2 = { s with m_lastNavigationState := TState.NAV_ERROR }
      ∧ (s.m_lastNavigationState = TState.NAVIGATING →
          tr = [Call.sendNavigationEndDueToErrorEvent, Call.stop, Call.stopWatchdog])
      ∧ (s.m_lastNavigationState ≠ TState.NAVIGATING → tr = [])
      ∧ tr.count Call.sendNavigationEndDueToErrorEvent ≤ 1
      ∧ ∀ env2 : Env R, navigationStep M s2 env2 = some (s2, []) := by
  have hne : s.m_navigationState ≠ TState.NAVIGATING := by
    rw [hs]
    decide
  refine ⟨_, _, navigationStep_outside M s env hne, hs, by rw [hs], ?_, ?_, ?_, ?_⟩
  · intro hl
    simp [outsideCalls, hs, hl]
  · intro hl
    simp [outsideCalls, hs, hl]
  · by_cases hl : s.m_lastNavigationState = TState.NAVIGATING <;>
      simp [outsideCalls, hs, hl]
  · intro env2
    rw [navigationStep_outside M _ env2 (by simp [hs])]
    simp [outsideCalls, hs]

/-- Witness of C13: a fresh supervisor accepts a goal; the pose query of the first step fails,
which leaves the supervisor in NAV_ERROR; the next step emits the error event and stops the
robot, the one after makes no call. -/
theorem nav_error_step_witness :
    ∃ s1 s2 : CAbstractNavigator ℝ,
      navigationStep (Libm.mk Real.sqrt Real.cos Real.sin)
          (navigate (Libm.mk Real.sqrt Real.cos Real.sin) freshNavigator (goalAt 0 0)
            (envAt 3 4 0)).1
          (Env.mk false (TPose2D.mk 0 0 0) (TTwist2D.mk 0 0 0) 1 false)
        = some (s1, [Call.startWatchdog 1000, Call.sendNavigationStartEvent,
            Call.getCurrentPoseAndSpeeds, Call.stop])
      ∧ navigationStep (Libm.mk Real.sqrt Real.cos Real.sin) s1 (envAt 3 4 2)
        = some (s2, [Call.sendNavigationEndDueToErrorEvent, Call.stop, Call.stopWatchdog])
      ∧ s2.m_navigationState = TState.NAV_ERROR
      ∧ navigationStep (Libm.mk Real.sqrt Real.cos Real.sin) s2 (envAt 3 4 3)
        = some (s2, []) := by
  have h0 := (navigationStep_pose_failure (Libm.mk Real.sqrt Real.cos Real.sin)
    (navigate (Libm.mk Real.sqrt Real.cos Real.sin) freshNavigator (goalAt 0 0)
      (envAt 3 4 0)).1
    (Env.mk false (TPose2D.mk 0 0 0) (TTwist2D.mk 0 0 0) 1 false)
    (by simp [navigate, goalAt]) rfl).2
  obtain ⟨s2, tr, h1, h2, _, h4, _, _, h7⟩ :=
    nav_error_step (Libm.mk Real.sqrt Real.cos Real.sin)
      { (navigate (Libm.mk Real.sqrt Real.cos Real.sin) freshNavigator (goalAt 0 0)
          (envAt 3 4 0)).1 with
        m_curPose := TPose2D.mk 0 0 0
        m_curVel := TTwist2D.mk 0 0 0
        m_navigationState := TState.NAV_ERROR
        m_lastNavigationState := TState.NAVIGATING }
      (envAt 3 4 2) rfl
  rw [h4 rfl] at h1
  refine ⟨_, s2, ?_, h1, h2, h7 _⟩
  rw [h0]
  simp [entryCalls, navigate, goalAt, freshNavigator, CAbstractNavigator.new]

/-- C14: a NAVIGATING step whose behaviour is defined makes its entry calls first, then the
pose query: startWatchdog(1000) if and only if the previous-step state was not NAVIGATING,
followed by sendNavigationStartEvent if and only if the previous-step state was IDLE; neither
call occurs after the pose query, and both are made even if the query then fails. After a
step taken in SUSPENDED and a resume(), the entry calls are the watchdog start alone. -/
theorem navigating_step_entry_calls {R : Type} [LinearOrderedField R] (M : Libm R)
    (s : CAbstractNavigator R) (env : Env R)
    (hs : s.m_navigationState = TState.NAVIGATING)
    (hdef : env.poseOk = true → s.m_navigationParams ≠ none) :
    (∃ s2 rest, navigationStep M s env
        = some (s2, entryCalls s ++ Call.getCurrentPoseAndSpeeds :: rest)
      ∧ (∀ n, Call.startWatchdog n ∉ rest)
      ∧ Call.sendNavigationStartEvent ∉ rest
      ∧ (env.poseOk = false → rest = [Call.stop]))
    ∧ entryCalls s
        = (if s.m_lastNavigationState ≠ TState.NAVIGATING then [Call.startWatchdog 1000]
            else [])
          ++ (if s.m_lastNavigationState = TState.IDLE then [Call.sendNavigationStartEvent]
            else [])
    ∧ (Call.startWatchdog 1000 ∈ entryCalls s ↔ s.m_lastNavigationState ≠ TState.NAVIGATING)
    ∧ (Call.sendNavigationStartEvent ∈ entryCalls s ↔ s.m_lastNavigationState = TState.IDLE)
    ∧ (entryCalls s).count (Call.startWatchdog 1000) ≤ 1
    ∧ (entryCalls s).count Call.sendNavigationStartEvent ≤ 1
    ∧ (∀ (t t1 : CAbstractNavigator R) (e1 : Env R) (tr1 : List Call),
        t.m_navigationState = TState.SUSPENDED →
        navigationStep M t e1 = some (t1, tr1) →
        (resume t1).1.m_navigationState = TState.NAVIGATING
          ∧ entryCalls (resume t1).1 = [Call.startWatchdog 1000]) := by
  refine ⟨?_, rfl, ?_, ?_, ?_, ?_, ?_⟩
  · obtain ⟨s2, tr, h⟩ := navigationStep_returns M s env (fun _ => hdef)
    rcases navigationStep_cases M s s2 env tr h with ⟨hne, _⟩ | ⟨_, hfail, _, rfl⟩ |
      ⟨p, _, hok, _, ⟨_, _, rfl⟩ | ⟨_, _, _, rfl⟩ | ⟨_, _, _, rfl⟩ | ⟨_, _, _, _, rfl⟩⟩
    · exact absurd hs hne
    · exact ⟨s2, [Call.stop], by simpa using h, by simp, by simp, fun _ => rfl⟩
    · refine ⟨s2, _, by simpa [List.append_assoc] using h, ?_, ?_, ?_⟩
      · intro n
        split_ifs <;> simp
      · split_ifs <;> simp
      · intro hf
        rw [hok] at hf
        cases hf
    · refine ⟨s2, _, by simpa [callsBeforeGoalTest, List.append_assoc] using h, ?_, ?_, ?_⟩
      · intro n
        split_ifs <;> simp
      · split_ifs <;> simp
      · intro hf
        rw [hok] at hf
        cases hf
    · refine ⟨s2, _, by simpa [callsBeforeGoalTest, List.append_assoc] using h, ?_, ?_, ?_⟩
      · intro n
        split_ifs <;> simp
      · split_ifs <;> simp
      · intro hf
        rw [hok] at hf
        cases hf
    · refine ⟨s2, _, by simpa [callsBeforeGoalTest, List.append_assoc] using h, ?_, ?_, ?_⟩
      · intro n
        split_ifs <;> simp
      · split_ifs <;> simp
      · intro hf
        rw [hok] at hf
        cases hf
  · cases hl : s.m_lastNavigationState <;> simp [entryCalls, hl]
  · cases hl : s.m_lastNavigationState <;> simp [entryCalls, hl]
  · cases hl : s.m_lastNavigationState <;> simp [entryCalls, hl]
  · cases hl : s.m_lastNavigationState <;> simp [entryCalls, hl]
  · intro t t1 e1 tr1 ht hstep
    have hne : t.m_navigationState ≠ TState.NAVIGATING := by
      rw [ht]
      decide
    rw [navigationStep_outside M t e1 hne] at hstep
    simp only [Option.some.injEq, Prod.mk.injEq] at hstep
    obtain ⟨rfl, _⟩ := hstep
    simp [resume, entryCalls, ht]

/-- Witness of C14: the first step after a fresh supervisor accepted the goal (0, 0): the
previous-step state is IDLE, so the watchdog is started and the start event is emitted before
the pose query. -/
theorem navigating_step_entry_calls_witness :
    ∃ s2 rest,
      navigationStep (Libm.mk Real.sqrt Real.cos Real.sin)
        (navigate (Libm.mk Real.sqrt Real.cos Real.sin) freshNavigator (goalAt 0 0)
          (envAt 3 4 0)).1 (envAt 3 4 0)
        = some (s2, [Call.startWatchdog 1000, Call.sendNavigationStartEvent,
            Call.getCurrentPoseAndSpeeds] ++ rest)
      ∧ Call.sendNavigationStartEvent ∉ rest := by
  obtain ⟨⟨s2, rest, h1, _, h3, _⟩, _⟩ :=
    navigating_step_entry_calls (Libm.mk Real.sqrt Real.cos Real.sin)
      (navigate (Libm.mk Real.sqrt Real.cos Real.sin) freshNavigator (goalAt 0 0)
        (envAt 3 4 0)).1 (envAt 3 4 0)
      (by simp [navigate, goalAt])
      (by simp [navigate, goalAt])
  refine ⟨s2, rest, ?_, h3⟩
  rw [h1]
  simp [entryCalls, navigate, goalAt, freshNavigator, CAbstractNavigator.new]

/-- C15: suspend() changes the current state only from NAVIGATING (to SUSPENDED), resume()
only from SUSPENDED (to NAVIGATING), resetNavError() only from NAV_ERROR (to IDLE); each of
them returns, makes no call and changes no other member of the supervisor. -/
theorem commands_change_state_only {R : Type} (s : CAbstractNavigator R) :
    ((suspend s).1.m_navigationState
        = (if s.m_navigationState = TState.NAVIGATING then TState.SUSPENDED
            else s.m_navigationState)
      ∧ (suspend s).2 = []
      ∧ (suspend s).1 = { s with m_navigationState := (suspend s).1.m_navigationState })
    ∧ ((resume s).1.m_navigationState
        = (if s.m_navigationState = TState.SUSPENDED then TState.NAVIGATING
            else s.m_navigationState)
      ∧ (resume s).2 = []
      ∧ (resume s).1 = { s with m_navigationState := (resume s).1.m_navigationState })
    ∧ ((resetNavError s).1.m_navigationState
        = (if s.m_navigationState = TState.NAV_ERROR then TState.IDLE
            else s.m_navigationState)
      ∧ (resetNavError s).2 = []
      ∧ (resetNavError s).1
        = { s with m_navigationState := (resetNavError s).1.m_navigationState }) := by
  cases hst : s.m_navigationState <;> simp [suspend, resume, resetNavError, hst] <;>
    (try rw [← hst])

/-- C16: over every sequence of step() and command calls that contains no navigate(), the best
distance does not increase; a single call changes it only if it is a NAVIGATING step with a
successful pose query whose distance is not below the allowed distance and is strictly
smaller than the stored value, which then becomes that distance. -/
theorem best_distance_non_increasing {R : Type} [LinearOrderedField R] (M : Libm R)
    (s s2 : CAbstractNavigator R) (cmds : List (Command R × Env R)) (tr : List Call)
    (hno : ∀ ce ∈ cmds, ce.1.isNavigate = false)
    (h : runCommands M s cmds = some (s2, tr)) :
    s2.m_badNavAlarm_minDistTarget ≤ s.m_badNavAlarm_minDistTarget
    ∧ ∀ (c : Command R) (env : Env R) (t t2 : CAbstractNavigator R) (tr1 : List Call),
        c.isNavigate = false → applyCommand M t c env = some (t2, tr1) →
        t2.m_badNavAlarm_minDistTarget ≤ t.m_badNavAlarm_minDistTarget
        ∧ (t2.m_badNavAlarm_minDistTarget ≠ t.m_badNavAlarm_minDistTarget →
            c = Command.navigationStep ∧ t.m_navigationState = TState.NAVIGATING
              ∧ env.poseOk = true
              ∧ ∃ p, t.m_navigationParams = some p
                ∧ ¬ targetDistAt M t p env < p.targetAllowedDistance
                ∧ ((targetDistAt M t p env : R) : WithTop R) < t.m_badNavAlarm_minDistTarget
                ∧ t2.m_badNavAlarm_minDistTarget
                    = ((targetDistAt M t p env : R) : WithTop R)) := by
  refine ⟨(runCommands_effects M cmds s s2 tr hno h).2.1, ?_⟩
  intro c env t t2 tr1 hc h1
  obtain ⟨_, a2, a3, _⟩ := applyCommand_effects M t t2 c env tr1 hc h1
  exact ⟨a2, a3⟩

/-- C17: over every sequence of step() and command calls that contains no navigate() (one
episode), the end event is emitted at most once; if the end-event flag is already set it is
not emitted at all and the flag stays set (only navigate() clears it); and it is never emitted
if the stored goal is an intermediary waypoint. -/
theorem end_event_at_most_once {R : Type} [LinearOrderedField R] (M : Libm R)
    (s s2 : CAbstractNavigator R) (cmds : List (Command R × Env R)) (tr : List Call)
    (hno : ∀ ce ∈ cmds, ce.1.isNavigate = false)
    (h : runCommands M s cmds = some (s2, tr)) :
    tr.count Call.sendNavigationEndEvent ≤ 1
    ∧ (s.m_navigationEndEventSent = true →
        tr.count Call.sendNavigationEndEvent = 0 ∧ s2.m_navigationEndEventSent = true)
    ∧ (∀ p, s.m_navigationParams = some p → p.targetIsIntermediaryWaypoint = true →
        Call.sendNavigationEndEvent ∉ tr) := by
  obtain ⟨_, _, b3, b4, b5⟩ := runCommands_effects M cmds s s2 tr hno h
  refine ⟨b3, b4, ?_⟩
  intro p hp hw
  exact List.count_eq_zero.1 (b5 p hp hw)

/-- C19: over every sequence of step(), cancel(), suspend(), resume() and resetNavError()
calls (no navigate()), whatever the states and the pose-query outcomes, the stored
navigation parameters stay exactly as they were. -/
theorem params_changed_only_by_navigate {R : Type} [LinearOrderedField R] (M : Libm R)
    (s s2 : CAbstractNavigator R) (cmds : List (Command R × Env R)) (tr : List Call)
    (hno : ∀ ce ∈ cmds, ce.1.isNavigate = false)
    (h : runCommands M s cmds = some (s2, tr)) :
    s2.m_navigationParams = s.m_navigationParams :=
  (runCommands_effects M cmds s s2 tr hno h).1

/-- Witness of C16: a fresh supervisor accepts the goal (4, 3) with the robot at (0, 0) and
records the best distance 5 on its first step; over the following step (robot at (8, 0),
distance 3), suspend() and step, the best distance is lowered to 3 by the navigating step and
is not larger afterwards than before. -/
theorem best_distance_non_increasing_witness :
    ∃ s1 s3 : CAbstractNavigator ℝ,
      navigationStep (Libm.mk Real.sqrt Real.cos Real.sin)
          (navigate (Libm.mk Real.sqrt Real.cos Real.sin) freshNavigator (goalAt 4 3)
            (envAt 0 0 0)).1 (envAt 0 0 0)
        = some (s1, [Call.startWatchdog 1000, Call.sendNavigationStartEvent,
            Call.getCurrentPoseAndSpeeds, Call.performNavigationStep])
      ∧ s1.m_badNavAlarm_minDistTarget = ((5 : ℝ) : WithTop ℝ)
      ∧ runCommands (Libm.mk Real.sqrt Real.cos Real.sin) s1
          [(Command.navigationStep, envAt 8 0 1), (Command.suspend, envAt 8 0 2),
            (Command.navigationStep, envAt 8 0 2)]
        = some (s3, [Call.getCurrentPoseAndSpeeds, Call.performNavigationStep,
            Call.stopWatchdog])
      ∧ s3.m_badNavAlarm_minDistTarget = ((3 : ℝ) : WithTop ℝ)
      ∧ s3.m_badNavAlarm_minDistTarget ≤ s1.m_badNavAlarm_minDistTarget
      ∧ s3.m_badNavAlarm_minDistTarget ≠ s1.m_badNavAlarm_minDistTarget := by
  obtain ⟨s1, s3, h1, h2, h3, h4⟩ := improve_example_evaluation
  refine ⟨s1, s3, h1, h2, h3, h4, (best_distance_non_increasing _ s1 s3 _ _
    (by
      intro ce hce
      simp only [List.mem_cons, List.mem_singleton, List.not_mem_nil, or_false] at hce
      rcases hce with rfl | rfl | rfl <;> rfl) h3).1, ?_⟩
  rw [h2, h4]
  intro h
  have h5 := WithTop.coe_injective h
  norm_num at h5

/-- Witness of C17: a fresh supervisor accepts the goal (0, 0) with the robot standing on it
and then takes two steps and a cancel(); the end event is emitted once. -/
theorem end_event_at_most_once_witness :
    ∃ s3 : CAbstractNavigator ℝ,
      runCommands (Libm.mk Real.sqrt Real.cos Real.sin)
        (navigate (Libm.mk Real.sqrt Real.cos Real.sin) freshNavigator (goalAt 0 0)
          (envAt 0 0 0)).1
        [(Command.navigationStep, envAt 0 0 1), (Command.navigationStep, envAt 0 0 2),
          (Command.cancel, envAt 0 0 3)]
      = some (s3, [Call.startWatchdog 1000, Call.sendNavigationStartEvent,
          Call.getCurrentPoseAndSpeeds, Call.stop, Call.sendNavigationEndEvent,
          Call.stopWatchdog, Call.stop])
      ∧ List.count Call.sendNavigationEndEvent [Call.startWatchdog 1000, Call.sendNavigationStartEvent,
          Call.getCurrentPoseAndSpeeds, Call.stop, Call.sendNavigationEndEvent,
          Call.stopWatchdog, Call.stop] ≤ 1 := by
  obtain ⟨s3, h⟩ := reach_example_evaluation
  exact ⟨s3, h, (end_event_at_most_once _ _ s3 _ _
    (by
      intro ce hce
      simp only [List.mem_cons, List.mem_singleton, List.not_mem_nil, or_false] at hce
      rcases hce with rfl | rfl | rfl <;> rfl) h).1⟩

/-- Witness of C19: a fresh supervisor accepts the goal (0, 0) with the robot standing on it
and then takes two steps and a cancel(); the stored parameters are still that goal. -/
theorem params_changed_only_by_navigate_witness :
    ∃ s3 : CAbstractNavigator ℝ,
      runCommands (Libm.mk Real.sqrt Real.cos Real.sin)
        (navigate (Libm.mk Real.sqrt Real.cos Real.sin) freshNavigator (goalAt 0 0)
          (envAt 0 0 0)).1
        [(Command.navigationStep, envAt 0 0 1), (Command.navigationStep, envAt 0 0 2),
          (Command.cancel, envAt 0 0 3)]
      = some (s3, [Call.startWatchdog 1000, Call.sendNavigationStartEvent,
          Call.getCurrentPoseAndSpeeds, Call.stop, Call.sendNavigationEndEvent,
          Call.stopWatchdog, Call.stop])
      ∧ s3.m_navigationParams = some (goalAt 0 0) := by
  obtain ⟨s3, h⟩ := reach_example_evaluation
  refine ⟨s3, h, ?_⟩
  rw [params_changed_only_by_navigate _ _ s3 _ _
    (by
      intro ce hce
      simp only [List.mem_cons, List.mem_singleton, List.not_mem_nil, or_false] at hce
      rcases hce with rfl | rfl | rfl <;> rfl) h]
  simp [navigate, goalAt]

/-- C18: from the freshly constructed supervisor (IDLE, no parameters, whatever its
uninitialised members hold), every sequence of navigate, cancel, suspend, resume,
resetNavError and step calls with arbitrary pose-query outcomes returns (no step reads a
missing target), and in the state it reaches, if the current state is NAVIGATING or SUSPENDED
then parameters are stored and their targetIsRelative flag is false. -/
theorem reachable_target_resolved {R : Type} [LinearOrderedField R] (M : Libm R)
    (lastPose : TPose2D R) (minDist : WithTop R) (lastMinDistTime : R)
    (cmds : List (Command R × Env R)) :
    ∃ s tr, runCommands M (CAbstractNavigator.new lastPose minDist lastMinDistTime) cmds
        = some (s, tr)
      ∧ ((s.m_navigationState = TState.NAVIGATING ∨ s.m_navigationState = TState.SUSPENDED) →
          ∃ p, s.m_navigationParams = some p ∧ p.targetIsRelative = false) := by
  apply runCommands_targetResolved M cmds
  intro h
  simp [CAbstractNavigator.new] at h

/-- C20 (counterexample): a freshly constructed supervisor is IDLE; navigate() with a relative
target and a failing pose query leaves it in NAV_ERROR, not in IDLE. -/
theorem failed_relative_navigate_from_idle_errors :
    (freshNavigator : CAbstractNavigator ℝ).m_navigationState = TState.IDLE
    ∧ (TNavigationParams.mk (TPose2D.mk (1 : ℝ) 0 0) (1 / 2) true false).targetIsRelative = true
    ∧ (Env.mk false (TPose2D.mk (0 : ℝ) 0 0) (TTwist2D.mk 0 0 0) 0 false).poseOk = false
    ∧ (navigate (Libm.mk Real.sqrt Real.cos Real.sin) freshNavigator
        (TNavigationParams.mk (TPose2D.mk (1 : ℝ) 0 0) (1 / 2) true false)
        (Env.mk false (TPose2D.mk (0 : ℝ) 0 0) (TTwist2D.mk 0 0 0) 0 false)).1.m_navigationState
      = TState.NAV_ERROR
    ∧ (navigate (Libm.mk Real.sqrt Real.cos Real.sin) freshNavigator
        (TNavigationParams.mk (TPose2D.mk (1 : ℝ) 0 0) (1 / 2) true false)
        (Env.mk false (TPose2D.mk (0 : ℝ) 0 0) (TTwist2D.mk 0 0 0) 0 false)).1.m_navigationState
      ≠ TState.IDLE := by
  refine ⟨rfl, rfl, rfl, ?_, ?_⟩ <;> simp [navigate, doEmergencyStop]

/-- C20 (amended): when navigate() is called with a relative target and the pose query fails,
the resulting state is NAV_ERROR whatever the state at the call (also from IDLE); the
parameters given are stored unresolved, the end-event flag is cleared and nothing else
changes. -/
theorem failed_relative_navigate_always_error {R : Type} [LinearOrderedField R] (M : Libm R)
    (s : CAbstractNavigator R) (p : TNavigationParams R) (env : Env R)
    (hrel : p.targetIsRelative = true) (hfail : env.poseOk = false) :
    (navigate M s p env).1
      = { s with m_navigationEndEventSent := false
                 m_navigationParams := some p
                 m_navigationState := TState.NAV_ERROR }
    ∧ (s.m_navigationState = TState.IDLE →
        (navigate M s p env).1.m_navigationState = TState.NAV_ERROR)
    ∧ (s.m_navigationState = TState.NAVIGATING →
        (navigate M s p env).1.m_navigationState = TState.NAV_ERROR) := by
  simp [navigate, hrel, hfail, doEmergencyStop]

/-- Witness of C20 (amended): the freshly constructed, IDLE supervisor of the
counterexample. -/
theorem failed_relative_navigate_always_error_witness :
    (navigate (Libm.mk Real.sqrt Real.cos Real.sin) freshNavigator
        (TNavigationParams.mk (TPose2D.mk (1 : ℝ) 0 0) (1 / 2) true false)
        (Env.mk false (TPose2D.mk (0 : ℝ) 0 0) (TTwist2D.mk 0 0 0) 0 false)).1.m_navigationState
      = TState.NAV_ERROR :=
  (failed_relative_navigate_always_error (Libm.mk Real.sqrt Real.cos Real.sin) freshNavigator
    (TNavigationParams.mk (TPose2D.mk (1 : ℝ) 0 0) (1 / 2) true false)
    (Env.mk false (TPose2D.mk (0 : ℝ) 0 0) (TTwist2D.mk 0 0 0) 0 false) rfl rfl).2.1 rfl

/-- C22: getAsText() returns four newline-terminated lines in the order target,
targetAllowedDistance, targetIsRelative, targetIsIntermediaryWaypoint; the three target
coordinates and the allowed distance are rendered with exactly three digits after the decimal
point, each flag as YES when true and NO when false; for the default parameters the text is
the one given. -/
theorem getAsText_four_lines (p : TNavigationParams ℚ) :
    p.getAsText formatFixed3
      = ("navparams.target = (" ++ formatFixed3 p.target.x ++ "," ++ formatFixed3 p.target.y
          ++ "," ++ formatFixed3 p.target.phi ++ " deg)\n")
        ++ ("navparams.targetAllowedDistance = " ++ formatFixed3 p.targetAllowedDistance
          ++ "\n")
        ++ ("navparams.targetIsRelative = "
          ++ (if p.targetIsRelative then "YES" else "NO") ++ "\n")
        ++ ("navparams.targetIsIntermediaryWaypoint = "
          ++ (if p.targetIsIntermediaryWaypoint then "YES" else "NO") ++ "\n")
    ∧ (p.getAsText formatFixed3).data.count '\n' = 4
    ∧ (∀ q : ℚ, ∃ (sign intPart : String) (a b c : Char),
        formatFixed3 q = sign ++ intPart ++ "." ++ String.mk [a, b, c]
          ∧ (sign = "" ∨ sign = "-")
          ∧ (∀ ch ∈ intPart.data, ch.isDigit = true)
          ∧ a.isDigit = true ∧ b.isDigit = true ∧ c.isDigit = true)
    ∧ (TNavigationParams.default : TNavigationParams ℚ).getAsText formatFixed3
      = "navparams.target = (0.000,0.000,0.000 deg)\nnavparams.targetAllowedDistance = 0.500\nnavparams.targetIsRelative = NO\nnavparams.targetIsIntermediaryWaypoint = NO\n" := by
  refine ⟨?_, ?_, ?_, ?_⟩
  · apply String.ext
    simp [TNavigationParams.getAsText, String.data_append]
  · have h1 := formatFixed3_no_newline p.target.x
    have h2 := formatFixed3_no_newline p.target.y
    have h3 := formatFixed3_no_newline p.target.phi
    have h4 := formatFixed3_no_newline p.targetAllowedDistance
    simp only [TNavigationParams.getAsText, String.data_append, List.count_append,
      List.count_eq_zero_of_not_mem h1, List.count_eq_zero_of_not_mem h2,
      List.count_eq_zero_of_not_mem h3, List.count_eq_zero_of_not_mem h4]
    cases p.targetIsRelative <;> cases p.targetIsIntermediaryWaypoint <;> decide
  · intro q
    refine ⟨if q < 0 then "-" else "", toString (roundedThousandths q / 1000), _, _, _, rfl,
      ?_, natToString_isDigit _, ?_, ?_, ?_⟩
    · split_ifs <;> simp
    · exact digitChar_isDigit _ (Nat.div_lt_of_lt_mul (Nat.mod_lt _ (by norm_num)))
    · exact digitChar_isDigit _ (Nat.mod_lt _ (by norm_num))
    · exact digitChar_isDigit _ (Nat.mod_lt _ (by norm_num))
  · with_unfolding_all rfl

/-- C24 (evaluation of the code at the failing input): for the angle -2*pi the truncated
remainder is 0 and, the angle being negative, 2*pi is added: wrapTo2Pi returns 2*pi, which is
not in the half-open interval from 0 to 2*pi. For every angle the result lies in the closed
interval, differs from the angle by an integer multiple of 2*pi, and equals 2*pi exactly for
the negative integer multiples of 2*pi. -/
theorem wrapTo2Pi_at_minus_two_pi :
    wrapTo2Pi (2 * Real.pi) (-(2 * Real.pi)) = 2 * Real.pi
    ∧ ¬ wrapTo2Pi (2 * Real.pi) (-(2 * Real.pi)) < 2 * Real.pi
    ∧ ∀ a : ℝ, 0 ≤ wrapTo2Pi (2 * Real.pi) a ∧ wrapTo2Pi (2 * Real.pi) a ≤ 2 * Real.pi
        ∧ (∃ k : ℤ, wrapTo2Pi (2 * Real.pi) a - a = (k : ℝ) * (2 * Real.pi))
        ∧ (wrapTo2Pi (2 * Real.pi) a = 2 * Real.pi ↔
            a < 0 ∧ ∃ k : ℤ, a = (k : ℝ) * (2 * Real.pi)) := by
  have hpos : (0 : ℝ) < 2 * Real.pi := by positivity
  have h := wrapTo2Pi_neg_period (2 * Real.pi) hpos
  refine ⟨h, ?_, fun a => wrapTo2Pi_range (2 * Real.pi) hpos a⟩
  rw [h]
  exact lt_irrefl _

/-- C23: after every step that returns, the previous-state field holds the current state as it
was at entry to the step (not the state the step ended in), and no command modifies the
field. Consequently, from a fresh supervisor, a failed relative navigate(), a step(), a
navigate() with an absolute target and a step() give a first NAVIGATING step that starts the
watchdog but emits no start event. -/
theorem previous_state_is_entry_state {R : Type} [LinearOrderedField R] (M : Libm R)
    (s s2 : CAbstractNavigator R) (env : Env R) (tr : List Call)
    (h : navigationStep M s env = some (s2, tr)) :
    s2.m_lastNavigationState = s.m_navigationState
    ∧ (∀ (t : CAbstractNavigator R) (p : TNavigationParams R) (e : Env R),
        (navigate M t p e).1.m_lastNavigationState = t.m_lastNavigationState
        ∧ (cancel t).1.m_lastNavigationState = t.m_lastNavigationState
        ∧ (suspend t).1.m_lastNavigationState = t.m_lastNavigationState
        ∧ (resume t).1.m_lastNavigationState = t.m_lastNavigationState
        ∧ (resetNavError t).1.m_lastNavigationState = t.m_lastNavigationState)
    ∧ (∀ (p1 p2 : TNavigationParams R) (e1 e2 e3 e4 : Env R),
        p1.targetIsRelative = true → e1.poseOk = false → p2.targetIsRelative = false →
        ∃ s4 rest,
          runCommands M freshNavigator
            [(Command.navigate p1, e1), (Command.navigationStep, e2),
              (Command.navigate p2, e3), (Command.navigationStep, e4)]
          = some (s4, [Call.getCurrentPoseAndSpeeds, Call.stop, Call.startWatchdog 1000,
              Call.getCurrentPoseAndSpeeds] ++ rest)
          ∧ Call.sendNavigationStartEvent ∉ rest) := by
  refine ⟨(navigationStep_frame M s s2 env tr h).1, ?_, ?_⟩
  · intro t p e
    refine ⟨?_, rfl, ?_, ?_, ?_⟩
    · cases hrel : p.targetIsRelative <;> cases hok : e.poseOk <;>
        simp [navigate, doEmergencyStop, hrel, hok]
    · by_cases hs : t.m_navigationState = TState.NAVIGATING <;> simp [suspend, hs]
    · by_cases hs : t.m_navigationState = TState.SUSPENDED <;> simp [resume, hs]
    · by_cases hs : t.m_navigationState = TState.NAV_ERROR <;> simp [resetNavError, hs]
  · intro p1 p2 e1 e2 e3 e4 hrel hfail habs
    exact start_event_skipped_scenario M p1 p2 e1 e2 e3 e4 hrel hfail habs

/-- Witness of C23: the fresh supervisor is given the relative target (1, 0) while the pose
query fails; the step taken in NAV_ERROR leaves NAV_ERROR in the previous-state field; the
goal (0, 0) is then accepted and the first navigating step, with the robot at (3, 4), starts
the watchdog without a start event. -/
theorem previous_state_is_entry_state_witness :
    ∃ (s4 : CAbstractNavigator ℝ) (rest : List Call),
      runCommands (Libm.mk Real.sqrt Real.cos Real.sin) freshNavigator
        [(Command.navigate (TNavigationParams.mk (TPose2D.mk 1 0 0) (1 / 2) true false),
            Env.mk false (TPose2D.mk 0 0 0) (TTwist2D.mk 0 0 0) 0 false),
          (Command.navigationStep, envAt 3 4 1),
          (Command.navigate (goalAt 0 0), envAt 3 4 2),
          (Command.navigationStep, envAt 3 4 2)]
      = some (s4, [Call.getCurrentPoseAndSpeeds, Call.stop, Call.startWatchdog 1000,
          Call.getCurrentPoseAndSpeeds] ++ rest)
      ∧ Call.sendNavigationStartEvent ∉ rest :=
  (previous_state_is_entry_state (Libm.mk Real.sqrt Real.cos Real.sin)
    (navigate (Libm.mk Real.sqrt Real.cos Real.sin) freshNavigator
      (TNavigationParams.mk (TPose2D.mk 1 0 0) (1 / 2) true false)
      (Env.mk false (TPose2D.mk 0 0 0) (TTwist2D.mk 0 0 0) 0 false)).1
    _ (envAt 3 4 1) _
    (navigationStep_outside (Libm.mk Real.sqrt Real.cos Real.sin) _ (envAt 3 4 1)
      (by simp [navigate, doEmergencyStop]))).2.2
    (TNavigationParams.mk (TPose2D.mk 1 0 0) (1 / 2) true false) (goalAt 0 0)
    (Env.mk false (TPose2D.mk 0 0 0) (TTwist2D.mk 0 0 0) 0 false)
    (envAt 3 4 1) (envAt 3 4 2) (envAt 3 4 2) rfl rfl rfl

end MRPT
